import Mathlib

/-!
# RDS instance resource: polling, lookup, Read, Update and Create

A shallow embedding of
`huaweicloud/services/rds/resource_huaweicloud_rds_instance.go`:

* the lookup `GetRdsInstanceByID` and the two refresh closures
  `rdsInstanceStateRefreshFunc` and `rdsInstanceJobRefreshFunc`;
* the poll specifications (`resource.StateChangeConf` literals) that Create,
  Update, Delete and the update helpers build;
* the poll-until-state loop those specifications are handed to.  The loop is
  the plugin SDK's and its code is not part of the source tree, so it is
  written down from the specification (section 4.1);
* the operations `resourceRdsInstanceRead`, `resourceRdsInstanceUpdate` and
  `resourceRdsInstanceCreate` with their helpers, as functions of the resource
  data and of the answers of the cloud API, which return the new resource
  data, the diagnostics and the list of requests and waits they made.

Go `error` values are represented by their message, a `nil` error by `none`.
Durations are natural numbers of nanoseconds, as `time.Duration` is.
-/

namespace Rds

/-! ## Basic types -/

/-- A Go `error`, identified with its message. -/
abbrev GoError := String

/-- A `time.Duration`: a number of nanoseconds. -/
abbrev Duration := Nat

/-- The constant `time.Second`. -/
def Second : Duration := 1000000000

/-- The constant `time.Minute`. -/
def Minute : Duration := 60 * Second

/-- A Go `int`. -/
abbrev GoInt := Int

/-- The field of `instance.Ha` that the source reads. -/
structure HaResp where
  ReplicationMode : String := ""
  deriving DecidableEq, Repr

/-- The field of `instance.ChargeInfo` that the source reads. -/
structure ChargeInfoResp where
  ChargeMode : String := ""
  deriving DecidableEq, Repr

/-- One element of `instance.Tags`. -/
structure ResourceTag where
  Key : String := ""
  Value : String := ""
  deriving DecidableEq, Repr

/-- The fields of `instance.Volume` that the source reads; `Type_` is the Go
field `Type`. -/
structure VolumeResp where
  Type_ : String := ""
  Size : GoInt := 0
  deriving DecidableEq, Repr

/-- The fields of `instance.DataStore` that the source reads; `Type_` is the
Go field `Type`. -/
structure DataStoreResp where
  Type_ : String := ""
  Version : String := ""
  deriving DecidableEq, Repr

/-- The fields of `instance.BackupStrategy` that the source reads. -/
structure BackupStrategyResp where
  StartTime : String := ""
  KeepDays : GoInt := 0
  deriving DecidableEq, Repr

/-- One element of `instance.Nodes`. -/
structure NodeResp where
  Id : String := ""
  Name : String := ""
  Role : String := ""
  Status : String := ""
  AvailabilityZone : String := ""
  deriving DecidableEq, Repr

/-- The fields of `instances.RdsInstanceResponse` that the source reads.
The zero value of the Go struct has every field empty. -/
structure RdsInstanceResponse where
  Id : String := ""
  Status : String := ""
  Name : String := ""
  Region : String := ""
  Created : String := ""
  Ha : HaResp := {}
  VpcId : String := ""
  SubnetId : String := ""
  SecurityGroupId : String := ""
  FlavorRef : String := ""
  TimeZone : String := ""
  EnterpriseProjectId : String := ""
  ChargeInfo : ChargeInfoResp := {}
  Tags : List ResourceTag := []
  PublicIps : List String := []
  PrivateIps : List String := []
  Volume : VolumeResp := {}
  DiskEncryptionId : String := ""
  DataStore : DataStoreResp := {}
  Port : GoInt := 0
  DbUserName : String := ""
  BackupStrategy : BackupStrategyResp := {}
  Nodes : List NodeResp := []
  deriving DecidableEq, Repr

/-- The fields of the job record returned by `instances.GetRDSJob` that the
polling code reads. -/
structure RDSJob where
  Id : String := ""
  Status : String := ""
  deriving DecidableEq, Repr

/-- What the paged listing `instances.List(client, listOpts).AllPages()`
followed by `instances.ExtractRdsInstances(pages)` can produce. -/
inductive ListResult where
  | pagesError (err : GoError)
  | extractError (err : GoError)
  | instances (instanceList : List RdsInstanceResponse)
  deriving DecidableEq, Repr

/-! ## Observations and poll specifications -/

/-- One result of the observation function: `(value, state label, error)`.
A `nil` value or error is `none`. -/
structure Observation (α : Type) where
  value : Option α
  state : String
  err : Option GoError
  deriving DecidableEq, Repr

/-- Modelled from the spec: the Poll Specification of section 3, missing from
the source tree as the SDK type `resource.StateChangeConf`.  Field names are
the ones the callers in the source set; a field that a caller leaves out has
Go's zero value.  The `Refresh` field is passed to the loop separately, as the
list of observations the function returns on its successive invocations. -/
structure StateChangeConf where
  Pending : List String := []
  Target : List String := []
  Timeout : Duration := 0
  Delay : Duration := 0
  PollInterval : Duration := 0
  ContinuousTargetOccurence : Nat := 0
  deriving DecidableEq, Repr

/-- Modelled from the spec: the error kinds of section 7 that the polling loop
(SDK code missing from the source tree) can return: the observation
function's own error, passed on unchanged; an unexpected remote state; a
timeout. -/
inductive WaitError where
  | refresh (err : GoError)
  | unexpectedState (state : String)
  | timeout
  deriving DecidableEq, Repr

/-- How a wait stands after a given list of observations: it has returned the
final observation, it has returned an error, or it is still polling (the
list of observations is used up before the wait has returned). -/
inductive WaitResult (α : Type) where
  | success (final : Observation α)
  | failed (err : WaitError)
  | running
  deriving DecidableEq, Repr

/-- A wait result together with the number of invocations of the observation
function that were made and the time, counted from the start of the wait, at
which the wait returned (for a running wait: at which its next poll is due). -/
structure WaitReport (α : Type) where
  result : WaitResult α
  polls : Nat
  elapsed : Duration
  deriving DecidableEq, Repr

/-- Modelled from the spec: the required number of consecutive target
observations (missing SDK code).  The callers that do not set
`ContinuousTargetOccurence` leave Go's zero value, and the specification's
Delete scenario succeeds on the first target observation, so zero stands for
one. -/
def StateChangeConf.required (conf : StateChangeConf) : Nat :=
  if conf.ContinuousTargetOccurence = 0 then 1 else conf.ContinuousTargetOccurence

/-- Modelled from the spec: the time at which the invocation number `polls`
(counted from zero) of the observation function is due: after the initial
delay, then on the fixed poll interval (missing SDK code). -/
def StateChangeConf.pollTime (conf : StateChangeConf) (polls : Nat) : Duration :=
  conf.Delay + polls * conf.PollInterval

/-- Modelled from the spec: the poll-until-state loop of section 4.1 (the SDK
method `WaitForStateContext`, missing from the source tree).  `count` is the
number of consecutive target observations seen so far, `polls` the number of
invocations made so far.  Before each invocation the deadline is checked: once
the timeout has fired no request is issued and the timeout error is returned
at the deadline.  Otherwise the next observation is taken and

* an error of the observation function is returned as it is;
* a state in the target set counts one more consecutive occurrence, and the
  wait succeeds with this observation when the required number is reached;
* a state in the pending set starts the count again;
* any other state is an unexpected-state error.

The rules are tried in this order, so a state listed in both sets counts as a
target state. -/
def pollLoop {α : Type} (conf : StateChangeConf) :
    List (Observation α) → Nat → Nat → WaitReport α
  | [], _, polls =>
    if conf.Timeout ≤ conf.pollTime polls then
      { result := .failed .timeout, polls := polls, elapsed := conf.Timeout }
    else
      { result := .running, polls := polls, elapsed := conf.pollTime polls }
  | o :: rest, count, polls =>
    if conf.Timeout ≤ conf.pollTime polls then
      { result := .failed .timeout, polls := polls, elapsed := conf.Timeout }
    else
      match o.err with
      | some err =>
        { result := .failed (.refresh err), polls := polls + 1,
          elapsed := conf.pollTime polls }
      | none =>
        if o.state ∈ conf.Target then
          if conf.required ≤ count + 1 then
            { result := .success o, polls := polls + 1, elapsed := conf.pollTime polls }
          else
            pollLoop conf rest (count + 1) (polls + 1)
        else if o.state ∈ conf.Pending then
          pollLoop conf rest 0 (polls + 1)
        else
          { result := .failed (.unexpectedState o.state), polls := polls + 1,
            elapsed := conf.pollTime polls }

/-- Modelled from the spec: `stateConf.WaitForStateContext(ctx)` (missing SDK
code): the loop started with no target occurrence and no invocation made. -/
def WaitForStateContext {α : Type} (conf : StateChangeConf)
    (refresh : List (Observation α)) : WaitReport α :=
  pollLoop conf refresh 0 0

/-- Modelled from the spec: `stateConf.WaitForState()` (missing SDK code), the
same wait without a caller-supplied context. -/
def WaitForState {α : Type} (conf : StateChangeConf)
    (refresh : List (Observation α)) : WaitReport α :=
  WaitForStateContext conf refresh

/-! ## Lookup and refresh functions of the source -/

/-- `GetRdsInstanceByID(client, instanceID)`; the client's answer to the
listing filtered by `instanceID` is the argument `listing`. -/
def GetRdsInstanceByID (listing : ListResult) (instanceID : String) :
    Except GoError RdsInstanceResponse :=
  match listing with
  | .pagesError err =>
    .error ("An error occurred while querying rds instance " ++ instanceID ++ ": " ++ err)
  | .extractError err => .error err
  | .instances instanceList =>
    if h0 : instanceList.length = 0 then
      -- return an empty rds instance
      .ok {}
    else if instanceList.length > 1 then
      .error ("retrieving more than one rds instance by " ++ instanceID)
    else
      let first := instanceList.get ⟨0, Nat.pos_of_ne_zero h0⟩
      if first.Id ≠ instanceID then
        .error ("the id of rds instance was expected " ++ instanceID ++ ", but got " ++ first.Id)
      else
        .ok first

/-- The body of the closure returned by `rdsInstanceStateRefreshFunc`, after
its call of `GetRdsInstanceByID` has returned `lookup`. -/
def stateOfLookup (lookup : Except GoError RdsInstanceResponse) :
    Observation RdsInstanceResponse :=
  match lookup with
  | .error err => { value := none, state := "FOUND ERROR", err := some err }
  | .ok inst =>
    if inst.Id = "" then
      { value := some inst, state := "DELETED", err := none }
    else
      { value := some inst, state := inst.Status, err := none }

/-- One invocation of the closure that `rdsInstanceStateRefreshFunc` returns
for `instanceID`, when the client answers the listing with `listing`. -/
def rdsInstanceStateRefreshFunc (listing : ListResult) (instanceID : String) :
    Observation RdsInstanceResponse :=
  stateOfLookup (GetRdsInstanceByID listing instanceID)

/-- One invocation of the closure `rdsInstanceJobRefreshFunc(client, jobID)`,
when `instances.GetRDSJob(client, jobOpts).Extract()` returns `lookup`. -/
def rdsInstanceJobRefreshFunc (lookup : Except GoError RDSJob) : Observation RDSJob :=
  match lookup with
  | .error err => { value := none, state := "FOUND ERROR", err := some err }
  | .ok job => { value := some job, state := job.Status, err := none }

/-! ## Poll specifications built by the source -/

/-- The poll specification of `resourceRdsInstanceCreate` for the creation
wait; `timeout` is `d.Timeout(schema.TimeoutCreate)`. -/
def createStateConf (timeout : Duration) : StateChangeConf :=
  { Pending := ["BUILD"]
    Target := ["ACTIVE", "BACKING UP"]
    Timeout := timeout
    Delay := 20 * Second
    PollInterval := 10 * Second
    ContinuousTargetOccurence := 2 }

/-- The poll specification of `resourceRdsInstanceCreate` for the wait after
the reboot; `timeout` is `d.Timeout(schema.TimeoutDefault)`. -/
def createRebootStateConf (timeout : Duration) : StateChangeConf :=
  { Target := ["ACTIVE"]
    Timeout := timeout
    Delay := 5 * Second
    PollInterval := 5 * Second }

/-- The poll specification of `resourceRdsInstanceUpdate` for its initial
wait; `timeout` is `d.Timeout(schema.TimeoutDefault)`. -/
def updateStateConf (timeout : Duration) : StateChangeConf :=
  { Target := ["ACTIVE"]
    Timeout := timeout
    Delay := 5 * Second
    PollInterval := 5 * Second
    ContinuousTargetOccurence := 3 }

/-- The poll specification of `resourceRdsInstanceDelete`; `timeout` is
`d.Timeout(schema.TimeoutDelete)`. -/
def deleteStateConf (timeout : Duration) : StateChangeConf :=
  { Pending := ["ACTIVE"]
    Target := ["DELETED"]
    Timeout := timeout
    Delay := 15 * Second
    PollInterval := 5 * Second }

/-- The poll specification of `updateRdsInstanceName`; `timeout` is
`d.Timeout(schema.TimeoutUpdate)`. -/
def renameStateConf (timeout : Duration) : StateChangeConf :=
  { Pending := ["MODIFYING"]
    Target := ["ACTIVE"]
    Timeout := timeout
    Delay := 5 * Second
    PollInterval := 3 * Second }

/-- The poll specification of `checkRDSInstanceJobFinish`. -/
def jobStateConf (timeout : Duration) : StateChangeConf :=
  { Pending := ["Running"]
    Target := ["Completed"]
    Timeout := timeout
    Delay := 20 * Second
    PollInterval := 10 * Second }

/-! ## What the callers do with the error of a wait -/

/-- Severity of a diagnostic. -/
inductive Severity where
  | Error
  | Warning
  deriving DecidableEq, Repr

/-- One diagnostic handed to the configuration engine. -/
structure Diagnostic where
  severity : Severity
  summary : String
  detail : String := ""
  deriving DecidableEq, Repr

/-- The value an operation returns: `nil` is the empty list. -/
abbrev Diagnostics := List Diagnostic

/-- Modelled from the spec: the SDK helper `diag.Errorf` (missing from the
source tree), an operation failure carrying the formatted message. -/
def diagErrorf (message : String) : Diagnostics :=
  [{ severity := .Error, summary := message }]

/-- Modelled from the spec: the SDK helper `diag.FromErr` (missing from the
source tree) on a non-nil error, an operation failure carrying that error. -/
def diagFromErr (err : GoError) : Diagnostics :=
  [{ severity := .Error, summary := err }]

/-- Whether an operation's diagnostics report a failure. -/
def HasError (diags : Diagnostics) : Bool :=
  diags.any fun d => d.severity == .Error

/-- The text `%s` prints for the error of a wait.  An error of the observation
function is the very same error value; the texts of the SDK's own errors are
not in the source tree and are given by `sdkText`. -/
def WaitError.Error (sdkText : WaitError → String) : WaitError → String
  | .refresh err => err
  | e => sdkText e

/-- The return of `resourceRdsInstanceCreate` right after its creation wait
returned `err`: the failure, or `none` when the operation goes on. -/
def createWaitReturn (sdkText : WaitError → String) (instanceID : String)
    (err : Option WaitError) : Option Diagnostics :=
  match err with
  | some e =>
    some (diagErrorf ("error waiting for RDS instance (" ++ instanceID
      ++ ") creation completed: " ++ e.Error sdkText))
  | none => none

/-- The return of `resourceRdsInstanceCreate` right after its post-reboot wait
returned `err`: the failure, or `none` when the operation goes on. -/
def createRebootWaitReturn (sdkText : WaitError → String) (instanceID : String)
    (err : Option WaitError) : Option Diagnostics :=
  match err with
  | some e =>
    some (diagErrorf ("error waiting for RDS instance (" ++ instanceID
      ++ ") become active state: " ++ e.Error sdkText))
  | none => none

/-- The return of `resourceRdsInstanceUpdate` right after its initial wait
returned `err`: the failure, or `none` when the operation goes on. -/
def updateWaitReturn (sdkText : WaitError → String) (instanceID : String)
    (err : Option WaitError) : Option Diagnostics :=
  match err with
  | some e =>
    some (diagErrorf ("error waiting for RDS instance (" ++ instanceID
      ++ ") become active state: " ++ e.Error sdkText))
  | none => none

/-- The return of `resourceRdsInstanceDelete` after its wait returned `err`:
the failure, or `nil` (the wait was the operation's last step). -/
def deleteWaitReturn (sdkText : WaitError → String) (id : String)
    (err : Option WaitError) : Diagnostics :=
  match err with
  | some e =>
    diagErrorf ("error waiting for rds instance (" ++ id ++ ") to be deleted: "
      ++ e.Error sdkText ++ " ")
  | none => []

/-- The return of `updateRdsInstanceName` after its wait returned `err`. -/
def renameWaitReturn (sdkText : WaitError → String) (instanceID : String)
    (err : Option WaitError) : Option GoError :=
  match err with
  | some e =>
    some ("error waiting for RDS instance (" ++ instanceID
      ++ ") flavor to be updated: " ++ e.Error sdkText ++ " ")
  | none => none

/-- The return of `checkRDSInstanceJobFinish` after its wait returned `err`. -/
def checkRDSInstanceJobFinishReturn (sdkText : WaitError → String) (jobID : String)
    (err : Option WaitError) : Option GoError :=
  match err with
  | some e =>
    some ("error waiting for RDS instance (" ++ jobID
      ++ ") job to be completed: " ++ e.Error sdkText ++ " ")
  | none => none

/-! ## The destroy check of the acceptance test -/

/-- The loop of `testAccCheckRdsInstanceDestroy(rsType)` over the resources of
the state, each a pair of its type and its primary ID, in the order the loop
visits them; `client id` is the client's answer to the listing filtered by
`id`.  The result is the error returned, `none` for `nil`. -/
def destroyCheckLoop (rsType : String) (client : String → ListResult) :
    List (String × String) → Option GoError
  | [] => none
  | (type, id) :: rest =>
    if type ≠ rsType then
      destroyCheckLoop rsType client rest
    else
      match GetRdsInstanceByID (client id) id with
      | .error err => some err
      | .ok inst =>
        if inst.Id ≠ "" then
          some (rsType ++ " (" ++ id ++ ") still exists")
        else
          destroyCheckLoop rsType client rest

/-- The check function returned by `testAccCheckRdsInstanceDestroy(rsType)`;
`clientErr` is the error of `config.RdsV3Client`, if any. -/
def testAccCheckRdsInstanceDestroy (rsType : String) (clientErr : Option GoError)
    (client : String → ListResult) (resources : List (String × String)) : Option GoError :=
  match clientErr with
  | some err => some ("error creating rds client: " ++ err)
  | none => destroyCheckLoop rsType client resources

/-! ## The existence check of the acceptance test -/

/-- The check function returned by `testAccCheckRdsInstanceExists(name, _)`.
`resources name` is the primary ID of the resource called `name` in the state,
if there is one; `clientErr` is the error of `config.RdsV3Client`, if any;
`client id` is the client's answer to the listing filtered by `id`.  The result
is the error returned, `none` for `nil`. -/
def testAccCheckRdsInstanceExists (name : String) (resources : String → Option String)
    (clientErr : Option GoError) (client : String → ListResult) : Option GoError :=
  match resources name with
  | none => some ("Not found: " ++ name)
  | some id =>
    if id = "" then
      some "No ID is set"
    else
      match clientErr with
      | some err => some ("error creating rds client: " ++ err)
      | none =>
        match GetRdsInstanceByID (client id) id with
        | .error err => some ("error checking " ++ name ++ " exist, err=" ++ err)
        | .ok found =>
          if found.Id = "" then
            some ("resource " ++ name ++ " does not exist")
          else
            none

/-! ## Windows of consecutive target observations -/

/-- Whether the observation number `i` (counted from zero) of `obs` exists,
carries no error and has its state in the target set. -/
def targetAt {α : Type} (conf : StateChangeConf) (obs : List (Observation α)) (i : Nat) : Bool :=
  match obs[i]? with
  | some o => o.err.isNone && decide (o.state ∈ conf.Target)
  | none => false

/-- The first `m` observations of `obs` end with a full window of consecutive
target observations: the last `conf.required` of them are all on target.
`carry` counts target observations made right before `obs`; it is zero for a
wait that starts with `obs`. -/
def completesWindow {α : Type} (conf : StateChangeConf) (obs : List (Observation α))
    (carry m : Nat) : Prop :=
  conf.required ≤ m + carry ∧
    ∀ i, i < m → m ≤ i + conf.required → targetAt conf obs i = true

instance {α : Type} (conf : StateChangeConf) (obs : List (Observation α)) (carry m : Nat) :
    Decidable (completesWindow conf obs carry m) := by
  unfold completesWindow
  exact inferInstance

/-! ## Resource data, context and API events -/

/-- One element of the `volume` list of the resource data, as a map from the
schema's keys; `type_` is the key `type`.  A key that is left out of the map is
`none` and reads back as zero. -/
structure VolumeBlock where
  type_ : String := ""
  size : GoInt := 0
  disk_encryption_id : String := ""
  limit_size : Option GoInt := none
  trigger_threshold : Option GoInt := none
  deriving DecidableEq, Repr

/-- One element of the `db` list of the resource data; `type_` is the key
`type`.  A `password` that is left out of the map is `none` and reads back as
the empty string. -/
structure DbBlock where
  type_ : String := ""
  version : String := ""
  port : GoInt := 0
  user_name : String := ""
  password : Option String := none
  deriving DecidableEq, Repr

/-- One element of the `backup_strategy` list of the resource data. -/
structure BackupBlock where
  start_time : String := ""
  keep_days : GoInt := 0
  deriving DecidableEq, Repr

/-- One element of the `nodes` list of the resource data. -/
structure NodeBlock where
  id : String := ""
  name : String := ""
  role : String := ""
  status : String := ""
  availability_zone : String := ""
  deriving DecidableEq, Repr

/-- One element of the `parameters` set of the resource data. -/
structure ParameterBlock where
  name : String := ""
  value : String := ""
  deriving DecidableEq, Repr

/-- The string whose hash code `parameterToHash` returns: the set
`parameters` identifies an element by that code.  The hash (`hashcode.String`,
not in the source tree) is taken to tell different strings apart. -/
def parameterKey (p : ParameterBlock) : String :=
  p.name ++ p.value

/-- The set that `d.Set("parameters", params)` stores for the slice `params`:
the schema declares `parameters` as a set with `Set: parameterToHash`, so the
elements are added one by one and an element whose code is already in the set
is not added.  The list is in the order of insertion. -/
def setOfList (params : List ParameterBlock) : List ParameterBlock :=
  params.foldl
    (fun s p => if s.any (fun q => parameterKey q == parameterKey p) then s else s ++ [p]) []

/-- The `*schema.ResourceData` of an operation: the resource ID, the attribute
values that `d.Get` returns, the keys for which `d.HasChange` is true, the old
value of `parameters` that `d.GetChange` returns, and the timeouts that
`d.Timeout` returns.  Sets are given as the list that `List()` returns. -/
structure ResourceData where
  id : String := ""
  region : String := ""
  name : String := ""
  status : String := ""
  created : String := ""
  ha_replication_mode : String := ""
  vpc_id : String := ""
  subnet_id : String := ""
  security_group_id : String := ""
  flavor : String := ""
  time_zone : String := ""
  enterprise_project_id : String := ""
  charging_mode : String := ""
  period_unit : String := ""
  period : GoInt := 0
  auto_renew : String := ""
  auto_pay : String := ""
  param_group_id : String := ""
  collation : String := ""
  lower_case_table_names : String := ""
  availability_zone : List String := []
  ssl_enable : Bool := false
  tags : List (String × String) := []
  public_ips : List String := []
  private_ips : List String := []
  fixed_ip : String := ""
  volume : List VolumeBlock := []
  db : List DbBlock := []
  backup_strategy : List BackupBlock := []
  nodes : List NodeBlock := []
  parameters : List ParameterBlock := []
  oldParameters : List ParameterBlock := []
  changed : List String := []
  timeoutCreate : Duration := 30 * Minute
  timeoutUpdate : Duration := 30 * Minute
  timeoutDelete : Duration := 30 * Minute
  timeoutDefault : Duration := 15 * Minute
  deriving DecidableEq, Repr

/-- `d.HasChange(key)`. -/
def ResourceData.HasChange (d : ResourceData) (key : String) : Bool :=
  decide (key ∈ d.changed)

/-- `d.Get("db.0.type").(string)`: the zero value when there is no `db` block. -/
def ResourceData.dbType (d : ResourceData) : String :=
  match d.db with
  | [] => ""
  | b :: _ => b.type_

/-- `d.Get("db.0.password")`: the zero value when the key is not set. -/
def ResourceData.dbPassword (d : ResourceData) : String :=
  match d.db with
  | [] => ""
  | b :: _ => b.password.getD ""

/-- `d.Get("db.0.port").(int)`: the zero value when there is no `db` block. -/
def ResourceData.dbPort (d : ResourceData) : GoInt :=
  match d.db with
  | [] => 0
  | b :: _ => b.port

/-- `d.Get("volume.0.limit_size").(int)`: the zero value when the key is not set. -/
def ResourceData.volumeLimitSize (d : ResourceData) : GoInt :=
  match d.volume with
  | [] => 0
  | v :: _ => v.limit_size.getD 0

/-- `d.Get("volume.0.trigger_threshold").(int)`: the zero value when the key is
not set. -/
def ResourceData.volumeTriggerThreshold (d : ResourceData) : GoInt :=
  match d.volume with
  | [] => 0
  | v :: _ => v.trigger_threshold.getD 0

/-- A Go interface value that holds a string-based value: its dynamic type and
the string.  Two interface values are `==` when both parts agree. -/
structure GoAny where
  typeName : String
  value : String
  deriving DecidableEq, Repr

/-- The interface value of an untyped string constant. -/
def goString (s : String) : GoAny := { typeName := "string", value := s }

/-- A `context.Context`, as the key-value pairs attached with
`context.WithValue`, the most recent first. -/
abbrev Context := List (GoAny × GoAny)

/-- `context.WithValue(ctx, key, val)`. -/
def Context.WithValue (ctx : Context) (key val : GoAny) : Context :=
  (key, val) :: ctx

/-- `ctx.Value(key)`: the value of the most recent pair whose key is `==` to
`key`, `none` (a nil interface) when there is no such pair. -/
def Context.Value : Context → GoAny → Option GoAny
  | [], _ => none
  | (k, v) :: rest, key => if k = key then some v else Context.Value rest key

/-- A request to the cloud API, or a wait, made by an operation. -/
inductive Event where
  | listInstances (instanceID : String)
  | getAutoExpand (instanceID : String)
  | getConfigurations (instanceID : String)
  | waitState (conf : StateChangeConf)
  | waitJob (jobID : String) (conf : StateChangeConf)
  | waitOrder (orderId : String)
  | rename (instanceID name : String)
  | resize (instanceID speccode : String) (isAutoPay : Bool)
  | enlargeVolume (instanceID : String) (size : GoInt)
  | updateBackup (instanceID : String) (keepDays : GoInt) (startTime period : String)
  | updatePort (instanceID : String) (port : GoInt)
  | updateSecGroup (instanceID securityGroupId : String)
  | updateSSL (instanceID : String) (sslEnable : Bool)
  | resetRootPassword (instanceID dbUserPwd : String)
  | updateTags (instanceID : String)
  | updateAutoRenew (autoRenew id : String)
  | modifyConfiguration (instanceID : String) (values : List (String × String))
  | enableAutoExpand (instanceID : String) (limitSize triggerThreshold : GoInt)
  | disableAutoExpand (instanceID : String)
  | createInstance (name : String)
  | createTags (instanceID : String) (taglist : List (String × String))
  | rebootInstance (instanceID : String)
  deriving DecidableEq, Repr

/-! ## Read -/

/-- The response of `instances.GetAutoExpand`, with the fields the source
reads. -/
structure AutoExpansion where
  SwitchOption : Bool := false
  LimitSize : GoInt := 0
  TriggerThreshold : GoInt := 0
  deriving DecidableEq, Repr

/-- One element of `configs.Parameters`, the instance's remote configuration. -/
structure ConfigParameter where
  Name : String := ""
  Value : String := ""
  Restart : Bool := false
  deriving DecidableEq, Repr

/-- What the collaborators of `resourceRdsInstanceRead` answer: the error of
`config.RdsV3Client`; the listing behind `GetRdsInstanceByID`; the response and
the error of `instances.GetAutoExpand`; the result of
`instances.GetConfigurations(...).Extract()`; and the errors of the calls of
`d.Set` whose result the source looks at. -/
structure ReadEnv where
  clientErr : Option GoError := none
  listing : ListResult := .instances []
  autoExpandResp : AutoExpansion := {}
  autoExpandErr : Option GoError := none
  configurations : Except GoError (List ConfigParameter) := .ok []
  setVolumeErr : Option GoError := none
  setDbErr : Option GoError := none
  setBackupErr : Option GoError := none
  setNodesErr : Option GoError := none
  setParametersErr : Option GoError := none

/-- What an operation leaves behind: the resource data, the diagnostics it
returns and the events it caused, in order. -/
structure OpResult where
  d : ResourceData
  diags : Diagnostics
  events : List Event
  deriving DecidableEq, Repr

/-- The map that Read builds for the `volume` block from the instance and the
auto-expansion response (lines 576 to 589). -/
def readVolume (inst : RdsInstanceResponse) (resp : AutoExpansion) : VolumeBlock :=
  let volume : VolumeBlock :=
    { type_ := inst.Volume.Type_
      size := inst.Volume.Size
      disk_encryption_id := inst.DiskEncryptionId }
  if resp.SwitchOption then
    { volume with
      limit_size := some resp.LimitSize
      trigger_threshold := some resp.TriggerThreshold }
  else
    volume

/-- The list that Read builds for the `db` block from the instance and the
resource data (lines 594 to 604). -/
def readDbList (inst : RdsInstanceResponse) (d : ResourceData) : List DbBlock :=
  let database : DbBlock :=
    { type_ := inst.DataStore.Type_
      version := inst.DataStore.Version
      port := inst.Port
      user_name := inst.DbUserName }
  let database :=
    if d.db.length > 0 then
      { database with password := some d.dbPassword }
    else
      database
  [database]

/-- The list that Read builds for the `nodes` attribute (lines 618 to 627). -/
def readNodes (inst : RdsInstanceResponse) : List NodeBlock :=
  inst.Nodes.map fun v =>
    { id := v.Id
      name := v.Name
      role := v.Role
      status := v.Status
      availability_zone := v.AvailabilityZone }

/-- The inner loop of Read's parameter section: the first remote entry whose
`Name` is `name`, if any. -/
def firstNamed (name : String) : List ConfigParameter → Option ConfigParameter
  | [] => none
  | v :: rest => if v.Name = name then some v else firstNamed name rest

/-- The outer loop of Read's parameter section (lines 637 to 654): the `params`
and the `restart` lists, for the configured parameters in the order of
`List()`. -/
def readParameters (remote : List ConfigParameter) :
    List ParameterBlock → List ParameterBlock × List String
  | [] => ([], [])
  | parameter :: rest =>
    let (params, restart) := readParameters remote rest
    match firstNamed parameter.name remote with
    | some v =>
      ({ name := v.Name, value := v.Value } :: params,
        if v.Restart then v.Name :: restart else restart)
    | none => (params, restart)

/-- The text that `fmt.Sprintf("%s", restart)` prints for a slice of strings. -/
def sprintStrings (l : List String) : String :=
  "[" ++ " ".intercalate l ++ "]"

/-- The steps of `resourceRdsInstanceRead` that follow the attribute `db`:
backup strategy, nodes and parameters (lines 609 to 672). -/
def readTail (ctx : Context) (env : ReadEnv) (inst : RdsInstanceResponse)
    (instanceID : String) (d : ResourceData) (events : List Event) : OpResult :=
  match env.setBackupErr with
  | some err =>
    { d := d, events := events
      diags := diagErrorf ("error saving backup strategy to RDS instance (" ++ instanceID
        ++ "): " ++ err) }
  | none =>
    let d := { d with
      backup_strategy := [{ start_time := inst.BackupStrategy.StartTime
                            keep_days := inst.BackupStrategy.KeepDays }] }
    match env.setNodesErr with
    | some err =>
      { d := d, events := events
        diags := diagErrorf ("error saving nodes to RDS instance (" ++ instanceID
          ++ "): " ++ err) }
    | none =>
      let d := { d with nodes := readNodes inst }
      let events := events ++ [.getConfigurations instanceID]
      match env.configurations with
      | .error _ => { d := d, diags := [], events := events }
      | .ok configs =>
        let (params, restart) := readParameters configs d.parameters
        if params.length > 0 then
          let d :=
            match env.setParametersErr with
            | some _ => d
            | none => { d with parameters := setOfList params }
          if restart.length > 0
              ∧ ctx.Value (goString "parametersChanged") = some (goString "true") then
            { d := d, events := events
              diags := [{ severity := .Warning
                          summary := "Parameters Changed"
                          detail := "Parameters " ++ sprintStrings restart
                            ++ " changed which needs reboot." }] }
          else
            { d := d, diags := [], events := events }
        else
          { d := d, diags := [], events := events }

/-- The attributes that `resourceRdsInstanceRead` writes with calls of `d.Set`
whose result it drops (lines 546 to 574), from `region` to `fixed_ip`. -/
def readPlain (inst : RdsInstanceResponse) (d : ResourceData) : ResourceData :=
  let d := { d with
    region := inst.Region
    name := inst.Name
    status := inst.Status
    created := inst.Created
    ha_replication_mode := inst.Ha.ReplicationMode
    vpc_id := inst.VpcId
    subnet_id := inst.SubnetId
    security_group_id := inst.SecurityGroupId
    flavor := inst.FlavorRef
    time_zone := inst.TimeZone
    enterprise_project_id := inst.EnterpriseProjectId
    charging_mode := inst.ChargeInfo.ChargeMode
    tags := inst.Tags.map fun (t : ResourceTag) => (t.Key, t.Value) }
  let d := { d with public_ips := inst.PublicIps }
  let privateIps := inst.PrivateIps
  let d := { d with private_ips := privateIps }
  -- If the creation of the RDS instance is failed, the length of the private IP
  -- list will be zero.
  if h : privateIps.length > 0 then
    { d with fixed_ip := privateIps.get ⟨0, h⟩ }
  else
    d

/-- `resourceRdsInstanceRead(ctx, d, meta)`.  The calls of `d.Set` whose result
the source drops are plain writes; for those whose error it returns, the write
takes place when `d.Set` reports no error. -/
def resourceRdsInstanceRead (ctx : Context) (env : ReadEnv) (d : ResourceData) : OpResult :=
  match env.clientErr with
  | some err =>
    { d := d, diags := diagErrorf ("error creating RDS client: " ++ err), events := [] }
  | none =>
    let instanceID := d.id
    let events := [Event.listInstances instanceID]
    match GetRdsInstanceByID env.listing instanceID with
    | .error err =>
      { d := d, diags := diagErrorf ("error getting RDS instance: " ++ err), events := events }
    | .ok inst =>
      if inst.Id = "" then
        { d := { d with id := "" }, diags := [], events := events }
      else
        let d := readPlain inst d
        let events := events ++ [.getAutoExpand instanceID]
        match env.setVolumeErr with
        | some err =>
          { d := d, events := events
            diags := diagErrorf ("error saving volume to RDS instance (" ++ instanceID
              ++ "): " ++ err) }
        | none =>
          let d := { d with volume := [readVolume inst env.autoExpandResp] }
          match env.setDbErr with
          | some err =>
            { d := d, events := events
              diags := diagErrorf ("error saving data base to RDS instance (" ++ instanceID
                ++ "): " ++ err) }
          | none =>
            let d := { d with db := readDbList inst d }
            readTail ctx env inst instanceID d events

/-! ## Update -/

/-- The poll specification of `updateRdsInstanceFlavor`; `timeout` is
`d.Timeout(schema.TimeoutUpdate)`. -/
def flavorStateConf (timeout : Duration) : StateChangeConf :=
  { Pending := ["MODIFYING"]
    Target := ["ACTIVE"]
    Timeout := timeout
    Delay := 15 * Second
    PollInterval := 15 * Second }

/-- The poll specification of `updateRdsInstanceBackpStrategy`; `timeout` is
`d.Timeout(schema.TimeoutUpdate)`. -/
def backupStateConf (timeout : Duration) : StateChangeConf :=
  { Pending := ["BACKING UP"]
    Target := ["ACTIVE"]
    Timeout := timeout
    Delay := 15 * Second
    PollInterval := 3 * Second }

/-- The poll specification of `updateRdsInstanceDBPort`; `timeout` is
`d.Timeout(schema.TimeoutUpdate)`. -/
def portStateConf (timeout : Duration) : StateChangeConf :=
  { Pending := ["MODIFYING DATABASE PORT"]
    Target := ["ACTIVE"]
    Timeout := timeout
    Delay := 5 * Second
    PollInterval := 3 * Second }

/-- What the collaborators of `resourceRdsInstanceUpdate` answer, one field for
each call the source makes: the error of `config.RdsV3Client`; the error each
wait returns (`none` for `nil`); the error or result of each API request; how
many times `resource.RetryContext` ran the parameter closure and what it
returned; the text of the SDK's own wait errors; and the answers to the final
Read. -/
structure UpdateEnv where
  clientErr : Option GoError := none
  initialWait : Option WaitError := none
  renameErr : Option GoError := none
  renameWait : Option WaitError := none
  resize : Except GoError String := .ok ""
  bssClientErr : Option GoError := none
  orderWaitErr : Option GoError := none
  flavorWait : Option WaitError := none
  enlargeVolume : Except GoError String := .ok ""
  jobWait : Option WaitError := none
  backupErr : Option GoError := none
  backupWait : Option WaitError := none
  portErr : Option GoError := none
  portWait : Option WaitError := none
  secGroupErr : Option GoError := none
  sslErr : Option GoError := none
  passwordErr : Option GoError := none
  tagErr : Option GoError := none
  autoRenewErr : Option GoError := none
  modifyConfigurationErr : Option GoError := none
  parametersRuns : Nat := 1
  parametersErr : Option GoError := none
  enableAutoExpandErr : Option GoError := none
  disableAutoExpandErr : Option GoError := none
  sdkText : WaitError → String := fun _ => ""
  read : ReadEnv := {}

/-- `strings.ToLower` on the letters `A` to `Z`, character by character.  Go
also maps upper-case letters outside ASCII; none of them goes to a letter of
`mysql`, so for the comparison below the two agree. -/
def toLowerASCII (s : String) : String :=
  String.mk (s.data.map Char.toLower)

/-- `isMySQLDatabase(d)`: the database type is not case sensitive. -/
def isMySQLDatabase (d : ResourceData) : Bool :=
  decide (toLowerASCII d.dbType = "mysql")

/-- `updateRdsInstanceName(d, client, instanceID)`: the events it causes and the
error it returns. -/
def updateRdsInstanceName (d : ResourceData) (env : UpdateEnv) (instanceID : String) :
    List Event × Option GoError :=
  if !d.HasChange "name" then
    ([], none)
  else
    let events := [Event.rename instanceID d.name]
    match env.renameErr with
    | some err =>
      (events, some ("error renaming RDS instance (" ++ instanceID ++ "): " ++ err))
    | none =>
      (events ++ [.waitState (renameStateConf d.timeoutUpdate)],
        renameWaitReturn env.sdkText instanceID env.renameWait)

/-- `updateRdsInstanceFlavor(d, config, client, instanceID, isSupportAutoPay)`. -/
def updateRdsInstanceFlavor (d : ResourceData) (env : UpdateEnv) (instanceID : String)
    (isSupportAutoPay : Bool) : List Event × Option GoError :=
  if !d.HasChange "flavor" then
    ([], none)
  else
    let isAutoPay := if isSupportAutoPay ∧ d.auto_pay = "false" then false else true
    let events := [Event.resize instanceID d.flavor isAutoPay]
    match env.resize with
    | .error err => (events, some ("error updating instance Flavor from result: " ++ err ++ " "))
    | .ok orderId =>
      let order : List Event × Option GoError :=
        if orderId ≠ "" then
          match env.bssClientErr with
          | some err => ([], some ("error creating BSS V2 client: " ++ err))
          | none =>
            ([.waitOrder orderId],
              env.orderWaitErr.map fun err =>
                "error waiting for RDS order " ++ orderId ++ " succuss: " ++ err)
        else
          ([], none)
      match order.2 with
      | some err => (events ++ order.1, some err)
      | none =>
        (events ++ order.1 ++ [.waitState (flavorStateConf d.timeoutUpdate)],
          env.flavorWait.map fun e =>
            "error waiting for instance (" ++ instanceID ++ ") flavor to be Updated: "
              ++ e.Error env.sdkText ++ " ")

/-- `updateRdsInstanceVolumeSize(d, client, instanceID)`.  The schema requires
one `volume` block, whose `size` is read. -/
def updateRdsInstanceVolumeSize (d : ResourceData) (env : UpdateEnv) (instanceID : String) :
    List Event × Option GoError :=
  if !d.HasChange "volume.0.size" then
    ([], none)
  else
    let volumeItem := d.volume.headD {}
    let events := [Event.enlargeVolume instanceID volumeItem.size]
    match env.enlargeVolume with
    | .error err =>
      (events, some ("error updating instance volume from result: " ++ err ++ " "))
    | .ok jobId =>
      (events ++ [.waitJob jobId (jobStateConf d.timeoutUpdate)],
        (checkRDSInstanceJobFinishReturn env.sdkText jobId env.jobWait).map fun err =>
          "error updating instance (" ++ instanceID ++ "): " ++ err)

/-- `updateRdsInstanceBackpStrategy(d, client, instanceID)`.  The first
`backup_strategy` block is read; `HasChange` reports a change of it. -/
def updateRdsInstanceBackpStrategy (d : ResourceData) (env : UpdateEnv)
    (instanceID : String) : List Event × Option GoError :=
  if !d.HasChange "backup_strategy" then
    ([], none)
  else
    let rawMap := d.backup_strategy.headD {}
    let events :=
      [Event.updateBackup instanceID rawMap.keep_days rawMap.start_time "1,2,3,4,5,6,7"]
    match env.backupErr with
    | some err =>
      (events, some ("error updating RDS instance backup strategy (" ++ instanceID
        ++ "): " ++ err))
    | none =>
      (events ++ [.waitState (backupStateConf d.timeoutUpdate)],
        env.backupWait.map fun e =>
          "error waiting for RDS instance (" ++ instanceID
            ++ ") backup strategy to be updated: " ++ e.Error env.sdkText ++ " ")

/-- `updateRdsInstanceDBPort(d, client, instanceID)`. -/
def updateRdsInstanceDBPort (d : ResourceData) (env : UpdateEnv) (instanceID : String) :
    List Event × Option GoError :=
  if !d.HasChange "db.0.port" then
    ([], none)
  else
    let events := [Event.updatePort instanceID d.dbPort]
    match env.portErr with
    | some err => (events, some ("error updating instance database port: " ++ err ++ " "))
    | none =>
      (events ++ [.waitState (portStateConf d.timeoutUpdate)],
        env.portWait.map fun e =>
          "error waiting for RDS instance (" ++ instanceID ++ ") creation completed: "
            ++ e.Error env.sdkText)

/-- `updateRdsInstanceSecurityGroup(d, client, instanceID)`. -/
def updateRdsInstanceSecurityGroup (d : ResourceData) (env : UpdateEnv)
    (instanceID : String) : List Event × Option GoError :=
  if !d.HasChange "security_group_id" then
    ([], none)
  else
    ([.updateSecGroup instanceID d.security_group_id],
      env.secGroupErr.map fun err =>
        "error updating instance security group: " ++ err ++ " ")

/-- `configRdsInstanceSSL(d, client, instanceID)`; `sslErr` is the error of the
request `securities.UpdateSSL`. -/
def configRdsInstanceSSL (d : ResourceData) (sslErr : Option GoError) (instanceID : String) :
    List Event × Option GoError :=
  let sslEnable := d.ssl_enable
  ([.updateSSL instanceID sslEnable],
    sslErr.map fun err => "error updating instance SSL configuration: " ++ err ++ " ")

/-- `updateRdsInstanceSSLConfig(d, client, instanceID)`; `sslErr` is the error
of the request `securities.UpdateSSL`. -/
def updateRdsInstanceSSLConfig (d : ResourceData) (sslErr : Option GoError)
    (instanceID : String) : List Event × Option GoError :=
  if !d.HasChange "ssl_enable" then
    ([], none)
  else if !isMySQLDatabase d then
    ([], some "only MySQL database support SSL enable and disable")
  else
    configRdsInstanceSSL d sslErr instanceID

/-- `updateRdsRootPassword(d, client, instanceID)`. -/
def updateRdsRootPassword (d : ResourceData) (env : UpdateEnv) (instanceID : String) :
    List Event × Option GoError :=
  if !d.HasChange "db.0.password" then
    ([], none)
  else
    ([.resetRootPassword instanceID d.dbPassword],
      env.passwordErr.map fun err => "error resetting the root password: " ++ err)

/-- `ns.Difference(os).List()`: the elements of `ns` whose code is not the code
of an element of `os`. -/
def setDifference (ns os : List ParameterBlock) : List ParameterBlock :=
  ns.filter fun p => !(os.any fun o => parameterKey o == parameterKey p)

/-- The assignment `values[key] = value` on a Go map, kept as a list of pairs
with distinct keys. -/
def mapAssign (values : List (String × String)) (key value : String) :
    List (String × String) :=
  if values.any (fun e => e.1 == key) then
    values.map fun e => if e.1 = key then (key, value) else e
  else
    values ++ [(key, value)]

/-- The map `values` that `updateRdsParameters` fills from the changed
parameters. -/
def parameterValues (change : List ParameterBlock) : List (String × String) :=
  change.foldl (fun values v => mapAssign values v.name v.value) []

/-- `updateRdsParameters(d, client, instanceID)`; `modifyErr` is the error of
the request `instances.ModifyConfiguration`. -/
def updateRdsParameters (d : ResourceData) (modifyErr : Option GoError)
    (instanceID : String) : List Event × Option GoError :=
  let change := setDifference d.parameters d.oldParameters
  if change.length > 0 then
    ([.modifyConfiguration instanceID (parameterValues change)],
      modifyErr.map fun err =>
        "error modifying parameters for RDS instance (" ++ instanceID ++ "): " ++ err)
  else
    ([], none)

/-- The auto-expansion step of `resourceRdsInstanceUpdate` (lines 767 to 785):
the events it causes and the diagnostics it returns with, `none` when Update
goes on. -/
def updateAutoExpand (d : ResourceData) (env : UpdateEnv) (instanceID : String) :
    List Event × Option Diagnostics :=
  if d.HasChange "volume.0.limit_size" ∨ d.HasChange "volume.0.trigger_threshold" then
    let limitSize := d.volumeLimitSize
    if limitSize > 0 then
      ([.enableAutoExpand instanceID limitSize d.volumeTriggerThreshold],
        env.enableAutoExpandErr.map fun err =>
          diagErrorf ("an error occurred while enable automatic expansion of instance storage: "
            ++ err))
    else
      ([.disableAutoExpand instanceID],
        env.disableAutoExpandErr.map fun err =>
          diagErrorf ("an error occurred while disable automatic expansion of instance storage: "
            ++ err))
  else
    ([], none)

/-- A step of Update that calls a helper and returns `diag.FromErr(err)` when
the helper returns an error. -/
def fromErrStep (r : List Event × Option GoError) : List Event × Option Diagnostics :=
  (r.1, r.2.map diagFromErr)

/-- Steps run one after the other; the first that returns diagnostics ends the
run. -/
def runSteps : List (List Event × Option Diagnostics) → List Event × Option Diagnostics
  | [] => ([], none)
  | step :: rest =>
    match step.2 with
    | some diags => (step.1, some diags)
    | none => (step.1 ++ (runSteps rest).1, (runSteps rest).2)

/-- The steps of `resourceRdsInstanceUpdate` between the creation of the client
and the final Read (lines 682 to 785), in the order of the source. -/
def updateSteps (d : ResourceData) (env : UpdateEnv) (instanceID : String) :
    List (List Event × Option Diagnostics) :=
  [ ([.waitState (updateStateConf d.timeoutDefault)],
      updateWaitReturn env.sdkText instanceID env.initialWait),
    fromErrStep (updateRdsInstanceName d env instanceID),
    fromErrStep (updateRdsInstanceFlavor d env instanceID true),
    fromErrStep (updateRdsInstanceVolumeSize d env instanceID),
    fromErrStep (updateRdsInstanceBackpStrategy d env instanceID),
    fromErrStep (updateRdsInstanceDBPort d env instanceID),
    fromErrStep (updateRdsInstanceSecurityGroup d env instanceID),
    fromErrStep (updateRdsInstanceSSLConfig d env.sslErr instanceID),
    fromErrStep (updateRdsRootPassword d env instanceID),
    (if d.HasChange "tags" then
      ([.updateTags instanceID],
        env.tagErr.map fun tagErr =>
          diagErrorf ("error updating tags of RDS instance (" ++ instanceID ++ "): " ++ tagErr))
    else ([], none)),
    (if d.HasChange "auto_renew" then
      match env.bssClientErr with
      | some err => ([], some (diagErrorf ("error creating BSS V2 client: " ++ err)))
      | none =>
        ([.updateAutoRenew d.auto_renew d.id],
          env.autoRenewErr.map fun err =>
            diagErrorf ("error updating the auto-renew of the instance (" ++ d.id ++ "): "
              ++ err))
    else ([], none)),
    (if d.HasChange "parameters" then
      ((List.replicate env.parametersRuns
          (updateRdsParameters d env.modifyConfigurationErr instanceID).1).flatten,
        env.parametersErr.map fun err =>
          diagErrorf ("error updating parameters of RDS instance (" ++ instanceID ++ "): "
            ++ err))
    else ([], none)),
    updateAutoExpand d env instanceID ]

/-- The key `ctxType("parametersChanged")` of Update: a string of the type
`ctxType` that Update declares. -/
def parametersChangedKey : GoAny :=
  { typeName := "ctxType", value := "parametersChanged" }

/-- `resourceRdsInstanceUpdate(ctx, d, meta)`.  When all steps went through,
the context handed to Read carries the pair `parametersChanged` if and only if
the step for `parameters` ran. -/
def resourceRdsInstanceUpdate (ctx : Context) (env : UpdateEnv) (d : ResourceData) :
    OpResult :=
  match env.clientErr with
  | some err =>
    { d := d, diags := diagErrorf ("error creating RDS Client: " ++ err), events := [] }
  | none =>
    let instanceID := d.id
    let run := runSteps (updateSteps d env instanceID)
    match run.2 with
    | some diags => { d := d, diags := diags, events := run.1 }
    | none =>
      -- Sending parametersChanged to Read to warn users the instance needs a reboot.
      let ctx :=
        if d.HasChange "parameters" then
          ctx.WithValue parametersChangedKey (goString "true")
        else
          ctx
      let r := resourceRdsInstanceRead ctx env.read d
      { r with events := run.1 ++ r.events }

/-- Whether an event is one of Update's modifying requests. -/
def Event.isModifying : Event → Bool
  | .rename _ _ => true
  | .resize _ _ _ => true
  | .enlargeVolume _ _ => true
  | .updateBackup _ _ _ _ => true
  | .updatePort _ _ => true
  | .updateSecGroup _ _ => true
  | .updateSSL _ _ => true
  | .resetRootPassword _ _ => true
  | .updateTags _ => true
  | .updateAutoRenew _ _ => true
  | .modifyConfiguration _ _ => true
  | .enableAutoExpand _ _ _ => true
  | .disableAutoExpand _ => true
  | _ => false

/-- Whether an event is an auto-expansion request. -/
def Event.isAutoExpand : Event → Bool
  | .enableAutoExpand _ _ _ => true
  | .disableAutoExpand _ => true
  | _ => false

/-- The attributes whose change makes Update issue the request: the keys of the
`HasChange` test that guards the request in the source. -/
def Event.ownAttributes : Event → List String
  | .rename _ _ => ["name"]
  | .resize _ _ _ => ["flavor"]
  | .enlargeVolume _ _ => ["volume.0.size"]
  | .updateBackup _ _ _ _ => ["backup_strategy"]
  | .updatePort _ _ => ["db.0.port"]
  | .updateSecGroup _ _ => ["security_group_id"]
  | .updateSSL _ _ => ["ssl_enable"]
  | .resetRootPassword _ _ => ["db.0.password"]
  | .updateTags _ => ["tags"]
  | .updateAutoRenew _ _ => ["auto_renew"]
  | .modifyConfiguration _ _ => ["parameters"]
  | .enableAutoExpand _ _ _ => ["volume.0.limit_size", "volume.0.trigger_threshold"]
  | .disableAutoExpand _ => ["volume.0.limit_size", "volume.0.trigger_threshold"]
  | _ => []

/-- Whether an event is no modifying request, or one of its own attributes has
changed in `d`. -/
def Event.justified (d : ResourceData) (ev : Event) : Bool :=
  !ev.isModifying || ev.ownAttributes.any d.HasChange

/-- The attributes that Update tests with `HasChange`, in the order of the
source. -/
def updateAttributes : List String :=
  ["name", "flavor", "volume.0.size", "backup_strategy", "db.0.port", "security_group_id",
   "ssl_enable", "db.0.password", "tags", "auto_renew", "parameters", "volume.0.limit_size",
   "volume.0.trigger_threshold"]

/-! ## Create: the create request -/

/-- The Go struct `instances.ChargeInfo`. -/
structure ChargeInfo where
  ChargeMode : String := ""
  PeriodType : String := ""
  PeriodNum : GoInt := 0
  IsAutoRenew : Bool := false
  IsAutoPay : Bool := false
  deriving DecidableEq, Repr

/-- The Go struct `instances.Datastore`; `Type_` is the Go field `Type`. -/
structure Datastore where
  Type_ : String := ""
  Version : String := ""
  deriving DecidableEq, Repr

/-- The Go struct `instances.Volume`; `Type_` is the Go field `Type`. -/
structure Volume where
  Type_ : String := ""
  Size : GoInt := 0
  deriving DecidableEq, Repr

/-- The Go struct `instances.BackupStrategy`. -/
structure BackupStrategy where
  StartTime : String := ""
  KeepDays : GoInt := 0
  deriving DecidableEq, Repr

/-- The Go struct `instances.Ha`. -/
structure Ha where
  Mode : String := ""
  ReplicationMode : String := ""
  deriving DecidableEq, Repr

/-- The Go struct `instances.UnchangeableParam`. -/
structure UnchangeableParam where
  LowerCaseTableNames : String := ""
  deriving DecidableEq, Repr

/-- The Go struct `instances.CreateOpts`, with the fields the source sets; a nil
pointer is `none`. -/
structure CreateOpts where
  Name : String := ""
  FlavorRef : String := ""
  VpcId : String := ""
  SubnetId : String := ""
  SecurityGroupId : String := ""
  ConfigurationId : String := ""
  TimeZone : String := ""
  FixedIp : String := ""
  DiskEncryptionId : String := ""
  Collation : String := ""
  Port : String := ""
  EnterpriseProjectId : String := ""
  Region : String := ""
  AvailabilityZone : String := ""
  Datastore : Option Datastore := none
  Volume : Option Volume := none
  BackupStrategy : Option BackupStrategy := none
  Ha : Option Ha := none
  UnchangeableParam : Option UnchangeableParam := none
  ChargeInfo : Option ChargeInfo := none
  Password : String := ""
  deriving DecidableEq, Repr

/-- `buildRdsInstanceDBPort(d)`: `d.GetOk` reports a port other than zero. -/
def buildRdsInstanceDBPort (d : ResourceData) : String :=
  if d.dbPort ≠ 0 then toString d.dbPort else ""

/-- `buildRdsInstanceAvailabilityZone(d)`. -/
def buildRdsInstanceAvailabilityZone (d : ResourceData) : String :=
  ",".intercalate d.availability_zone

/-- `buildRdsInstanceDatastore(d)`. -/
def buildRdsInstanceDatastore (d : ResourceData) : Option Datastore :=
  match d.db with
  | [b] => some { Type_ := b.type_, Version := b.version }
  | _ => none

/-- `buildRdsInstanceVolume(d)`. -/
def buildRdsInstanceVolume (d : ResourceData) : Option Volume :=
  match d.volume with
  | [v] => some { Type_ := v.type_, Size := v.size }
  | _ => none

/-- `buildRdsInstanceBackupStrategy(d)`. -/
def buildRdsInstanceBackupStrategy (d : ResourceData) : Option BackupStrategy :=
  match d.backup_strategy with
  | [b] => some { StartTime := b.start_time, KeepDays := b.keep_days }
  | _ => none

/-- `buildRdsInstanceUnchangeableParam(d)`: `d.GetOk` reports a non-empty
string. -/
def buildRdsInstanceUnchangeableParam (d : ResourceData) : Option UnchangeableParam :=
  if d.lower_case_table_names ≠ "" then
    some { LowerCaseTableNames := d.lower_case_table_names }
  else
    none

/-- `buildRdsInstanceHaReplicationMode(d)`: `d.GetOk` reports a non-empty
string. -/
def buildRdsInstanceHaReplicationMode (d : ResourceData) : Option Ha :=
  if d.ha_replication_mode ≠ "" then
    some { Mode := "ha", ReplicationMode := d.ha_replication_mode }
  else
    none

/-- The fields of the response of `instances.Create` that the source reads:
`res.Instance.Id`, `res.OrderId` and `res.JobId`. -/
structure CreateResponse where
  InstanceId : String := ""
  OrderId : String := ""
  JobId : String := ""
  deriving DecidableEq, Repr

/-- What the collaborators of `resourceRdsInstanceCreate` answer.  Before the
create request is sent: the error of `config.RdsV3Client`, the values of
`config.GetRegion(d)` and `config.GetEnterpriseProjectID(d)`, and the error of
`common.ValidatePrePaidChargeInfo(d)`.  After it, one field for each call the
source makes: the result of the create request; the error of
`config.BssV2Client` and of the wait for the order; the error each wait
returns (`none` for `nil`); the error of each later request; how many times
`resource.RetryContext` ran each of its two closures and what it returned; the
result of `instances.GetConfigurations(...).Extract()`; the text of the SDK's
own wait errors; and the answers to the final Read. -/
structure CreateEnv where
  clientErr : Option GoError := none
  region : String := ""
  enterpriseProjectID : String := ""
  validatePrePaidErr : Option GoError := none
  create : Except GoError CreateResponse := .ok {}
  bssClientErr : Option GoError := none
  orderWaitErr : Option GoError := none
  jobWait : Option WaitError := none
  createWait : Option WaitError := none
  sslErr : Option GoError := none
  tagErr : Option GoError := none
  modifyRuns : Nat := 1
  modifyErr : Option GoError := none
  configurations : Except GoError (List ConfigParameter) := .ok []
  rebootRuns : Nat := 1
  rebootErr : Option GoError := none
  rebootWait : Option WaitError := none
  enableAutoExpandErr : Option GoError := none
  sdkText : WaitError → String := fun _ => ""
  read : ReadEnv := {}

/-- The create options of `resourceRdsInstanceCreate` at the two places they
are used: as written to the debug log, and as sent with `instances.Create`. -/
structure CreateRequest where
  logged : CreateOpts
  sent : CreateOpts
  deriving DecidableEq, Repr

/-- The first part of `resourceRdsInstanceCreate` (lines 330 to 383): the
diagnostics it returns with before any request, or the create options it logs
and sends. -/
def resourceRdsInstanceCreateOpts (d : ResourceData) (env : CreateEnv) :
    Except Diagnostics CreateRequest :=
  match env.clientErr with
  | some err => .error (diagErrorf ("error creating RDS client: " ++ err))
  | none =>
    let createOpts : CreateOpts :=
      { Name := d.name
        FlavorRef := d.flavor
        VpcId := d.vpc_id
        SubnetId := d.subnet_id
        SecurityGroupId := d.security_group_id
        ConfigurationId := d.param_group_id
        TimeZone := d.time_zone
        FixedIp := d.fixed_ip
        DiskEncryptionId := (d.volume.headD {}).disk_encryption_id
        Collation := d.collation
        Port := buildRdsInstanceDBPort d
        EnterpriseProjectId := env.enterpriseProjectID
        Region := env.region
        AvailabilityZone := buildRdsInstanceAvailabilityZone d
        Datastore := buildRdsInstanceDatastore d
        Volume := buildRdsInstanceVolume d
        BackupStrategy := buildRdsInstanceBackupStrategy d
        Ha := buildRdsInstanceHaReplicationMode d
        UnchangeableParam := buildRdsInstanceUnchangeableParam d }
    -- PrePaid
    let withCharge : Except Diagnostics CreateOpts :=
      if d.charging_mode = "prePaid" then
        match env.validatePrePaidErr with
        | some err => .error (diagFromErr err)
        | none =>
          let chargeInfo : ChargeInfo :=
            { ChargeMode := d.charging_mode
              PeriodType := d.period_unit
              PeriodNum := d.period }
          let chargeInfo :=
            if d.auto_pay ≠ "false" then { chargeInfo with IsAutoPay := true } else chargeInfo
          let chargeInfo :=
            if d.auto_renew = "true" then { chargeInfo with IsAutoRenew := true }
            else chargeInfo
          .ok { createOpts with ChargeInfo := some chargeInfo }
      else
        .ok createOpts
    match withCharge with
    | .error diags => .error diags
    | .ok createOpts =>
      -- Add password here so it wouldn't go in the above log entry
      .ok { logged := createOpts, sent := { createOpts with Password := d.dbPassword } }

/-! ## Create: after the create request -/

/-- `buildRdsInstanceParameters(params)`: the map `Values` of the options,
filled from the parameters in the order of `List()`. -/
def buildRdsInstanceParameters (params : List ParameterBlock) : List (String × String) :=
  params.foldl (fun values v => mapAssign values v.name v.value) []

/-- The inner loop of Create's restart check (lines 468 to 475) for the
configured name `name`: it runs over the remote entries, at the first entry of
that name it sets `restart` if the entry has the restart flag, and breaks. -/
def restartInner (name : String) : List ConfigParameter → Bool → Bool
  | [], restart => restart
  | v :: rest, restart =>
    if v.Name = name then
      (if v.Restart then true else restart)
    else
      restartInner name rest restart

/-- The outer loop of Create's restart check (lines 466 to 479): it runs over
the configured parameters and breaks once `restart` is set. -/
def restartOuter (configs : List ConfigParameter) : List ParameterBlock → Bool → Bool
  | [], restart => restart
  | parameter :: rest, restart =>
    let restart := restartInner parameter.name configs restart
    if restart then restart else restartOuter configs rest restart

/-- The value of `restart` after the nested loops of Create, which start from
`restart := false`. -/
def needsRestart (configs : List ConfigParameter) (parametersRaw : List ParameterBlock) :
    Bool :=
  restartOuter configs parametersRaw false

/-- The condition for the reboot in words: a configured parameter has a name
that occurs in the remote configuration, and the first remote entry of that
name, the one at the least index, has the restart flag set. -/
def RebootCondition (configs : List ConfigParameter) (parametersRaw : List ParameterBlock) :
    Prop :=
  ∃ p ∈ parametersRaw, ∃ (i : Nat) (v : ConfigParameter),
    configs[i]? = some v ∧ v.Name = p.name ∧ v.Restart = true
      ∧ ∀ (j : Nat) (w : ConfigParameter), j < i → configs[j]? = some w → w.Name ≠ p.name

/-- The parameter section of `resourceRdsInstanceCreate` (lines 441 to 511): the
modification, the query of the configuration, and the reboot with its wait when
the nested loops set `restart`. -/
def createParameters (d : ResourceData) (env : CreateEnv) (instanceID : String) :
    List Event × Option Diagnostics :=
  if d.parameters.length > 0 then
    runSteps
      [ ((List.replicate env.modifyRuns
            [Event.modifyConfiguration instanceID
              (buildRdsInstanceParameters d.parameters)]).flatten,
          env.modifyErr.map fun err =>
            diagErrorf ("error modifying parameters for RDS instance (" ++ instanceID ++ "): "
              ++ err)),
        -- Check if we need to restart
        ([.getConfigurations instanceID],
          match env.configurations with
          | .error err =>
            some (diagErrorf ("error fetching the instance parameters (" ++ instanceID ++ "): "
              ++ err))
          | .ok _ => none),
        (match env.configurations with
         | .error _ => ([], none)
         | .ok configs =>
           if needsRestart configs d.parameters then
             -- If parameters which requires restart changed, reboot the instance.
             runSteps
               [ ((List.replicate env.rebootRuns [Event.rebootInstance instanceID]).flatten,
                   env.rebootErr.map fun err =>
                     diagErrorf ("error rebooting for RDS instance (" ++ instanceID ++ "): "
                       ++ err)),
                 ([.waitState (createRebootStateConf d.timeoutDefault)],
                   createRebootWaitReturn env.sdkText instanceID env.rebootWait) ]
           else
             ([], none)) ]
  else
    ([], none)

/-- The waits of `resourceRdsInstanceCreate` that follow the create request
(lines 391 to 419): for the order, for the job, and for the instance to reach
the target state. -/
def createWaitSteps (d : ResourceData) (env : CreateEnv) (res : CreateResponse)
    (instanceID : String) : List (List Event × Option Diagnostics) :=
  [ -- wait for order success
    (if res.OrderId ≠ "" then
      match env.bssClientErr with
      | some err => ([], some (diagErrorf ("error creating BSS V2 client: " ++ err)))
      | none =>
        ([.waitOrder res.OrderId],
          env.orderWaitErr.map fun err =>
            diagErrorf ("error waiting for RDS order " ++ res.OrderId ++ " succuss: " ++ err))
    else ([], none)),
    (if res.JobId ≠ "" then
      ([.waitJob res.JobId (jobStateConf d.timeoutCreate)],
        (checkRDSInstanceJobFinishReturn env.sdkText res.JobId env.jobWait).map fun err =>
          diagErrorf ("error creating instance (" ++ instanceID ++ "): " ++ err))
    else ([], none)),
    ([.waitState (createStateConf d.timeoutCreate)],
      createWaitReturn env.sdkText instanceID env.createWait) ]

/-- The SSL step of `resourceRdsInstanceCreate` (lines 421 to 430). -/
def createSSLStep (d : ResourceData) (env : CreateEnv) : List Event × Option Diagnostics :=
  if d.ssl_enable then
    if isMySQLDatabase d then
      fromErrStep (configRdsInstanceSSL d env.sslErr d.id)
    else
      ([], some (diagErrorf "only MySQL database support SSL enable and disable"))
  else
    ([], none)

/-- The steps of `resourceRdsInstanceCreate` that follow the SSL step (lines
432 to 524): tags, parameters, auto-expansion. -/
def createConfigSteps (d : ResourceData) (env : CreateEnv) (instanceID : String) :
    List (List Event × Option Diagnostics) :=
  [ (if d.tags.length > 0 then
      ([.createTags instanceID d.tags],
        env.tagErr.map fun tagErr =>
          diagErrorf ("error setting tags of RDS instance (" ++ instanceID ++ "): " ++ tagErr))
    else ([], none)),
    -- Set Parameters
    createParameters d env instanceID,
    (if d.volumeLimitSize > 0 then
      ([.enableAutoExpand instanceID d.volumeLimitSize d.volumeTriggerThreshold],
        env.enableAutoExpandErr.map fun err =>
          diagErrorf ("error configuring auto-expansion: " ++ err))
    else ([], none)) ]

/-- The steps of `resourceRdsInstanceCreate` between the create request and the
final Read (lines 391 to 524), in the order of the source; `d` already holds
the new ID. -/
def createSteps (d : ResourceData) (env : CreateEnv) (res : CreateResponse)
    (instanceID : String) : List (List Event × Option Diagnostics) :=
  createWaitSteps d env res instanceID
    ++ createSSLStep d env :: createConfigSteps d env instanceID

/-- `resourceRdsInstanceCreate(ctx, d, meta)`.  The create request is sent with
the options `sent` of `resourceRdsInstanceCreateOpts`; when it succeeds the
resource ID is set to `res.Instance.Id` and stays set on every later return. -/
def resourceRdsInstanceCreate (ctx : Context) (env : CreateEnv) (d : ResourceData) :
    OpResult :=
  match resourceRdsInstanceCreateOpts d env with
  | .error diags => { d := d, diags := diags, events := [] }
  | .ok createOpts =>
    let events := [Event.createInstance createOpts.sent.Name]
    match env.create with
    | .error err =>
      { d := d, diags := diagErrorf ("error creating RDS instance: " ++ err), events := events }
    | .ok res =>
      let d := { d with id := res.InstanceId }
      let instanceID := d.id
      let run := runSteps (createSteps d env res instanceID)
      match run.2 with
      | some diags => { d := d, diags := diags, events := events ++ run.1 }
      | none =>
        let r := resourceRdsInstanceRead ctx env.read d
        { r with events := events ++ run.1 ++ r.events }

/-! ## Sample instances used to instantiate the theorems -/

/-- A listed instance with ID `rds-1` and the given status. -/
def sampleInstance (status : String) : RdsInstanceResponse :=
  { Id := "rds-1", Status := status, Name := "db" }

/-- What `rdsInstanceStateRefreshFunc(client, "rds-1")` observes when the
listing holds exactly `sampleInstance status`. -/
def observed (status : String) : Observation RdsInstanceResponse :=
  rdsInstanceStateRefreshFunc (.instances [sampleInstance status]) "rds-1"

/-- What `rdsInstanceStateRefreshFunc(client, "rds-1")` observes when the
listing holds no instance. -/
def observedGone : Observation RdsInstanceResponse :=
  rdsInstanceStateRefreshFunc (.instances []) "rds-1"

/-- The prepaid configuration of the acceptance test
`testAccRdsInstance_prePaid`, with `auto_renew` as given. -/
def prePaidData (autoRenew : String) : ResourceData :=
  { name := "rds-test"
    flavor := "rds.mssql.spec.se.c6.large.4"
    collation := "Chinese_PRC_CI_AS"
    db := [{ type_ := "SQLServer", version := "2014_SE", port := 8635,
             password := some "Abcde!#12" }]
    volume := [{ type_ := "ULTRAHIGH", size := 40 }]
    charging_mode := "prePaid"
    period_unit := "month"
    period := 1
    auto_renew := autoRenew }

/-- A MySQL resource whose `ssl_enable` is switched on by the update. -/
def sslChangeData : ResourceData :=
  { id := "rds-1"
    db := [{ type_ := "MySQL", version := "8.0", port := 3306, password := some "Abcde!#12" }]
    ssl_enable := true
    changed := ["ssl_enable"] }

/-- A remote instance like the one of the acceptance test
`TestAccRdsInstance_mysql`: MySQL 8.0 on port 3306 with one private IP. -/
def remoteMySQL : RdsInstanceResponse :=
  { Id := "rds-1", Status := "ACTIVE", Name := "db"
    PrivateIps := ["192.168.0.58"]
    Volume := { Type_ := "CLOUDSSD", Size := 40 }
    DataStore := { Type_ := "MySQL", Version := "8.0" }
    Port := 3306
    DbUserName := "root" }

/-- The resource data of `rds-1` before a Read, with the password of the
configuration in its `db` block. -/
def priorData : ResourceData :=
  { id := "rds-1"
    db := [{ type_ := "MySQL", version := "8.0", port := 3306, password := some "Abcde!#12" }]
    volume := [{ type_ := "CLOUDSSD", size := 40 }] }

/-- Answers to Read for `rds-1`: the listing holds `remoteMySQL`, and the
auto-expansion switch is on with a limit of 400 and a threshold of 15. -/
def readEnvMySQL : ReadEnv :=
  { listing := .instances [remoteMySQL]
    autoExpandResp := { SwitchOption := true, LimitSize := 400, TriggerThreshold := 15 } }

/-- An update of `rds-1` that replaces the parameter of the acceptance test
`testAccRdsInstance_parameters` by the one of `testAccRdsInstance_newParameters`. -/
def paramChangeData : ResourceData :=
  { priorData with
    parameters := [{ name := "connect_timeout", value := "14" }]
    oldParameters := [{ name := "div_precision_increment", value := "12" }]
    changed := ["parameters"] }

/-- Answers to that update: every request succeeds, and the remote
configuration flags `connect_timeout` as requiring a restart. -/
def paramChangeEnv : UpdateEnv :=
  { read :=
      { listing := .instances [remoteMySQL]
        configurations := .ok [{ Name := "connect_timeout", Value := "14", Restart := true }] } }

/-- An update of `rds-1` that changes the auto-expansion settings to the limit
of 500 and the threshold of 20 of `testAccRdsInstance_mysql_step2`. -/
def autoExpandData : ResourceData :=
  { priorData with
    volume := [{ type_ := "CLOUDSSD", size := 40, limit_size := some 500,
                 trigger_threshold := some 20 }]
    changed := ["volume.0.limit_size", "volume.0.trigger_threshold"] }

/-- The configuration `d` with `db.0.password` set to `pw`; all other attributes
are those of `d`. -/
def withDbPassword (d : ResourceData) (pw : String) : ResourceData :=
  { d with
    db := match d.db with
      | [] => []
      | b :: rest => { b with password := some pw } :: rest }

/-- A configuration whose `db.0.type` is `s`. -/
def dataOfDbType (s : String) : ResourceData :=
  { db := [{ type_ := s }] }

/-- An update of `rds-1` whose new set of parameters holds two blocks of the
name `max_connections` with different values, in the given order of `List()`;
the old set is empty. -/
def sameNameData (first second : String) : ResourceData :=
  { priorData with
    parameters := [{ name := "max_connections", value := first },
                   { name := "max_connections", value := second }]
    oldParameters := []
    changed := ["parameters"] }

/-- A state of `rds-1` with the two configured parameters `max_connections`
and `max_connections1`, both of value `500`. -/
def collidingData : ResourceData :=
  { priorData with
    parameters := [{ name := "max_connections", value := "500" },
                   { name := "max_connections1", value := "500" }] }

/-- Answers to Read for `collidingData`: remotely `max_connections` is `1000`
and `max_connections1` is `000`, so that name and value of the two entries
concatenate to the same string. -/
def collidingReadEnv : ReadEnv :=
  { listing := .instances [remoteMySQL]
    configurations := .ok [{ Name := "max_connections", Value := "1000" },
                           { Name := "max_connections1", Value := "000" }] }

/-- A configuration like the prepaid SQL Server instance of the acceptance
test, with `ssl_enable` set. -/
def sslSQLServerData : ResourceData :=
  { prePaidData "true" with ssl_enable := true }

/-- Answers to a create in which the request succeeds with the new ID `rds-1`
and the order `order-1`, and every wait succeeds. -/
def createdEnv : CreateEnv :=
  { create := .ok { InstanceId := "rds-1", OrderId := "order-1" } }

/-- A MySQL configuration with the parameter `connect_timeout` of the
acceptance test `TestAccRdsInstance_withParameters`. -/
def paramCreateData : ResourceData :=
  { name := "rds-test"
    db := [{ type_ := "MySQL", version := "8.0", port := 3306, password := some "Abcde!#12" }]
    volume := [{ type_ := "CLOUDSSD", size := 40 }]
    parameters := [{ name := "connect_timeout", value := "14" }] }

/-- Answers to that create: the request succeeds with the new ID `rds-1` and
the job `job-1`, and the remote configuration flags `connect_timeout` as
requiring a restart. -/
def paramCreateEnv : CreateEnv :=
  { create := .ok { InstanceId := "rds-1", JobId := "job-1" }
    configurations := .ok [{ Name := "connect_timeout", Value := "14", Restart := true }] }

/-! ## Basic facts about the polling loop -/

theorem pollTime_mono (conf : StateChangeConf) {a b : Nat} (h : a ≤ b) :
    conf.pollTime a ≤ conf.pollTime b := by
  unfold StateChangeConf.pollTime
  exact Nat.add_le_add_left (Nat.mul_le_mul_right _ h) _

theorem pollTime_succ (conf : StateChangeConf) (n : Nat) :
    conf.pollTime (n + 1) = conf.pollTime n + conf.PollInterval := by
  unfold StateChangeConf.pollTime
  rw [Nat.succ_mul, Nat.add_assoc]

theorem required_pos (conf : StateChangeConf) : 1 ≤ conf.required := by
  unfold StateChangeConf.required
  split <;> omega

theorem required_of_configured (conf : StateChangeConf)
    (h : 1 ≤ conf.ContinuousTargetOccurence) :
    conf.required = conf.ContinuousTargetOccurence := by
  unfold StateChangeConf.required
  split <;> omega

theorem pollLoop_deadline {α : Type} (conf : StateChangeConf) (obs : List (Observation α))
    (c p : Nat) (h : conf.Timeout ≤ conf.pollTime p) :
    pollLoop conf obs c p
      = { result := .failed .timeout, polls := p, elapsed := conf.Timeout } := by
  cases obs <;> simp [pollLoop, h]

theorem pollLoop_nil_running {α : Type} (conf : StateChangeConf) (c p : Nat)
    (h : conf.pollTime p < conf.Timeout) :
    pollLoop conf ([] : List (Observation α)) c p
      = { result := .running, polls := p, elapsed := conf.pollTime p } := by
  simp [pollLoop, Nat.not_le.mpr h]

theorem pollLoop_cons_err {α : Type} (conf : StateChangeConf) (o : Observation α)
    (rest : List (Observation α)) (c p : Nat) (e : GoError)
    (h : conf.pollTime p < conf.Timeout) (he : o.err = some e) :
    pollLoop conf (o :: rest) c p
      = { result := .failed (.refresh e), polls := p + 1, elapsed := conf.pollTime p } := by
  simp [pollLoop, Nat.not_le.mpr h, he]

theorem pollLoop_cons_unexpected {α : Type} (conf : StateChangeConf) (o : Observation α)
    (rest : List (Observation α)) (c p : Nat)
    (h : conf.pollTime p < conf.Timeout) (he : o.err = none)
    (ht : o.state ∉ conf.Target) (hp : o.state ∉ conf.Pending) :
    pollLoop conf (o :: rest) c p
      = { result := .failed (.unexpectedState o.state), polls := p + 1,
          elapsed := conf.pollTime p } := by
  simp [pollLoop, Nat.not_le.mpr h, he, ht, hp]

theorem pollLoop_cons_pending {α : Type} (conf : StateChangeConf) (o : Observation α)
    (rest : List (Observation α)) (c p : Nat)
    (h : conf.pollTime p < conf.Timeout) (he : o.err = none)
    (ht : o.state ∉ conf.Target) (hp : o.state ∈ conf.Pending) :
    pollLoop conf (o :: rest) c p = pollLoop conf rest 0 (p + 1) := by
  simp [pollLoop, Nat.not_le.mpr h, he, ht, hp]

theorem pollLoop_cons_target_done {α : Type} (conf : StateChangeConf) (o : Observation α)
    (rest : List (Observation α)) (c p : Nat)
    (h : conf.pollTime p < conf.Timeout) (he : o.err = none)
    (ht : o.state ∈ conf.Target) (hc : conf.required ≤ c + 1) :
    pollLoop conf (o :: rest) c p
      = { result := .success o, polls := p + 1, elapsed := conf.pollTime p } := by
  simp [pollLoop, Nat.not_le.mpr h, he, ht, hc]

theorem pollLoop_cons_target_more {α : Type} (conf : StateChangeConf) (o : Observation α)
    (rest : List (Observation α)) (c p : Nat)
    (h : conf.pollTime p < conf.Timeout) (he : o.err = none)
    (ht : o.state ∈ conf.Target) (hc : c + 1 < conf.required) :
    pollLoop conf (o :: rest) c p = pollLoop conf rest (c + 1) (p + 1) := by
  simp [pollLoop, Nat.not_le.mpr h, he, ht, Nat.not_le.mpr hc]

/-- A wait that is still polling after the observations `pre` takes up the
following observations where it stands. -/
theorem pollLoop_running_append {α : Type} (conf : StateChangeConf)
    (pre : List (Observation α)) (c p : Nat)
    (h : (pollLoop conf pre c p).result = .running) :
    conf.pollTime (p + pre.length) < conf.Timeout ∧
    ∃ c2, ∀ rest, pollLoop conf (pre ++ rest) c p = pollLoop conf rest c2 (p + pre.length) := by
  induction pre generalizing c p with
  | nil =>
    by_cases hd : conf.Timeout ≤ conf.pollTime p
    · simp [pollLoop, hd] at h
    · exact ⟨by simpa using hd, c, fun rest => by simp⟩
  | cons o pre ih =>
    have hlen : p + (o :: pre).length = p + 1 + pre.length := by
      simp only [List.length_cons]; omega
    rw [hlen]
    by_cases hd : conf.Timeout ≤ conf.pollTime p
    · simp [pollLoop, hd] at h
    · cases he : o.err with
      | some e => simp [pollLoop, hd, he] at h
      | none =>
        by_cases ht : o.state ∈ conf.Target
        · by_cases hc : conf.required ≤ c + 1
          · simp [pollLoop, hd, he, ht, hc] at h
          · simp only [pollLoop, hd, he, ht, hc, if_true, if_false] at h
            obtain ⟨h1, c2, h2⟩ := ih (c + 1) (p + 1) h
            refine ⟨h1, c2, fun rest => ?_⟩
            rw [← h2 rest]
            simp [pollLoop, hd, he, ht, hc]
        · by_cases hp : o.state ∈ conf.Pending
          · simp only [pollLoop, hd, he, ht, hp, if_true, if_false] at h
            obtain ⟨h1, c2, h2⟩ := ih 0 (p + 1) h
            refine ⟨h1, c2, fun rest => ?_⟩
            rw [← h2 rest]
            simp [pollLoop, hd, he, ht, hp]
          · simp [pollLoop, hd, he, ht, hp] at h

/-- A wait that has returned does not look at further observations. -/
theorem pollLoop_final_append {α : Type} (conf : StateChangeConf)
    (pre rest : List (Observation α)) (c p : Nat)
    (h : (pollLoop conf pre c p).result ≠ .running) :
    pollLoop conf (pre ++ rest) c p = pollLoop conf pre c p := by
  induction pre generalizing c p with
  | nil =>
    by_cases hd : conf.Timeout ≤ conf.pollTime p
    · simp [pollLoop_deadline conf _ c p hd]
    · simp [pollLoop, hd] at h
  | cons o pre ih =>
    by_cases hd : conf.Timeout ≤ conf.pollTime p
    · simp [pollLoop_deadline conf _ c p hd]
    · cases he : o.err with
      | some e => simp [pollLoop, hd, he]
      | none =>
        by_cases ht : o.state ∈ conf.Target
        · by_cases hc : conf.required ≤ c + 1
          · simp [pollLoop, hd, he, ht, hc]
          · simp only [pollLoop, hd, he, ht, hc, if_true, if_false] at h
            simpa [pollLoop, hd, he, ht, hc] using ih (c + 1) (p + 1) h
        · by_cases hp : o.state ∈ conf.Pending
          · simp only [pollLoop, hd, he, ht, hp, if_true, if_false] at h
            simpa [pollLoop, hd, he, ht, hp] using ih 0 (p + 1) h
          · simp [pollLoop, hd, he, ht, hp]

/-! ## Runs of pending and of target observations -/

theorem pollLoop_pending_run {α : Type} (conf : StateChangeConf)
    (ps rest : List (Observation α)) (p : Nat)
    (hps : ∀ o ∈ ps, o.err = none ∧ o.state ∈ conf.Pending ∧ o.state ∉ conf.Target)
    (hd : conf.pollTime (p + ps.length) < conf.Timeout) :
    pollLoop conf (ps ++ rest) 0 p = pollLoop conf rest 0 (p + ps.length) := by
  induction ps generalizing p with
  | nil => simp
  | cons o ps ih =>
    have hlen : p + (o :: ps).length = p + 1 + ps.length := by
      simp only [List.length_cons]; omega
    rw [hlen] at hd ⊢
    obtain ⟨he, hp, ht⟩ := hps o (List.mem_cons_self _ _)
    have hnow : conf.pollTime p < conf.Timeout :=
      Nat.lt_of_le_of_lt (pollTime_mono conf (by omega)) hd
    rw [List.cons_append, pollLoop_cons_pending conf o _ 0 p hnow he ht hp]
    exact ih (p + 1) (fun x hx => hps x (List.mem_cons_of_mem _ hx)) hd

theorem pollLoop_target_run {α : Type} (conf : StateChangeConf)
    (ts rest : List (Observation α)) (c p : Nat) (last : Observation α)
    (hts : ∀ o ∈ ts, o.err = none ∧ o.state ∈ conf.Target)
    (hlen : c + ts.length = conf.required)
    (hlast : ts.getLast? = some last)
    (hd : conf.pollTime (p + ts.length - 1) < conf.Timeout) :
    pollLoop conf (ts ++ rest) c p
      = { result := .success last, polls := p + ts.length,
          elapsed := conf.pollTime (p + ts.length - 1) } := by
  induction ts generalizing c p with
  | nil => simp at hlast
  | cons o ts ih =>
    obtain ⟨he, ht⟩ := hts o (List.mem_cons_self _ _)
    have hnow : conf.pollTime p < conf.Timeout :=
      Nat.lt_of_le_of_lt (pollTime_mono conf (by simp only [List.length_cons]; omega)) hd
    cases ts with
    | nil =>
      simp only [List.getLast?_singleton, Option.some.injEq] at hlast
      simp only [List.length_singleton] at hlen
      subst hlast
      rw [List.cons_append, pollLoop_cons_target_done conf o _ c p hnow he ht (by omega)]
      simp
    | cons o2 ts =>
      simp only [List.length_cons] at hlen hd
      rw [List.cons_append,
        pollLoop_cons_target_more conf o _ c p hnow he ht (by omega)]
      have hlast2 : (o2 :: ts).getLast? = some last := by
        simpa [List.getLast?_cons_cons] using hlast
      have hd2 : conf.pollTime (p + 1 + (o2 :: ts).length - 1) < conf.Timeout := by
        have e : p + 1 + (o2 :: ts).length - 1 = p + (ts.length + 1 + 1) - 1 := by
          simp only [List.length_cons]; omega
        rw [e]; exact hd
      rw [ih (c + 1) (p + 1) (fun x hx => hts x (List.mem_cons_of_mem _ hx))
        (by simp only [List.length_cons]; omega) hlast2 hd2]
      have e1 : p + 1 + (o2 :: ts).length = p + (o :: o2 :: ts).length := by
        simp only [List.length_cons]; omega
      rw [e1]

/-! ## Success after pending states followed by target states -/

/-- C1: for a poll specification with disjoint pending and target sets and
`N ≥ 1` required consecutive occurrences, an error-free sequence of pending-set
observations followed by `N` target-set observations, all due before the
deadline, makes the wait succeed at the last of them and return that
observation; whatever the observation function would return afterwards plays
no part. -/
theorem wait_succeeds_after_pending_then_target {α : Type} (conf : StateChangeConf)
    (N : Nat) (ps ts rest : List (Observation α))
    (hN : 1 ≤ N) (hconf : conf.ContinuousTargetOccurence = N)
    (hdisj : ∀ s ∈ conf.Pending, s ∉ conf.Target)
    (hps : ∀ o ∈ ps, o.err = none ∧ o.state ∈ conf.Pending)
    (hts : ∀ o ∈ ts, o.err = none ∧ o.state ∈ conf.Target)
    (hlen : ts.length = N)
    (htime : conf.pollTime (ps.length + N - 1) < conf.Timeout) :
    ∃ last, ts.getLast? = some last ∧
      WaitForStateContext conf (ps ++ ts ++ rest)
        = { result := .success last, polls := ps.length + N,
            elapsed := conf.pollTime (ps.length + N - 1) } := by
  have hreq : conf.required = N := by
    rw [required_of_configured conf (by omega), hconf]
  have hne : ts ≠ [] := by
    intro h; rw [h] at hlen; simp at hlen; omega
  refine ⟨ts.getLast hne, List.getLast?_eq_getLast _ hne, ?_⟩
  unfold WaitForStateContext
  rw [List.append_assoc, pollLoop_pending_run conf ps (ts ++ rest) 0
    (fun o ho => ⟨(hps o ho).1, (hps o ho).2, hdisj _ (hps o ho).2⟩)
    (Nat.lt_of_le_of_lt (pollTime_mono conf (by omega)) htime)]
  rw [pollLoop_target_run conf ts rest 0 (0 + ps.length) (ts.getLast hne) hts
    (by omega) (List.getLast?_eq_getLast _ hne) (by
      have e : 0 + ps.length + ts.length - 1 = ps.length + N - 1 := by omega
      rw [e]; exact htime)]
  have e1 : 0 + ps.length + ts.length = ps.length + N := by omega
  rw [e1]

/-- Instance of C1: Create's wait with observations BUILD, ACTIVE, ACTIVE and
the default timeout of 30 minutes succeeds on the second ACTIVE. -/
theorem create_wait_build_active_active :
    ∃ last, [observed "ACTIVE", observed "ACTIVE"].getLast? = some last ∧
      WaitForStateContext (createStateConf (30 * Minute))
          ([observed "BUILD"] ++ [observed "ACTIVE", observed "ACTIVE"] ++ [])
        = { result := .success last, polls := 1 + 2,
            elapsed := (createStateConf (30 * Minute)).pollTime (1 + 2 - 1) } :=
  wait_succeeds_after_pending_then_target (createStateConf (30 * Minute)) 2
    [observed "BUILD"] [observed "ACTIVE", observed "ACTIVE"] []
    (by decide) rfl (by decide) (by decide) (by decide) rfl (by decide)

/-! ## Failures: unexpected state, empty pending set, refresh error -/

theorem pollTime_zero (conf : StateChangeConf) : conf.pollTime 0 = conf.Delay := by
  simp [StateChangeConf.pollTime]

/-- C2: when the wait has made the observations `pre` and is still polling,
an error-free next observation whose state is in neither the pending nor the
target set makes it fail with the unexpected-state error of that state.  The
observation function has then been invoked `pre.length + 1` times, the
observations `rest` it would return later are never asked for, and the wait
returns at the time of this poll, which is before the deadline. -/
theorem unexpected_state_fails_at_once {α : Type} (conf : StateChangeConf)
    (pre rest : List (Observation α)) (o : Observation α)
    (hrun : (WaitForState conf pre).result = .running)
    (he : o.err = none) (hp : o.state ∉ conf.Pending) (ht : o.state ∉ conf.Target) :
    WaitForState conf (pre ++ o :: rest)
        = { result := .failed (.unexpectedState o.state), polls := pre.length + 1,
            elapsed := conf.pollTime pre.length }
      ∧ conf.pollTime pre.length < conf.Timeout := by
  unfold WaitForState WaitForStateContext at hrun ⊢
  obtain ⟨hd, c2, hc2⟩ := pollLoop_running_append conf pre 0 0 hrun
  rw [Nat.zero_add] at hd
  refine ⟨?_, hd⟩
  rw [hc2 (o :: rest), Nat.zero_add]
  exact pollLoop_cons_unexpected conf o rest c2 pre.length hd he ht hp

/-- Instance of C2: the rename wait (pending MODIFYING, target ACTIVE) that
observes MODIFYING and then BACKING UP fails at the second observation. -/
theorem rename_wait_backing_up_fails :
    WaitForState (renameStateConf (30 * Minute))
        ([observed "MODIFYING"] ++ observed "BACKING UP" :: [observed "ACTIVE"])
        = { result := .failed (.unexpectedState (observed "BACKING UP").state),
            polls := [observed "MODIFYING"].length + 1,
            elapsed := (renameStateConf (30 * Minute)).pollTime [observed "MODIFYING"].length }
      ∧ (renameStateConf (30 * Minute)).pollTime [observed "MODIFYING"].length
          < (renameStateConf (30 * Minute)).Timeout :=
  unexpected_state_fails_at_once (renameStateConf (30 * Minute))
    [observed "MODIFYING"] [observed "ACTIVE"] (observed "BACKING UP")
    (by decide) (by decide) (by decide) (by decide)

/-- C3: for a poll specification with an empty pending set whose first poll is
due before the deadline, a first observation whose state is not in the target
set ends the wait there: one invocation, made at the initial delay, and a
failure, which is the unexpected-state error when the observation carries no
error of its own.  Later observations are never asked for. -/
theorem empty_pending_first_mismatch_fails {α : Type} (conf : StateChangeConf)
    (o : Observation α) (rest : List (Observation α))
    (hpend : conf.Pending = []) (hfirst : conf.Delay < conf.Timeout)
    (ht : o.state ∉ conf.Target) :
    (WaitForState conf (o :: rest)).polls = 1
      ∧ (WaitForState conf (o :: rest)).elapsed = conf.Delay
      ∧ ∃ e, (WaitForState conf (o :: rest)).result = .failed e
          ∧ (o.err = none → e = .unexpectedState o.state) := by
  have hd : conf.pollTime 0 < conf.Timeout := by rw [pollTime_zero]; exact hfirst
  unfold WaitForState WaitForStateContext
  cases he : o.err with
  | some e =>
    rw [pollLoop_cons_err conf o rest 0 0 e hd he]
    exact ⟨rfl, pollTime_zero conf, .refresh e, rfl, fun h => by simp at h⟩
  | none =>
    have hp : o.state ∉ conf.Pending := by rw [hpend]; simp
    rw [pollLoop_cons_unexpected conf o rest 0 0 hd he ht hp]
    exact ⟨rfl, pollTime_zero conf, _, rfl, fun _ => rfl⟩

/-- Instances of C3: Update's initial wait that first observes BACKING UP and
Create's post-reboot wait that first observes REBOOTING, both with the default
timeout of 15 minutes, stop after that one observation. -/
theorem empty_pending_waits_fail_on_first_mismatch :
    (WaitForState (updateStateConf (15 * Minute))
        (observed "BACKING UP" :: [observed "ACTIVE", observed "ACTIVE"])).polls = 1
      ∧ (WaitForStateContext (createRebootStateConf (15 * Minute))
        (observed "REBOOTING" :: [observed "ACTIVE"])).polls = 1 :=
  ⟨(empty_pending_first_mismatch_fails (updateStateConf (15 * Minute))
      (observed "BACKING UP") [observed "ACTIVE", observed "ACTIVE"]
      rfl (by decide) (by decide)).1,
   (empty_pending_first_mismatch_fails (createRebootStateConf (15 * Minute))
      (observed "REBOOTING") [observed "ACTIVE"]
      rfl (by decide) (by decide)).1⟩

/-- C4: when the wait has made the observations `pre` and is still polling and
the next invocation of the observation function returns the error `e`, the
wait fails with that same error after `pre.length + 1` invocations, whatever
the function would return afterwards.  The two refresh closures of the source
hand the error of their lookup on unchanged, and every caller turns the error
of its wait into a failure of its own. -/
theorem refresh_error_is_returned {α : Type} (conf : StateChangeConf)
    (pre rest : List (Observation α)) (o : Observation α) (e : GoError)
    (sdkText : WaitError → String) (id : String)
    (hrun : (WaitForState conf pre).result = .running) (he : o.err = some e) :
    WaitForState conf (pre ++ o :: rest)
        = { result := .failed (.refresh e), polls := pre.length + 1,
            elapsed := conf.pollTime pre.length }
      ∧ (∀ listing instanceID err, GetRdsInstanceByID listing instanceID = .error err →
          rdsInstanceStateRefreshFunc listing instanceID
            = { value := none, state := "FOUND ERROR", err := some err })
      ∧ (∀ err, rdsInstanceJobRefreshFunc (.error err)
            = { value := none, state := "FOUND ERROR", err := some err })
      ∧ (∃ d, createWaitReturn sdkText id (some (.refresh e)) = some d ∧ HasError d = true)
      ∧ (∃ d, createRebootWaitReturn sdkText id (some (.refresh e)) = some d
            ∧ HasError d = true)
      ∧ (∃ d, updateWaitReturn sdkText id (some (.refresh e)) = some d ∧ HasError d = true)
      ∧ HasError (deleteWaitReturn sdkText id (some (.refresh e))) = true
      ∧ renameWaitReturn sdkText id (some (.refresh e))
          = some ("error waiting for RDS instance (" ++ id
              ++ ") flavor to be updated: " ++ e ++ " ")
      ∧ checkRDSInstanceJobFinishReturn sdkText id (some (.refresh e))
          = some ("error waiting for RDS instance (" ++ id
              ++ ") job to be completed: " ++ e ++ " ") := by
  refine ⟨?_, ?_, ?_, ?_, ?_, ?_, ?_, ?_, ?_⟩
  · unfold WaitForState WaitForStateContext at hrun ⊢
    obtain ⟨hd, c2, hc2⟩ := pollLoop_running_append conf pre 0 0 hrun
    rw [Nat.zero_add] at hd
    rw [hc2 (o :: rest), Nat.zero_add]
    exact pollLoop_cons_err conf o rest c2 pre.length e hd he
  · intro listing instanceID err h
    simp [rdsInstanceStateRefreshFunc, stateOfLookup, h]
  · intro err
    rfl
  · exact ⟨_, rfl, by simp [HasError, diagErrorf]⟩
  · exact ⟨_, rfl, by simp [HasError, diagErrorf]⟩
  · exact ⟨_, rfl, by simp [HasError, diagErrorf]⟩
  · simp [HasError, diagErrorf, deleteWaitReturn]
  · rfl
  · rfl

/-- Instance of C4: Delete's wait that observes ACTIVE and whose second
listing fails returns the error of `GetRdsInstanceByID` for that listing. -/
theorem delete_wait_listing_error :
    WaitForStateContext (deleteStateConf (30 * Minute))
        ([observed "ACTIVE"]
          ++ rdsInstanceStateRefreshFunc (.pagesError "connection reset") "rds-1"
            :: [observed "ACTIVE"])
      = { result := .failed (.refresh
            "An error occurred while querying rds instance rds-1: connection reset"),
          polls := [observed "ACTIVE"].length + 1,
          elapsed := (deleteStateConf (30 * Minute)).pollTime [observed "ACTIVE"].length } :=
  (refresh_error_is_returned (deleteStateConf (30 * Minute)) [observed "ACTIVE"]
    [observed "ACTIVE"]
    (rdsInstanceStateRefreshFunc (.pagesError "connection reset") "rds-1")
    "An error occurred while querying rds instance rds-1: connection reset"
    (fun _ => "") "rds-1" (by decide) (by decide)).1

/-! ## Success and windows of target observations -/

theorem targetAt_cons_zero {α : Type} (conf : StateChangeConf) (o : Observation α)
    (rest : List (Observation α)) :
    targetAt conf (o :: rest) 0 = (o.err.isNone && decide (o.state ∈ conf.Target)) := by
  simp [targetAt]

theorem targetAt_cons_succ {α : Type} (conf : StateChangeConf) (o : Observation α)
    (rest : List (Observation α)) (i : Nat) :
    targetAt conf (o :: rest) (i + 1) = targetAt conf rest i := by
  simp [targetAt]

theorem targetAt_iff {α : Type} (conf : StateChangeConf) (obs : List (Observation α))
    (i : Nat) :
    targetAt conf obs i = true ↔
      ∃ o, obs[i]? = some o ∧ o.err = none ∧ o.state ∈ conf.Target := by
  unfold targetAt
  cases h : obs[i]? with
  | none => simp
  | some o => simp [Option.isNone_iff_eq_none]

theorem completesWindow_cons_target {α : Type} (conf : StateChangeConf)
    (o : Observation α) (rest : List (Observation α)) (c m : Nat)
    (he : o.err = none) (ht : o.state ∈ conf.Target) :
    completesWindow conf (o :: rest) c (m + 1) ↔ completesWindow conf rest (c + 1) m := by
  unfold completesWindow
  constructor
  · rintro ⟨h1, h2⟩
    refine ⟨by omega, fun j hj hjm => ?_⟩
    have := h2 (j + 1) (by omega) (by omega)
    rwa [targetAt_cons_succ] at this
  · rintro ⟨h1, h2⟩
    refine ⟨by omega, fun i hi him => ?_⟩
    cases i with
    | zero => simp [targetAt_cons_zero, he, ht]
    | succ j =>
      rw [targetAt_cons_succ]
      exact h2 j (by omega) (by omega)

theorem completesWindow_cons_other {α : Type} (conf : StateChangeConf)
    (o : Observation α) (rest : List (Observation α)) (c m : Nat)
    (ht : o.state ∉ conf.Target) :
    completesWindow conf (o :: rest) c (m + 1) ↔ completesWindow conf rest 0 m := by
  have hpos := required_pos conf
  have h0 : targetAt conf (o :: rest) 0 = false := by
    simp [targetAt_cons_zero, ht]
  unfold completesWindow
  constructor
  · rintro ⟨h1, h2⟩
    have hm : conf.required ≤ m := by
      by_contra hlt
      have := h2 0 (by omega) (by omega)
      rw [h0] at this
      exact Bool.false_ne_true this
    refine ⟨by omega, fun j hj hjm => ?_⟩
    have := h2 (j + 1) (by omega) (by omega)
    rwa [targetAt_cons_succ] at this
  · rintro ⟨h1, h2⟩
    refine ⟨by omega, fun i hi him => ?_⟩
    cases i with
    | zero => omega
    | succ j =>
      rw [targetAt_cons_succ]
      exact h2 j (by omega) (by omega)

/-- A successful wait stopped at the first observation that completes a window
of consecutive target observations, and returned that observation. -/
theorem pollLoop_success_window {α : Type} (conf : StateChangeConf)
    (obs : List (Observation α)) (c p : Nat) (fin : Observation α)
    (hc : c < conf.required)
    (h : (pollLoop conf obs c p).result = .success fin) :
    ∃ k, (pollLoop conf obs c p).polls = p + k + 1 ∧ k < obs.length
      ∧ obs[k]? = some fin
      ∧ (pollLoop conf obs c p).elapsed = conf.pollTime (p + k)
      ∧ conf.pollTime (p + k) < conf.Timeout
      ∧ completesWindow conf obs c (k + 1)
      ∧ ∀ m, m < k + 1 → ¬ completesWindow conf obs c m := by
  induction obs generalizing c p with
  | nil =>
    by_cases hd : conf.Timeout ≤ conf.pollTime p <;> simp [pollLoop, hd] at h
  | cons o rest ih =>
    have hzero : ¬ completesWindow conf (o :: rest) c 0 := by
      intro hw
      have := hw.1
      omega
    by_cases hd : conf.Timeout ≤ conf.pollTime p
    · simp [pollLoop, hd] at h
    · have hd2 : conf.pollTime p < conf.Timeout := Nat.not_le.mp hd
      cases he : o.err with
      | some e => simp [pollLoop, hd, he] at h
      | none =>
        by_cases ht : o.state ∈ conf.Target
        · by_cases hreq : conf.required ≤ c + 1
          · rw [pollLoop_cons_target_done conf o rest c p hd2 he ht hreq] at h ⊢
            simp only [WaitResult.success.injEq] at h
            subst h
            refine ⟨0, rfl, by simp, by simp, rfl, hd2, ?_, ?_⟩
            · rw [completesWindow_cons_target conf o rest c 0 he ht]
              exact ⟨by omega, fun i hi => by omega⟩
            · intro m hm
              have : m = 0 := by omega
              subst this
              exact hzero
          · have hlt : c + 1 < conf.required := Nat.not_le.mp hreq
            rw [pollLoop_cons_target_more conf o rest c p hd2 he ht hlt] at h ⊢
            obtain ⟨k, h1, h2, h3, h4, h5, h6, h7⟩ := ih (c + 1) (p + 1) hlt h
            have e : p + 1 + k = p + (k + 1) := by omega
            rw [e] at h4 h5
            refine ⟨k + 1, by omega, by simpa using h2, by simpa using h3, h4, h5, ?_, ?_⟩
            · rw [completesWindow_cons_target conf o rest c (k + 1) he ht]
              exact h6
            · intro m hm
              cases m with
              | zero => exact hzero
              | succ m2 =>
                rw [completesWindow_cons_target conf o rest c m2 he ht]
                exact h7 m2 (by omega)
        · by_cases hp : o.state ∈ conf.Pending
          · rw [pollLoop_cons_pending conf o rest c p hd2 he ht hp] at h ⊢
            obtain ⟨k, h1, h2, h3, h4, h5, h6, h7⟩ :=
              ih 0 (p + 1) (required_pos conf) h
            have e : p + 1 + k = p + (k + 1) := by omega
            rw [e] at h4 h5
            refine ⟨k + 1, by omega, by simpa using h2, by simpa using h3, h4, h5, ?_, ?_⟩
            · rw [completesWindow_cons_other conf o rest c (k + 1) ht]
              exact h6
            · intro m hm
              cases m with
              | zero => exact hzero
              | succ m2 =>
                rw [completesWindow_cons_other conf o rest c m2 ht]
                exact h7 m2 (by omega)
          · simp [pollLoop, hd, he, ht, hp] at h

/-- C5: a wait that succeeds has invoked the observation function at least
`N = conf.required` times, returns its last observation, and its last `N`
observations were all error-free target-set states, one right after the other.
For Update's initial wait (target ACTIVE, no pending set, `N = 3`) the sequence
ACTIVE, BACKING UP, ACTIVE, ACTIVE is no success, whatever the timeout. -/
theorem success_needs_consecutive_targets :
    (∀ (α : Type) (conf : StateChangeConf) (obs : List (Observation α))
        (fin : Observation α),
        (WaitForState conf obs).result = .success fin →
        conf.required ≤ (WaitForState conf obs).polls
        ∧ (WaitForState conf obs).polls ≤ obs.length
        ∧ obs[(WaitForState conf obs).polls - 1]? = some fin
        ∧ ∀ i, (WaitForState conf obs).polls - conf.required ≤ i →
            i < (WaitForState conf obs).polls →
            ∃ o, obs[i]? = some o ∧ o.err = none ∧ o.state ∈ conf.Target)
    ∧ (∀ (timeout : Duration) (fin : Observation RdsInstanceResponse),
        (WaitForState (updateStateConf timeout)
          [observed "ACTIVE", observed "BACKING UP", observed "ACTIVE",
            observed "ACTIVE"]).result ≠ .success fin) := by
  have general : ∀ (α : Type) (conf : StateChangeConf) (obs : List (Observation α))
      (fin : Observation α),
      (WaitForState conf obs).result = .success fin →
      conf.required ≤ (WaitForState conf obs).polls
      ∧ (WaitForState conf obs).polls ≤ obs.length
      ∧ obs[(WaitForState conf obs).polls - 1]? = some fin
      ∧ ∀ i, (WaitForState conf obs).polls - conf.required ≤ i →
          i < (WaitForState conf obs).polls →
          ∃ o, obs[i]? = some o ∧ o.err = none ∧ o.state ∈ conf.Target := by
    intro α conf obs fin h
    unfold WaitForState WaitForStateContext at h ⊢
    obtain ⟨k, h1, h2, h3, _, _, h6, _⟩ :=
      pollLoop_success_window conf obs 0 0 fin (required_pos conf) h
    rw [h1]
    have hw := h6.1
    refine ⟨by omega, by omega, by simpa using h3, fun i hi1 hi2 => ?_⟩
    exact (targetAt_iff conf obs i).mp (h6.2 i (by omega) (by omega))
  refine ⟨general, fun timeout fin h => ?_⟩
  obtain ⟨h1, h2, _, h4⟩ := general _ _ _ fin h
  have hreq : (updateStateConf timeout).required = 3 := rfl
  rw [hreq] at h1 h4
  simp only [List.length_cons, List.length_nil] at h2
  obtain ⟨o, ho, _, hot⟩ := h4 1 (by omega) (by omega)
  simp only [List.getElem?_cons_succ, List.getElem?_cons_zero, Option.some.injEq] at ho
  subst ho
  have htarget : (updateStateConf timeout).Target = ["ACTIVE"] := rfl
  rw [htarget] at hot
  revert hot
  decide

/-- Instance of C5: Update's initial wait that observes ACTIVE three times in
a row succeeds, and those three observations are on target. -/
theorem update_wait_three_active :
    (updateStateConf (15 * Minute)).required
        ≤ (WaitForState (updateStateConf (15 * Minute))
            [observed "ACTIVE", observed "ACTIVE", observed "ACTIVE"]).polls
      ∧ (WaitForState (updateStateConf (15 * Minute))
            [observed "ACTIVE", observed "ACTIVE", observed "ACTIVE"]).polls
          ≤ [observed "ACTIVE", observed "ACTIVE", observed "ACTIVE"].length :=
  have h := success_needs_consecutive_targets.1 _ (updateStateConf (15 * Minute))
    [observed "ACTIVE", observed "ACTIVE", observed "ACTIVE"] (observed "ACTIVE")
    (by decide)
  ⟨h.1, h.2.1⟩

/-- C6: a successful wait has made exactly as many invocations as the index of
the first observation that completes a window of `N = conf.required`
consecutive target-set observations, and the observations the function would
return afterwards are never asked for.  When the first `N` observations are
all target-set states, a successful wait has made exactly `N` invocations, and
the wait is successful as soon as the `N`-th poll is due before the deadline.
`N` is one when the number of occurrences is not configured, as in Delete's
wait. -/
theorem success_stops_at_first_window :
    (∀ (α : Type) (conf : StateChangeConf) (obs more : List (Observation α))
        (fin : Observation α),
        (WaitForStateContext conf obs).result = .success fin →
        completesWindow conf obs 0 (WaitForStateContext conf obs).polls
        ∧ (∀ m, m < (WaitForStateContext conf obs).polls → ¬ completesWindow conf obs 0 m)
        ∧ WaitForStateContext conf (obs ++ more) = WaitForStateContext conf obs)
    ∧ (∀ (α : Type) (conf : StateChangeConf) (obs : List (Observation α))
        (fin : Observation α),
        (∀ i, i < conf.required → targetAt conf obs i = true) →
        (WaitForStateContext conf obs).result = .success fin →
        (WaitForStateContext conf obs).polls = conf.required)
    ∧ (∀ (α : Type) (conf : StateChangeConf) (obs : List (Observation α)),
        (∀ i, i < conf.required → targetAt conf obs i = true) →
        conf.pollTime (conf.required - 1) < conf.Timeout →
        (WaitForStateContext conf obs).polls = conf.required
        ∧ ∃ fin, obs[conf.required - 1]? = some fin
            ∧ (WaitForStateContext conf obs).result = .success fin)
    ∧ (∀ conf : StateChangeConf, conf.ContinuousTargetOccurence = 0 → conf.required = 1)
    ∧ (∀ timeout : Duration, (deleteStateConf timeout).required = 1) := by
  have first : ∀ (α : Type) (conf : StateChangeConf) (obs more : List (Observation α))
      (fin : Observation α),
      (WaitForStateContext conf obs).result = .success fin →
      completesWindow conf obs 0 (WaitForStateContext conf obs).polls
      ∧ (∀ m, m < (WaitForStateContext conf obs).polls → ¬ completesWindow conf obs 0 m)
      ∧ WaitForStateContext conf (obs ++ more) = WaitForStateContext conf obs := by
    intro α conf obs more fin h
    unfold WaitForStateContext at h ⊢
    obtain ⟨k, h1, _, _, _, _, h6, h7⟩ :=
      pollLoop_success_window conf obs 0 0 fin (required_pos conf) h
    rw [h1, Nat.zero_add]
    refine ⟨h6, h7, ?_⟩
    exact pollLoop_final_append conf obs more 0 0 (by rw [h]; simp)
  have allTarget : ∀ (α : Type) (conf : StateChangeConf) (obs : List (Observation α)),
      (∀ i, i < conf.required → targetAt conf obs i = true) →
      completesWindow conf obs 0 conf.required := by
    intro α conf obs hall
    exact ⟨by omega, fun i hi _ => hall i hi⟩
  refine ⟨first, ?_, ?_, ?_, ?_⟩
  · intro α conf obs fin hall h
    obtain ⟨h1, h2, _⟩ := first α conf obs [] fin h
    have hle : conf.required ≤ (WaitForStateContext conf obs).polls := by
      have := h1.1; omega
    by_contra hne
    exact h2 conf.required (by omega) (allTarget α conf obs hall)
  · intro α conf obs hall htime
    have hpos := required_pos conf
    have hlen : conf.required ≤ obs.length := by
      have h := (targetAt_iff conf obs (conf.required - 1)).mp (hall _ (by omega))
      obtain ⟨o, ho, _⟩ := h
      have := (List.getElem?_eq_some_iff.mp ho).1
      omega
    have hsplit : obs = obs.take conf.required ++ obs.drop conf.required :=
      (List.take_append_drop _ _).symm
    have hts : ∀ o ∈ obs.take conf.required, o.err = none ∧ o.state ∈ conf.Target := by
      intro o ho
      obtain ⟨i, hi, hio⟩ := List.getElem_of_mem ho
      have hi2 : i < conf.required := by
        have := List.length_take_le conf.required obs; omega
      obtain ⟨o2, ho2, h3⟩ := (targetAt_iff conf obs i).mp (hall i hi2)
      have : obs[i]? = some o := by
        rw [← hio, List.getElem_take]
        exact List.getElem?_eq_getElem _
      rw [this] at ho2
      simp only [Option.some.injEq] at ho2
      subst ho2
      exact h3
    have hlt : (obs.take conf.required).length = conf.required := by
      rw [List.length_take]; omega
    have hne : obs.take conf.required ≠ [] := by
      intro h; rw [h] at hlt; simp at hlt; omega
    have hrun := pollLoop_target_run conf (obs.take conf.required)
      (obs.drop conf.required) 0 0 ((obs.take conf.required).getLast hne) hts
      (by omega) (List.getLast?_eq_getLast _ hne) (by
        rw [hlt, Nat.zero_add]; exact htime)
    rw [← hsplit, hlt, Nat.zero_add] at hrun
    unfold WaitForStateContext
    rw [hrun]
    refine ⟨rfl, _, ?_, rfl⟩
    rw [List.getLast_eq_getElem, List.getElem_take]
    simp only [hlt]
    exact List.getElem?_eq_getElem _
  · intro conf h
    simp [StateChangeConf.required, h]
  · intro timeout
    rfl

/-- Instance of C6: Delete's wait whose first lookup already finds no instance,
and whose second would find none either, succeeds after one invocation. -/
theorem delete_wait_one_invocation :
    (WaitForStateContext (deleteStateConf (30 * Minute)) [observedGone, observedGone]).polls
      = (deleteStateConf (30 * Minute)).required :=
  success_stops_at_first_window.2.1 _ (deleteStateConf (30 * Minute))
    [observedGone, observedGone] observedGone (by decide) (by decide)

/-! ## Delete's wait -/

/-- C7: in Delete's wait (pending ACTIVE, target DELETED, one occurrence), `k`
lookups that find the instance with status ACTIVE followed by one lookup that
finds no instance (the returned instance has an empty `Id`), all made before
the deadline, make the wait succeed at that last lookup: it is observed as
state DELETED with no error, and the wait returns it after `k + 1`
invocations whatever later lookups would find.  Here `k` is the length of
`found`. -/
theorem delete_wait_succeeds_when_gone (timeout : Duration) (id : String)
    (found rest : List ListResult) (last : ListResult)
    (hfound : ∀ l ∈ found, ∃ inst, GetRdsInstanceByID l id = .ok inst
        ∧ inst.Id ≠ "" ∧ inst.Status = "ACTIVE")
    (hgone : ∃ inst, GetRdsInstanceByID last id = .ok inst ∧ inst.Id = "")
    (htime : (deleteStateConf timeout).pollTime found.length < timeout) :
    ∃ inst, GetRdsInstanceByID last id = .ok inst
      ∧ rdsInstanceStateRefreshFunc last id
          = { value := some inst, state := "DELETED", err := none }
      ∧ WaitForStateContext (deleteStateConf timeout)
          ((found ++ last :: rest).map fun l => rdsInstanceStateRefreshFunc l id)
        = { result := .success { value := some inst, state := "DELETED", err := none },
            polls := found.length + 1,
            elapsed := (deleteStateConf timeout).pollTime found.length } := by
  obtain ⟨inst, hlast, hid⟩ := hgone
  have hobs : rdsInstanceStateRefreshFunc last id
      = { value := some inst, state := "DELETED", err := none } := by
    simp [rdsInstanceStateRefreshFunc, stateOfLookup, hlast, hid]
  refine ⟨inst, hlast, hobs, ?_⟩
  have hps : ∀ o ∈ found.map (fun l => rdsInstanceStateRefreshFunc l id),
      o.err = none ∧ o.state ∈ (deleteStateConf timeout).Pending
        ∧ o.state ∉ (deleteStateConf timeout).Target := by
    intro o ho
    obtain ⟨l, hl, rfl⟩ := List.mem_map.mp ho
    obtain ⟨i, hi, hne, hst⟩ := hfound l hl
    simp [rdsInstanceStateRefreshFunc, stateOfLookup, hi, hne, hst, deleteStateConf]
  unfold WaitForStateContext
  rw [List.map_append, List.map_cons,
    pollLoop_pending_run (deleteStateConf timeout) _ _ 0 hps
      (by simpa using htime)]
  simp only [List.length_map, Nat.zero_add]
  rw [hobs]
  exact pollLoop_cons_target_done (deleteStateConf timeout) _ _ 0 found.length htime rfl
    (by simp [deleteStateConf]) (by simp [StateChangeConf.required, deleteStateConf])

/-- Instance of C7: two lookups that find `rds-1` with status ACTIVE and a third
whose listing is empty make Delete's wait succeed on the third, DELETED. -/
theorem delete_wait_active_active_deleted :
    ∃ inst, GetRdsInstanceByID (.instances []) "rds-1" = .ok inst
      ∧ rdsInstanceStateRefreshFunc (.instances []) "rds-1"
          = { value := some inst, state := "DELETED", err := none }
      ∧ WaitForStateContext (deleteStateConf (30 * Minute))
          (([ListResult.instances [sampleInstance "ACTIVE"],
              ListResult.instances [sampleInstance "ACTIVE"]]
              ++ ListResult.instances [] :: []).map
            fun l => rdsInstanceStateRefreshFunc l "rds-1")
        = { result := .success { value := some inst, state := "DELETED", err := none },
            polls := [ListResult.instances [sampleInstance "ACTIVE"],
              ListResult.instances [sampleInstance "ACTIVE"]].length + 1,
            elapsed := (deleteStateConf (30 * Minute)).pollTime
              [ListResult.instances [sampleInstance "ACTIVE"],
                ListResult.instances [sampleInstance "ACTIVE"]].length } :=
  delete_wait_succeeds_when_gone (30 * Minute) "rds-1"
    [.instances [sampleInstance "ACTIVE"], .instances [sampleInstance "ACTIVE"]] []
    (.instances [])
    (fun l hl => by
      simp only [List.mem_cons, List.mem_singleton, List.not_mem_nil, or_false, or_self] at hl
      subst hl
      exact ⟨sampleInstance "ACTIVE", by rfl, by decide, rfl⟩)
    ⟨{}, by rfl, rfl⟩ (by decide)

/-! ## Timeout -/

theorem pollLoop_only_pending {α : Type} (conf : StateChangeConf)
    (obs : List (Observation α)) (p : Nat)
    (hcover : conf.Timeout ≤ conf.pollTime (p + obs.length))
    (hpend : ∀ i o, obs[i]? = some o → conf.pollTime (p + i) < conf.Timeout →
      o.err = none ∧ o.state ∈ conf.Pending ∧ o.state ∉ conf.Target) :
    (pollLoop conf obs 0 p).result = .failed .timeout
      ∧ p ≤ (pollLoop conf obs 0 p).polls
      ∧ (pollLoop conf obs 0 p).polls ≤ p + obs.length
      ∧ conf.Timeout ≤ conf.pollTime (pollLoop conf obs 0 p).polls
      ∧ (∀ i, p ≤ i → i < (pollLoop conf obs 0 p).polls → conf.pollTime i < conf.Timeout)
      ∧ (pollLoop conf obs 0 p).elapsed = conf.Timeout := by
  induction obs generalizing p with
  | nil =>
    rw [pollLoop_deadline conf _ 0 p (by simpa using hcover)]
    exact ⟨rfl, Nat.le_refl _, by simp, by simpa using hcover, fun i h1 h2 => by
      simp only at h2; omega, rfl⟩
  | cons o rest ih =>
    by_cases hd : conf.Timeout ≤ conf.pollTime p
    · rw [pollLoop_deadline conf _ 0 p hd]
      exact ⟨rfl, Nat.le_refl _, by simp, hd, fun i h1 h2 => by
        simp only at h2; omega, rfl⟩
    · have hd2 : conf.pollTime p < conf.Timeout := Nat.not_le.mp hd
      obtain ⟨he, hp, ht⟩ := hpend 0 o (by simp) (by simpa using hd2)
      rw [pollLoop_cons_pending conf o rest 0 p hd2 he ht hp]
      have hlen : p + (o :: rest).length = p + 1 + rest.length := by
        simp only [List.length_cons]; omega
      rw [hlen] at hcover ⊢
      obtain ⟨h1, h2, h3, h4, h5, h6⟩ := ih (p + 1) hcover (fun i x hx hlt => by
        have e : p + 1 + i = p + (i + 1) := by omega
        rw [e] at hlt
        exact hpend (i + 1) x (by simpa using hx) hlt)
      refine ⟨h1, by omega, h3, h4, fun i hi1 hi2 => ?_, h6⟩
      by_cases hip : i = p
      · subst hip; exact hd2
      · exact h5 i (by omega) hi2

/-- C8, as amended: when every observation that is due before the deadline is
error-free and in the pending set and not in the target set (the observation
function answering for as long as polls are due), the wait fails with the
timeout error; the invocations it made are exactly the polls due before the
deadline, none is made once the timeout has fired, and the elapsed time is at
least the timeout and at most the timeout plus one poll interval. -/
theorem only_pending_times_out {α : Type} (conf : StateChangeConf)
    (obs : List (Observation α))
    (hcover : conf.Timeout ≤ conf.pollTime obs.length)
    (hpend : ∀ i o, obs[i]? = some o → conf.pollTime i < conf.Timeout →
      o.err = none ∧ o.state ∈ conf.Pending ∧ o.state ∉ conf.Target) :
    (WaitForStateContext conf obs).result = .failed .timeout
      ∧ (WaitForStateContext conf obs).polls ≤ obs.length
      ∧ conf.Timeout ≤ conf.pollTime (WaitForStateContext conf obs).polls
      ∧ (∀ i, i < (WaitForStateContext conf obs).polls → conf.pollTime i < conf.Timeout)
      ∧ conf.Timeout ≤ (WaitForStateContext conf obs).elapsed
      ∧ (WaitForStateContext conf obs).elapsed ≤ conf.Timeout + conf.PollInterval := by
  unfold WaitForStateContext
  obtain ⟨h1, _, h3, h4, h5, h6⟩ := pollLoop_only_pending conf obs 0
    (by simpa using hcover) (fun i o ho hlt => hpend i o ho (by simpa using hlt))
  refine ⟨h1, by simpa using h3, h4, fun i hi => h5 i (Nat.zero_le _) hi, ?_, ?_⟩
  · rw [h6]
  · rw [h6]; exact Nat.le_add_right _ _

/-- Instance of C8 as amended: Create's wait with a timeout of 45 seconds that
observes BUILD at each of its polls (due at 20, 30 and 40 seconds) times out. -/
theorem create_wait_build_times_out :
    (WaitForStateContext (createStateConf (45 * Second))
        [observed "BUILD", observed "BUILD", observed "BUILD"]).result = .failed .timeout
      ∧ (WaitForStateContext (createStateConf (45 * Second))
        [observed "BUILD", observed "BUILD", observed "BUILD"]).polls
          ≤ [observed "BUILD", observed "BUILD", observed "BUILD"].length :=
  have h := only_pending_times_out (createStateConf (45 * Second))
    [observed "BUILD", observed "BUILD", observed "BUILD"] (by decide)
    (fun i o ho _ => by
      have hmem := List.getElem?_mem ho
      simp only [List.mem_cons, List.mem_singleton, List.not_mem_nil, or_false, or_self] at hmem
      subst hmem
      decide)
  ⟨h.1, h.2.1⟩

/-- C8 as stated fails: Create's wait whose first observation is the state
FAILED never sees a target-set state, yet it does not fail with the timeout
error: it fails with the unexpected-state error after one invocation, 20
seconds into a timeout of 30 minutes. -/
theorem never_on_target_without_timeout :
    (∀ o ∈ [observed "FAILED"], o.state ∉ (createStateConf (30 * Minute)).Target)
      ∧ WaitForStateContext (createStateConf (30 * Minute)) [observed "FAILED"]
          = { result := .failed (.unexpectedState "FAILED"), polls := 1,
              elapsed := 20 * Second }
      ∧ (WaitForStateContext (createStateConf (30 * Minute)) [observed "FAILED"]).result
          ≠ .failed .timeout
      ∧ (WaitForStateContext (createStateConf (30 * Minute)) [observed "FAILED"]).elapsed
          < (createStateConf (30 * Minute)).Timeout := by
  decide

/-! ## The state refresh closure and the lookup -/

/-- C9: the triple returned by `rdsInstanceStateRefreshFunc`, by the outcome of
its call of `GetRdsInstanceByID`: `(nil, "FOUND ERROR", err)` when the lookup
failed with `err`; `(instance, "DELETED", nil)` when the lookup returned
an instance whose `Id` is empty; `(instance, instance.Status, nil)` otherwise.
The same holds of the closure's body on any lookup outcome, and when the
requested ID is not empty an instance returned with an empty `Id` is the zero
value of the struct. -/
theorem state_refresh_triple :
    (∀ listing instanceID err, GetRdsInstanceByID listing instanceID = .error err →
        rdsInstanceStateRefreshFunc listing instanceID
          = { value := none, state := "FOUND ERROR", err := some err })
    ∧ (∀ listing instanceID inst, GetRdsInstanceByID listing instanceID = .ok inst →
        inst.Id = "" →
        rdsInstanceStateRefreshFunc listing instanceID
          = { value := some inst, state := "DELETED", err := none })
    ∧ (∀ listing instanceID inst, GetRdsInstanceByID listing instanceID = .ok inst →
        inst.Id ≠ "" →
        rdsInstanceStateRefreshFunc listing instanceID
          = { value := some inst, state := inst.Status, err := none })
    ∧ (∀ err, stateOfLookup (.error err)
          = { value := none, state := "FOUND ERROR", err := some err })
    ∧ (∀ inst : RdsInstanceResponse, inst.Id = "" →
        stateOfLookup (.ok inst) = { value := some inst, state := "DELETED", err := none })
    ∧ (∀ inst : RdsInstanceResponse, inst.Id ≠ "" →
        stateOfLookup (.ok inst)
          = { value := some inst, state := inst.Status, err := none })
    ∧ (∀ listing instanceID inst, instanceID ≠ "" →
        GetRdsInstanceByID listing instanceID = .ok inst → inst.Id = "" → inst = {}) := by
  refine ⟨?_, ?_, ?_, ?_, ?_, ?_, ?_⟩
  · intro listing instanceID err h
    simp [rdsInstanceStateRefreshFunc, stateOfLookup, h]
  · intro listing instanceID inst h hid
    simp [rdsInstanceStateRefreshFunc, stateOfLookup, h, hid]
  · intro listing instanceID inst h hid
    simp [rdsInstanceStateRefreshFunc, stateOfLookup, h, hid]
  · intro err
    rfl
  · intro inst hid
    simp [stateOfLookup, hid]
  · intro inst hid
    simp [stateOfLookup, hid]
  · intro listing instanceID inst hne h hid
    cases listing with
    | pagesError e => simp [GetRdsInstanceByID] at h
    | extractError e => simp [GetRdsInstanceByID] at h
    | instances l =>
      unfold GetRdsInstanceByID at h
      simp only at h
      split at h
      · simp only [Except.ok.injEq] at h
        exact h.symm
      · split at h
        · simp at h
        · split at h
          · simp at h
          · rename_i hfirst
            simp only [Except.ok.injEq] at h
            subst h
            simp only [ne_eq, Decidable.not_not] at hfirst
            exact absurd (hfirst.symm.trans hid) hne

/-- Instance of C9: with an empty listing the closure returns the
empty instance, the state DELETED and no error. -/
theorem state_refresh_empty_listing :
    rdsInstanceStateRefreshFunc (.instances []) "rds-1"
      = { value := some {}, state := "DELETED", err := none } :=
  state_refresh_triple.2.1 (.instances []) "rds-1" {} (by rfl) rfl

/-- C10: when the listing filtered by the requested ID succeeds and holds
no instance, `GetRdsInstanceByID` returns the zero-valued instance, whose `Id` is
empty, and no error.  The destroy check of the acceptance test reads exactly
this: it returns `nil` when every resource of the checked type has such a
lookup, and the error `... still exists` at the first checked resource whose
lookup returns an instance with a non-empty `Id`. -/
theorem empty_listing_gives_empty_instance :
    (∀ instanceID, GetRdsInstanceByID (.instances []) instanceID = .ok {})
    ∧ ({} : RdsInstanceResponse).Id = ""
    ∧ (∀ rsType client resources,
        (∀ r ∈ resources, r.1 = rsType → client r.2 = .instances []) →
        testAccCheckRdsInstanceDestroy rsType none client resources = none)
    ∧ (∀ rsType client id rest inst,
        GetRdsInstanceByID (client id) id = .ok inst → inst.Id ≠ "" →
        testAccCheckRdsInstanceDestroy rsType none client ((rsType, id) :: rest)
          = some (rsType ++ " (" ++ id ++ ") still exists")) := by
  refine ⟨fun _ => rfl, rfl, ?_, ?_⟩
  · intro rsType client resources h
    unfold testAccCheckRdsInstanceDestroy
    simp only
    induction resources with
    | nil => rfl
    | cons r rest ih =>
      obtain ⟨type, id⟩ := r
      have ih2 := ih (fun x hx => h x (List.mem_cons_of_mem _ hx))
      by_cases ht : type = rsType
      · have hc : client id = .instances [] := h (type, id) (List.mem_cons_self _ _) ht
        simp [destroyCheckLoop, ht, hc, GetRdsInstanceByID, ih2]
      · simp [destroyCheckLoop, ht, ih2]
  · intro rsType client id rest inst h hid
    simp [testAccCheckRdsInstanceDestroy, destroyCheckLoop, h, hid]

/-- Instance of C10: the destroy check over one instance resource whose listing
is empty returns no error. -/
theorem destroy_check_passes_on_empty_listing :
    testAccCheckRdsInstanceDestroy "huaweicloud_rds_instance" none
        (fun _ => .instances []) [("huaweicloud_rds_instance", "rds-1")] = none :=
  empty_listing_gives_empty_instance.2.2.1 "huaweicloud_rds_instance"
    (fun _ => .instances []) [("huaweicloud_rds_instance", "rds-1")]
    (fun _ _ _ => rfl)

/-! ## The lookup, by listing result -/

theorem GetRdsInstanceByID_ok_cases (listing : ListResult) (instanceID : String)
    (inst : RdsInstanceResponse) (h : GetRdsInstanceByID listing instanceID = .ok inst) :
    (listing = .instances [] ∧ inst = {})
      ∨ (listing = .instances [inst] ∧ inst.Id = instanceID) := by
  cases listing with
  | pagesError e => simp [GetRdsInstanceByID] at h
  | extractError e => simp [GetRdsInstanceByID] at h
  | instances l =>
    match l, h with
    | [], h =>
      left
      simp only [GetRdsInstanceByID, List.length_nil, dite_true, Except.ok.injEq] at h
      exact ⟨rfl, h.symm⟩
    | [x], h =>
      right
      by_cases hx : x.Id = instanceID
      · simp [GetRdsInstanceByID, hx] at h
        subst h
        exact ⟨rfl, hx⟩
      · simp [GetRdsInstanceByID, hx] at h
    | x :: y :: rest, h =>
      simp [GetRdsInstanceByID] at h

/-- C11: when `GetRdsInstanceByID` returns no error, either the listing was
empty and the returned instance is the zero value (its `Id` is empty), or the
listing held exactly the returned instance and its `Id` is the requested one.
It returns an error, and so no instance, when the listing fails, when it holds
more than one instance, and when it holds exactly one instance whose `Id`
differs from the requested ID.  The existence check of the acceptance test
passes only on a non-empty requested ID whose listing holds exactly
the instance of that ID. -/
theorem lookup_returns_requested_or_empty :
    (∀ listing instanceID inst, GetRdsInstanceByID listing instanceID = .ok inst →
        inst.Id = "" ∨ (inst.Id = instanceID ∧ listing = .instances [inst]))
    ∧ (∀ listing instanceID inst, GetRdsInstanceByID listing instanceID = .ok inst →
        (listing = .instances [] ∧ inst = {})
          ∨ (listing = .instances [inst] ∧ inst.Id = instanceID))
    ∧ (∀ err instanceID, GetRdsInstanceByID (.pagesError err) instanceID
        = .error ("An error occurred while querying rds instance " ++ instanceID
            ++ ": " ++ err))
    ∧ (∀ err instanceID, GetRdsInstanceByID (.extractError err) instanceID = .error err)
    ∧ (∀ l instanceID, 1 < l.length →
        GetRdsInstanceByID (.instances l) instanceID
          = .error ("retrieving more than one rds instance by " ++ instanceID))
    ∧ (∀ (x : RdsInstanceResponse) instanceID, x.Id ≠ instanceID →
        GetRdsInstanceByID (.instances [x]) instanceID
          = .error ("the id of rds instance was expected " ++ instanceID
              ++ ", but got " ++ x.Id))
    ∧ (∀ name resources client,
        testAccCheckRdsInstanceExists name resources none client = none →
        ∃ id found, resources name = some id ∧ id ≠ ""
          ∧ client id = .instances [found] ∧ found.Id = id) := by
  refine ⟨?_, GetRdsInstanceByID_ok_cases, fun _ _ => rfl, fun _ _ => rfl, ?_, ?_, ?_⟩
  · intro listing instanceID inst h
    rcases GetRdsInstanceByID_ok_cases listing instanceID inst h with ⟨_, h2⟩ | ⟨h1, h2⟩
    · left; rw [h2]
    · right; exact ⟨h2, h1⟩
  · intro l instanceID hl
    have h0 : l.length ≠ 0 := by omega
    simp [GetRdsInstanceByID, h0, hl]
  · intro x instanceID hx
    simp [GetRdsInstanceByID, hx]
  · intro name resources client h
    unfold testAccCheckRdsInstanceExists at h
    cases hr : resources name with
    | none => simp [hr] at h
    | some id =>
      simp only [hr] at h
      by_cases hid : id = ""
      · simp [hid] at h
      · simp only [hid, if_false] at h
        cases hg : GetRdsInstanceByID (client id) id with
        | error e => simp [hg] at h
        | ok found =>
          simp only [hg] at h
          by_cases hf : found.Id = ""
          · simp [hf] at h
          · rcases GetRdsInstanceByID_ok_cases (client id) id found hg with ⟨_, h2⟩ | ⟨h1, h2⟩
            · exact absurd (by rw [h2]) hf
            · exact ⟨id, found, rfl, hid, h1, h2⟩

/-- Instance of C11: a listing that holds exactly `rds-1` gives that instance. -/
theorem lookup_of_single_listing :
    (sampleInstance "ACTIVE").Id = ""
      ∨ ((sampleInstance "ACTIVE").Id = "rds-1"
        ∧ ListResult.instances [sampleInstance "ACTIVE"]
            = .instances [sampleInstance "ACTIVE"]) :=
  lookup_returns_requested_or_empty.1 (.instances [sampleInstance "ACTIVE"]) "rds-1"
    (sampleInstance "ACTIVE") (by rfl)

/-! ## Create's wait and the state BACKING UP -/

/-- C13, evaluated on the source's poll specification: Create's wait that
observes BUILD, ACTIVE and then BACKING UP succeeds at the third observation,
and the state it last observed is BACKING UP, not ACTIVE. -/
theorem create_wait_succeeds_while_backing_up :
    WaitForStateContext (createStateConf (30 * Minute))
        [observed "BUILD", observed "ACTIVE", observed "BACKING UP"]
      = { result := .success (observed "BACKING UP"), polls := 3, elapsed := 40 * Second }
    ∧ (observed "BACKING UP").state = "BACKING UP"
    ∧ (observed "BACKING UP").state ≠ "ACTIVE" := by
  decide

/-! ## The SSL step of Update -/

/-- C15: `updateRdsInstanceSSLConfig` returns `nil` and issues no request when
`ssl_enable` has not changed; returns the error `only MySQL database support
SSL enable and disable` and issues no request when `ssl_enable` changed and the
database type is not MySQL; and issues exactly one SSL update request, carrying
the configured value of `ssl_enable`, when it changed and the type is MySQL, in
which case it returns `nil` or the wrapped error of that request. -/
theorem ssl_step_by_cases :
    (∀ d sslErr instanceID, d.HasChange "ssl_enable" = false →
        updateRdsInstanceSSLConfig d sslErr instanceID = ([], none))
    ∧ (∀ d sslErr instanceID, d.HasChange "ssl_enable" = true →
        isMySQLDatabase d = false →
        updateRdsInstanceSSLConfig d sslErr instanceID
          = ([], some "only MySQL database support SSL enable and disable"))
    ∧ (∀ d sslErr instanceID, d.HasChange "ssl_enable" = true →
        isMySQLDatabase d = true →
        updateRdsInstanceSSLConfig d sslErr instanceID
          = ([.updateSSL instanceID d.ssl_enable],
              sslErr.map fun err =>
                "error updating instance SSL configuration: " ++ err ++ " ")) := by
  refine ⟨?_, ?_, ?_⟩
  · intro d sslErr instanceID h
    simp [updateRdsInstanceSSLConfig, h]
  · intro d sslErr instanceID h hm
    simp [updateRdsInstanceSSLConfig, h, hm]
  · intro d sslErr instanceID h hm
    simp [updateRdsInstanceSSLConfig, configRdsInstanceSSL, h, hm]

/-- Instance of C15: switching `ssl_enable` on for a MySQL instance sends one
SSL update request with the value `true`. -/
theorem ssl_step_on_mysql :
    updateRdsInstanceSSLConfig sslChangeData none "rds-1"
      = ([.updateSSL "rds-1" sslChangeData.ssl_enable],
          (none : Option GoError).map fun err =>
            "error updating instance SSL configuration: " ++ err ++ " ") :=
  ssl_step_by_cases.2.2 sslChangeData none "rds-1" (by decide) (by decide)

/-! ## The charge information of the create request -/

/-- C16: when Create gets as far as its create request, the request carries
charge information if and only if `charging_mode` is `prePaid`; the prepaid
validation has then passed, the charge mode, period unit and period are the
configured ones, `IsAutoRenew` is true exactly when `auto_renew` is `true`, and
`IsAutoPay` is true exactly when `auto_pay` is not `false`, so also when it is
unset.  When `charging_mode` is `prePaid` and the validation fails, Create
returns that error and sends no request. -/
theorem create_charge_info :
    (∀ d env req, resourceRdsInstanceCreateOpts d env = .ok req →
        (req.sent.ChargeInfo ≠ none ↔ d.charging_mode = "prePaid")
        ∧ (d.charging_mode = "prePaid" →
            env.validatePrePaidErr = none
            ∧ req.sent.ChargeInfo = some
                { ChargeMode := d.charging_mode
                  PeriodType := d.period_unit
                  PeriodNum := d.period
                  IsAutoRenew := decide (d.auto_renew = "true")
                  IsAutoPay := decide (d.auto_pay ≠ "false") }))
    ∧ (∀ d env err, env.clientErr = none → d.charging_mode = "prePaid" →
        env.validatePrePaidErr = some err →
        resourceRdsInstanceCreateOpts d env = .error (diagFromErr err))
    ∧ (∀ d env, env.clientErr = none → d.charging_mode = "prePaid" →
        env.validatePrePaidErr = none →
        ∃ req, resourceRdsInstanceCreateOpts d env = .ok req) := by
  refine ⟨?_, ?_, ?_⟩
  · intro d env req h
    unfold resourceRdsInstanceCreateOpts at h
    cases hc : env.clientErr with
    | some e => simp [hc] at h
    | none =>
      simp only [hc] at h
      by_cases hp : d.charging_mode = "prePaid"
      · cases hv : env.validatePrePaidErr with
        | some e => simp [hp, hv] at h
        | none =>
          simp only [hp, hv, if_true, Except.ok.injEq] at h
          subst h
          refine ⟨by simp [hp], fun _ => ⟨rfl, ?_⟩⟩
          by_cases ha : d.auto_pay = "false" <;> by_cases hr : d.auto_renew = "true" <;>
            simp [ha, hr, hp]
      · simp only [hp, if_false, Except.ok.injEq] at h
        subst h
        exact ⟨by simp [hp], fun hp2 => absurd hp2 hp⟩
  · intro d env err hc hp hv
    simp [resourceRdsInstanceCreateOpts, hc, hp, hv]
  · intro d env hc hp hv
    simp [resourceRdsInstanceCreateOpts, hc, hp, hv]

/-- Instance of C16: the prepaid configuration of the acceptance test with
`auto_renew = "true"` and `auto_pay` unset sends the configured charge
information with both flags set. -/
theorem create_charge_info_prepaid_test :
    ∀ req, resourceRdsInstanceCreateOpts (prePaidData "true") {} = .ok req →
      req.sent.ChargeInfo = some
        { ChargeMode := "prePaid", PeriodType := "month", PeriodNum := 1,
          IsAutoRenew := true, IsAutoPay := true } :=
  fun req h => ((create_charge_info.1 (prePaidData "true") {} req h).2 rfl).2

/-! ## Read: what it writes -/

/-- The last part of Read writes at most the attributes `backup_strategy`,
`nodes` and `parameters`. -/
theorem readTail_frame (ctx : Context) (env : ReadEnv) (inst : RdsInstanceResponse)
    (instanceID : String) (d : ResourceData) (events : List Event) :
    ∃ b n p, (readTail ctx env inst instanceID d events).d
      = { d with backup_strategy := b, nodes := n, parameters := p } := by
  unfold readTail
  cases env.setBackupErr with
  | some e => exact ⟨_, _, _, rfl⟩
  | none =>
    cases env.setNodesErr with
    | some e => exact ⟨_, _, _, rfl⟩
    | none =>
      cases env.configurations with
      | error e => exact ⟨_, _, _, rfl⟩
      | ok configs =>
        simp only
        split
        · cases env.setParametersErr with
          | some e => simp only; split <;> exact ⟨_, _, _, rfl⟩
          | none => simp only; split <;> exact ⟨_, _, _, rfl⟩
        · exact ⟨_, _, _, rfl⟩

theorem readPlain_frame (inst : RdsInstanceResponse) (d : ResourceData) :
    (readPlain inst d).private_ips = inst.PrivateIps
    ∧ (readPlain inst d).fixed_ip
        = (match inst.PrivateIps with
           | [] => d.fixed_ip
           | first :: _ => first)
    ∧ (readPlain inst d).volume = d.volume
    ∧ (readPlain inst d).db = d.db
    ∧ (readPlain inst d).id = d.id
    ∧ (readPlain inst d).parameters = d.parameters := by
  unfold readPlain
  cases h : inst.PrivateIps <;> simp

theorem readDbList_congr (inst : RdsInstanceResponse) (d1 d2 : ResourceData)
    (h : d1.db = d2.db) : readDbList inst d1 = readDbList inst d2 := by
  simp [readDbList, ResourceData.dbPassword, h]

/-- What Read leaves in the attributes `private_ips`, `fixed_ip`, `volume` and
`db` once it has found the instance. -/
theorem read_found (ctx : Context) (env : ReadEnv) (d : ResourceData)
    (inst : RdsInstanceResponse)
    (hc : env.clientErr = none)
    (hl : GetRdsInstanceByID env.listing d.id = .ok inst) (hid : inst.Id ≠ "") :
    (resourceRdsInstanceRead ctx env d).d.private_ips = inst.PrivateIps
    ∧ (resourceRdsInstanceRead ctx env d).d.fixed_ip
        = (match inst.PrivateIps with
           | [] => d.fixed_ip
           | first :: _ => first)
    ∧ (resourceRdsInstanceRead ctx env d).d.volume
        = (match env.setVolumeErr with
           | some _ => d.volume
           | none => [readVolume inst env.autoExpandResp])
    ∧ (resourceRdsInstanceRead ctx env d).d.db
        = (match env.setVolumeErr, env.setDbErr with
           | none, none => readDbList inst d
           | _, _ => d.db) := by
  obtain ⟨h1, h2, h3, h4, _, _⟩ := readPlain_frame inst d
  unfold resourceRdsInstanceRead
  simp only [hc, hl, hid, if_false]
  cases hv : env.setVolumeErr with
  | some e => exact ⟨h1, h2, h3, h4⟩
  | none =>
    cases hdb : env.setDbErr with
    | some e => exact ⟨h1, h2, rfl, h4⟩
    | none =>
      simp only
      obtain ⟨b, n, p, hframe⟩ := readTail_frame ctx env inst d.id
        { ({ readPlain inst d with volume := [readVolume inst env.autoExpandResp] } :
            ResourceData) with
          db := readDbList inst
            { readPlain inst d with volume := [readVolume inst env.autoExpandResp] } }
        ([Event.listInstances d.id] ++ [Event.getAutoExpand d.id])
      rw [hframe]
      exact ⟨h1, h2, rfl, readDbList_congr inst _ _ h4⟩

theorem dbPassword_congr (x y : ResourceData) (h : x.db = y.db) :
    x.dbPassword = y.dbPassword := by
  simp [ResourceData.dbPassword, h]

/-- C20: once Read has found the instance, `private_ips` holds the remote list
of private IPs in the same order, `fixed_ip` holds the first private IP when
that list is not empty, and `fixed_ip` is left as it was when the list is empty.
The first element is only taken under the test that the list is not empty. -/
theorem read_private_ips_and_fixed_ip (ctx : Context) (env : ReadEnv) (d : ResourceData)
    (inst : RdsInstanceResponse)
    (hc : env.clientErr = none)
    (hl : GetRdsInstanceByID env.listing d.id = .ok inst) (hid : inst.Id ≠ "") :
    (resourceRdsInstanceRead ctx env d).d.private_ips = inst.PrivateIps
    ∧ (∀ first rest, inst.PrivateIps = first :: rest →
        (resourceRdsInstanceRead ctx env d).d.fixed_ip = first)
    ∧ (inst.PrivateIps = [] →
        (resourceRdsInstanceRead ctx env d).d.fixed_ip = d.fixed_ip) := by
  obtain ⟨h1, h2, _, _⟩ := read_found ctx env d inst hc hl hid
  refine ⟨h1, fun first rest hp => ?_, fun hp => ?_⟩
  · rw [h2, hp]
  · rw [h2, hp]

/-- Instance of C20: Read of `rds-1` writes the one private IP of the
remote instance to `private_ips`. -/
theorem read_private_ips_sample :
    (resourceRdsInstanceRead [] readEnvMySQL priorData).d.private_ips
      = remoteMySQL.PrivateIps :=
  (read_private_ips_and_fixed_ip [] readEnvMySQL priorData remoteMySQL rfl (by rfl)
    (by decide)).1

/-- C18: once Read has found the instance and `d.Set("volume", ...)` reports no
error, the `volume` attribute is one block that carries the remote type, size
and disk encryption ID; it carries `limit_size` and `trigger_threshold`, equal
to the values of the auto-expansion response, exactly when the response has the
switch on, and otherwise both are absent and read back as 0.  The error of the
auto-expansion query changes nothing in what Read does or returns; in
particular a failed query whose response is the zero value leaves both
absent. -/
theorem read_volume_block :
    (∀ ctx env d inst, env.clientErr = none →
        GetRdsInstanceByID env.listing d.id = .ok inst → inst.Id ≠ "" →
        env.setVolumeErr = none →
        ∃ v, (resourceRdsInstanceRead ctx env d).d.volume = [v]
          ∧ v.type_ = inst.Volume.Type_ ∧ v.size = inst.Volume.Size
          ∧ v.disk_encryption_id = inst.DiskEncryptionId
          ∧ (env.autoExpandResp.SwitchOption = true →
              v.limit_size = some env.autoExpandResp.LimitSize
              ∧ v.trigger_threshold = some env.autoExpandResp.TriggerThreshold)
          ∧ (env.autoExpandResp.SwitchOption = false →
              v.limit_size = none ∧ v.trigger_threshold = none
              ∧ (resourceRdsInstanceRead ctx env d).d.volumeLimitSize = 0
              ∧ (resourceRdsInstanceRead ctx env d).d.volumeTriggerThreshold = 0))
    ∧ (∀ ctx (env : ReadEnv) d err,
        resourceRdsInstanceRead ctx { env with autoExpandErr := some err } d
          = resourceRdsInstanceRead ctx { env with autoExpandErr := none } d)
    ∧ (∀ ctx (env : ReadEnv) d inst err, env.clientErr = none →
        GetRdsInstanceByID env.listing d.id = .ok inst → inst.Id ≠ "" →
        env.setVolumeErr = none → env.autoExpandErr = some err → env.autoExpandResp = {} →
        (resourceRdsInstanceRead ctx env d).d.volume
          = [{ type_ := inst.Volume.Type_, size := inst.Volume.Size,
               disk_encryption_id := inst.DiskEncryptionId }]) := by
  refine ⟨?_, ?_, ?_⟩
  · intro ctx env d inst hc hl hid hv
    obtain ⟨_, _, h3, _⟩ := read_found ctx env d inst hc hl hid
    rw [hv] at h3
    simp only at h3
    refine ⟨readVolume inst env.autoExpandResp, h3, ?_, ?_, ?_, ?_, ?_⟩
    · unfold readVolume; split <;> rfl
    · unfold readVolume; split <;> rfl
    · unfold readVolume; split <;> rfl
    · intro hs
      simp [readVolume, hs]
    · intro hs
      simp [ResourceData.volumeLimitSize, ResourceData.volumeTriggerThreshold, h3,
        readVolume, hs]
  · intro ctx env d err
    rfl
  · intro ctx env d inst err hc hl hid hv _ hresp
    obtain ⟨_, _, h3, _⟩ := read_found ctx env d inst hc hl hid
    rw [hv] at h3
    simp only at h3
    rw [h3, hresp]
    rfl

/-- Instance of C18: Read of `rds-1` with the switch on writes the limit of 400
and the threshold of 15 next to the remote type, size and encryption ID. -/
theorem read_volume_block_sample :
    ∃ v, (resourceRdsInstanceRead [] readEnvMySQL priorData).d.volume = [v]
      ∧ v.type_ = remoteMySQL.Volume.Type_ ∧ v.size = remoteMySQL.Volume.Size
      ∧ v.limit_size = some 400 ∧ v.trigger_threshold = some 15 :=
  have ⟨v, h1, h2, h3, _, h5, _⟩ :=
    read_volume_block.1 [] readEnvMySQL priorData remoteMySQL rfl (by rfl) (by decide) rfl
  ⟨v, h1, h2, h3, (h5 rfl).1, (h5 rfl).2⟩

/-- C19: Read never changes what `d.Get("db.0.password")` returns, whatever the
remote answers.  Once Read has found the instance and its writes of `volume`
and `db` report no error, a prior state that has a `db` block ends with a
`db` attribute of exactly one element, whose password is the one held before the
Read and whose type, version, port and user name are the remote instance's. -/
theorem read_keeps_db_password :
    (∀ ctx env d, (resourceRdsInstanceRead ctx env d).d.dbPassword = d.dbPassword)
    ∧ (∀ ctx env d inst, env.clientErr = none →
        GetRdsInstanceByID env.listing d.id = .ok inst → inst.Id ≠ "" →
        env.setVolumeErr = none → env.setDbErr = none → d.db ≠ [] →
        (resourceRdsInstanceRead ctx env d).d.db
          = [{ type_ := inst.DataStore.Type_
               version := inst.DataStore.Version
               port := inst.Port
               user_name := inst.DbUserName
               password := some d.dbPassword }]) := by
  have found : ∀ ctx env d inst, env.clientErr = none →
      GetRdsInstanceByID env.listing d.id = .ok inst → inst.Id ≠ "" →
      env.setVolumeErr = none → env.setDbErr = none →
      (resourceRdsInstanceRead ctx env d).d.db = readDbList inst d := by
    intro ctx env d inst hc hl hid hv hdb
    obtain ⟨_, _, _, h4⟩ := read_found ctx env d inst hc hl hid
    rw [h4, hv, hdb]
  refine ⟨?_, ?_⟩
  · intro ctx env d
    cases hc : env.clientErr with
    | some e => simp [resourceRdsInstanceRead, hc]
    | none =>
      cases hl : GetRdsInstanceByID env.listing d.id with
      | error e => simp [resourceRdsInstanceRead, hc, hl]
      | ok inst =>
        by_cases hid : inst.Id = ""
        · simp [resourceRdsInstanceRead, hc, hl, hid, ResourceData.dbPassword]
        · obtain ⟨_, _, _, h4⟩ := read_found ctx env d inst hc hl hid
          cases hv : env.setVolumeErr with
          | some e =>
            rw [hv] at h4
            exact dbPassword_congr _ _ h4
          | none =>
            cases hdb : env.setDbErr with
            | some e =>
              rw [hv, hdb] at h4
              exact dbPassword_congr _ _ h4
            | none =>
              rw [hv, hdb] at h4
              simp only at h4
              unfold ResourceData.dbPassword
              rw [h4]
              cases hd : d.db <;> simp [readDbList, hd, ResourceData.dbPassword]
  · intro ctx env d inst hc hl hid hv hdb hne
    rw [found ctx env d inst hc hl hid hv hdb]
    have hlen : d.db.length > 0 := List.length_pos.mpr hne
    simp [readDbList, hlen]

/-- Instance of C19: Read of `rds-1` keeps the configured password in the one
`db` block it writes. -/
theorem read_keeps_db_password_sample :
    (resourceRdsInstanceRead [] readEnvMySQL priorData).d.db
      = [{ type_ := remoteMySQL.DataStore.Type_
           version := remoteMySQL.DataStore.Version
           port := remoteMySQL.Port
           user_name := remoteMySQL.DbUserName
           password := some priorData.dbPassword }] :=
  read_keeps_db_password.2 [] readEnvMySQL priorData remoteMySQL rfl (by rfl) (by decide)
    rfl rfl (by decide)

/-! ## Update: steps, events and diagnostics -/

theorem runSteps_events_mem (steps : List (List Event × Option Diagnostics)) (ev : Event)
    (h : ev ∈ (runSteps steps).1) : ∃ step ∈ steps, ev ∈ step.1 := by
  induction steps with
  | nil => simp [runSteps] at h
  | cons step rest ih =>
    unfold runSteps at h
    cases hs : step.2 with
    | some dg =>
      simp only [hs] at h
      exact ⟨step, List.mem_cons_self _ _, h⟩
    | none =>
      simp only [hs, List.mem_append] at h
      rcases h with h | h
      · exact ⟨step, List.mem_cons_self _ _, h⟩
      · obtain ⟨x, hx, hev⟩ := ih h
        exact ⟨x, List.mem_cons_of_mem _ hx, hev⟩

theorem runSteps_diags_mem (steps : List (List Event × Option Diagnostics))
    (dg : Diagnostics) (h : (runSteps steps).2 = some dg) :
    ∃ step ∈ steps, step.2 = some dg := by
  induction steps with
  | nil => simp [runSteps] at h
  | cons step rest ih =>
    unfold runSteps at h
    cases hs : step.2 with
    | some dg2 =>
      simp only [hs, Option.some.injEq] at h
      exact ⟨step, List.mem_cons_self _ _, by rw [hs, h]⟩
    | none =>
      simp only [hs] at h
      obtain ⟨x, hx, hd⟩ := ih h
      exact ⟨x, List.mem_cons_of_mem _ hx, hd⟩

theorem runSteps_cons (step : List Event × Option Diagnostics)
    (rest : List (List Event × Option Diagnostics)) :
    runSteps (step :: rest)
      = (match step.2 with
         | some diags => (step.1, some diags)
         | none => (step.1 ++ (runSteps rest).1, (runSteps rest).2)) := by
  rw [runSteps]

theorem runSteps_append (xs ys : List (List Event × Option Diagnostics)) :
    runSteps (xs ++ ys)
      = (match (runSteps xs).2 with
         | some dg => ((runSteps xs).1, some dg)
         | none => ((runSteps xs).1 ++ (runSteps ys).1, (runSteps ys).2)) := by
  induction xs with
  | nil => simp [runSteps]
  | cons step rest ih =>
    rw [List.cons_append, runSteps_cons, runSteps_cons]
    cases hs : step.2 with
    | some dg => simp
    | none =>
      simp only
      rw [ih]
      cases hr : (runSteps rest).2 <;> simp

/-- The events of Read are lookups: the listing, the auto-expansion query and
the query of the configuration. -/
theorem readTail_events (ctx : Context) (env : ReadEnv) (inst : RdsInstanceResponse)
    (instanceID : String) (d : ResourceData) (events : List Event) :
    (readTail ctx env inst instanceID d events).events = events
      ∨ (readTail ctx env inst instanceID d events).events
          = events ++ [.getConfigurations instanceID] := by
  unfold readTail
  cases env.setBackupErr with
  | some e => exact Or.inl rfl
  | none =>
    cases env.setNodesErr with
    | some e => exact Or.inl rfl
    | none =>
      cases env.configurations with
      | error e => exact Or.inr rfl
      | ok configs =>
        simp only
        split
        · split <;> exact Or.inr rfl
        · exact Or.inr rfl

theorem read_events (ctx : Context) (env : ReadEnv) (d : ResourceData) :
    ∀ ev ∈ (resourceRdsInstanceRead ctx env d).events,
      ev = .listInstances d.id ∨ ev = .getAutoExpand d.id ∨ ev = .getConfigurations d.id := by
  intro ev hev
  unfold resourceRdsInstanceRead at hev
  cases hc : env.clientErr with
  | some e => simp [hc] at hev
  | none =>
    simp only [hc] at hev
    cases hl : GetRdsInstanceByID env.listing d.id with
    | error e =>
      simp only [hl, List.mem_singleton] at hev
      exact Or.inl hev
    | ok inst =>
      simp only [hl] at hev
      by_cases hid : inst.Id = ""
      · simp only [hid, if_true, List.mem_singleton] at hev
        exact Or.inl hev
      · simp only [hid, if_false] at hev
        cases hv : env.setVolumeErr with
        | some e =>
          simp only [hv, List.mem_append, List.mem_singleton] at hev
          rcases hev with h | h
          · exact Or.inl h
          · exact Or.inr (Or.inl h)
        | none =>
          simp only [hv] at hev
          cases hdb : env.setDbErr with
          | some e =>
            simp only [hdb, List.mem_append, List.mem_singleton] at hev
            rcases hev with h | h
            · exact Or.inl h
            · exact Or.inr (Or.inl h)
          | none =>
            simp only [hdb] at hev
            rcases readTail_events ctx env inst d.id _ _ with h | h <;> rw [h] at hev <;>
              simp only [List.mem_append, List.mem_singleton] at hev <;>
              rcases hev with (h | h) | h <;> simp [h]

theorem updateSteps_split (d : ResourceData) (env : UpdateEnv) (instanceID : String) :
    updateSteps d env instanceID
      = (updateSteps d env instanceID).dropLast ++ [updateAutoExpand d env instanceID] := by
  simp [updateSteps, List.dropLast]

theorem all_flatten_replicate (p : Event → Bool) (n : Nat) (l : List Event)
    (h : l.all p = true) : ((List.replicate n l).flatten).all p = true := by
  induction n with
  | zero => simp
  | succ n ih =>
    rw [List.replicate_succ, List.flatten_cons, List.all_append, h, ih]
    rfl

/-- No step of Update before the auto-expansion step sends an auto-expansion
request. -/
theorem updateSteps_front_events (d : ResourceData) (env : UpdateEnv) (instanceID : String) :
    ∀ step ∈ (updateSteps d env instanceID).dropLast,
      step.1.all (fun ev => !ev.isAutoExpand) = true := by
  intro step hs
  simp only [updateSteps, List.dropLast, List.mem_cons, List.not_mem_nil, or_false] at hs
  rcases hs with rfl | rfl | rfl | rfl | rfl | rfl | rfl | rfl | rfl | rfl | rfl | rfl
  · rfl
  · simp only [fromErrStep, updateRdsInstanceName]
    repeat' split
    all_goals simp [Event.isAutoExpand]
  · simp only [fromErrStep, updateRdsInstanceFlavor]
    repeat' split
    all_goals simp [Event.isAutoExpand]
  · simp only [fromErrStep, updateRdsInstanceVolumeSize]
    repeat' split
    all_goals simp [Event.isAutoExpand]
  · simp only [fromErrStep, updateRdsInstanceBackpStrategy]
    repeat' split
    all_goals simp [Event.isAutoExpand]
  · simp only [fromErrStep, updateRdsInstanceDBPort]
    repeat' split
    all_goals simp [Event.isAutoExpand]
  · simp only [fromErrStep, updateRdsInstanceSecurityGroup]
    repeat' split
    all_goals simp [Event.isAutoExpand]
  · simp only [fromErrStep, updateRdsInstanceSSLConfig, configRdsInstanceSSL]
    repeat' split
    all_goals simp [Event.isAutoExpand]
  · simp only [fromErrStep, updateRdsRootPassword]
    repeat' split
    all_goals simp [Event.isAutoExpand]
  · repeat' split
    all_goals simp [Event.isAutoExpand]
  · repeat' split
    all_goals simp [Event.isAutoExpand]
  · split
    · apply all_flatten_replicate
      simp only [updateRdsParameters]
      split <;> simp [Event.isAutoExpand]
    · rfl

theorem diagErrorf_errors (message : String) :
    ∀ g ∈ diagErrorf message, g.severity = .Error := by
  intro g hg
  simp only [diagErrorf, List.mem_singleton] at hg
  rw [hg]

theorem map_diagErrorf_errors {α : Type} (x : Option α) (f : α → String) (dg : Diagnostics)
    (h : x.map (fun a => diagErrorf (f a)) = some dg) : ∀ g ∈ dg, g.severity = .Error := by
  cases x with
  | none => simp at h
  | some a =>
    simp only [Option.map_some', Option.some.injEq] at h
    rw [← h]
    exact diagErrorf_errors _

theorem fromErrStep_errors (r : List Event × Option GoError) (dg : Diagnostics)
    (h : (fromErrStep r).2 = some dg) : ∀ g ∈ dg, g.severity = .Error := by
  unfold fromErrStep at h
  exact map_diagErrorf_errors r.2 (fun err => err) dg h

/-- The diagnostics with which a step of Update ends the operation are
errors. -/
theorem updateSteps_diags (d : ResourceData) (env : UpdateEnv) (instanceID : String) :
    ∀ step ∈ updateSteps d env instanceID, ∀ dg, step.2 = some dg →
      ∀ g ∈ dg, g.severity = .Error := by
  intro step hs dg hdg
  simp only [updateSteps, List.mem_cons, List.not_mem_nil, or_false] at hs
  rcases hs with rfl | rfl | rfl | rfl | rfl | rfl | rfl | rfl | rfl | rfl | rfl | rfl | rfl
  · simp only [updateWaitReturn] at hdg
    split at hdg
    · simp only [Option.some.injEq] at hdg
      rw [← hdg]
      exact diagErrorf_errors _
    · simp at hdg
  · exact fromErrStep_errors _ dg hdg
  · exact fromErrStep_errors _ dg hdg
  · exact fromErrStep_errors _ dg hdg
  · exact fromErrStep_errors _ dg hdg
  · exact fromErrStep_errors _ dg hdg
  · exact fromErrStep_errors _ dg hdg
  · exact fromErrStep_errors _ dg hdg
  · exact fromErrStep_errors _ dg hdg
  · split at hdg
    · exact map_diagErrorf_errors _ _ dg hdg
    · simp at hdg
  · split at hdg
    · split at hdg
      · simp only [Option.some.injEq] at hdg
        rw [← hdg]
        exact diagErrorf_errors _
      · exact map_diagErrorf_errors _ _ dg hdg
    · simp at hdg
  · split at hdg
    · exact map_diagErrorf_errors _ _ dg hdg
    · simp at hdg
  · simp only [updateAutoExpand] at hdg
    split at hdg
    · split at hdg
      · exact map_diagErrorf_errors _ _ dg hdg
      · exact map_diagErrorf_errors _ _ dg hdg
    · simp at hdg

theorem Context_Value_WithValue_parametersChanged (ctx : Context) (val : GoAny)
    (key : String) :
    (ctx.WithValue parametersChangedKey val).Value (goString key)
      = ctx.Value (goString key) := by
  simp [Context.WithValue, Context.Value, parametersChangedKey, goString]

/-- Read returns the warning only under a context that holds the value `true`
for the string key `parametersChanged`; any other diagnostics of Read are
errors. -/
theorem read_diags (ctx : Context) (env : ReadEnv) (d : ResourceData)
    (h : ctx.Value (goString "parametersChanged") ≠ some (goString "true")) :
    ∀ g ∈ (resourceRdsInstanceRead ctx env d).diags, g.severity = .Error := by
  have tail : ∀ inst instanceID x events,
      ∀ g ∈ (readTail ctx env inst instanceID x events).diags, g.severity = .Error := by
    intro inst instanceID x events g hg
    unfold readTail at hg
    cases hb : env.setBackupErr with
    | some e =>
      simp only [hb] at hg
      exact diagErrorf_errors _ g hg
    | none =>
      cases hn : env.setNodesErr with
      | some e =>
        simp only [hb, hn] at hg
        exact diagErrorf_errors _ g hg
      | none =>
        cases hcf : env.configurations with
        | error e => simp [hb, hn, hcf] at hg
        | ok configs =>
          simp only [hb, hn, hcf] at hg
          by_cases hp : (readParameters configs x.parameters).1.length > 0
          · simp only [hp, if_true, h, and_false, if_false] at hg
            simp at hg
          · simp only [hp, if_false] at hg
            simp at hg
  intro g hg
  unfold resourceRdsInstanceRead at hg
  cases hc : env.clientErr with
  | some e =>
    simp only [hc] at hg
    exact diagErrorf_errors _ g hg
  | none =>
    simp only [hc] at hg
    cases hl : GetRdsInstanceByID env.listing d.id with
    | error e =>
      simp only [hl] at hg
      exact diagErrorf_errors _ g hg
    | ok inst =>
      simp only [hl] at hg
      by_cases hid : inst.Id = ""
      · simp [hid] at hg
      · simp only [hid, if_false] at hg
        cases hv : env.setVolumeErr with
        | some e =>
          simp only [hv] at hg
          exact diagErrorf_errors _ g hg
        | none =>
          simp only [hv] at hg
          cases hdb : env.setDbErr with
          | some e =>
            simp only [hdb] at hg
            exact diagErrorf_errors _ g hg
          | none =>
            simp only [hdb] at hg
            exact tail _ _ _ _ g hg

/-! ## Update: the initial wait, the auto-expansion step, the marker for Read -/

/-- C14: when the initial wait of Update returns an error, Update returns an
error diagnostic and has issued none of its modifying requests.  Whenever
Update has issued a modifying request, the client was created, the initial wait
returned no error, and the wait is the first of Update's events, so that every
modifying request comes after it. -/
theorem update_waits_before_modifying :
    (∀ ctx env d e, env.initialWait = some e →
        HasError (resourceRdsInstanceUpdate ctx env d).diags = true
        ∧ ∀ ev ∈ (resourceRdsInstanceUpdate ctx env d).events, ev.isModifying = false)
    ∧ (∀ ctx env d,
        (∃ ev ∈ (resourceRdsInstanceUpdate ctx env d).events, ev.isModifying = true) →
        env.clientErr = none ∧ env.initialWait = none
        ∧ ∃ rest, (resourceRdsInstanceUpdate ctx env d).events
            = .waitState (updateStateConf d.timeoutDefault) :: rest) := by
  have failed : ∀ ctx env d e, env.initialWait = some e →
      HasError (resourceRdsInstanceUpdate ctx env d).diags = true
      ∧ ∀ ev ∈ (resourceRdsInstanceUpdate ctx env d).events, ev.isModifying = false := by
    intro ctx env d e h
    cases hc : env.clientErr with
    | some err => simp [resourceRdsInstanceUpdate, hc, HasError, diagErrorf]
    | none =>
      simp [resourceRdsInstanceUpdate, hc, updateSteps, runSteps_cons, updateWaitReturn, h,
        HasError, diagErrorf, Event.isModifying]
  refine ⟨failed, ?_⟩
  intro ctx env d ⟨ev, hev, hmod⟩
  cases hc : env.clientErr with
  | some err => simp [resourceRdsInstanceUpdate, hc] at hev
  | none =>
    cases hw : env.initialWait with
    | some e =>
      have := (failed ctx env d e hw).2 ev hev
      rw [this] at hmod
      exact absurd hmod (by decide)
    | none =>
      refine ⟨rfl, rfl, ?_⟩
      unfold resourceRdsInstanceUpdate
      simp only [hc]
      have hrun : ∃ rest, (runSteps (updateSteps d env d.id)).1
          = .waitState (updateStateConf d.timeoutDefault) :: rest := by
        simp only [updateSteps, runSteps_cons, updateWaitReturn, hw]
        exact ⟨_, rfl⟩
      obtain ⟨rest, hrest⟩ := hrun
      cases hr : (runSteps (updateSteps d env d.id)).2 with
      | some dg =>
        simp only [hrest]
        exact ⟨_, rfl⟩
      | none =>
        simp only [hrest, List.cons_append]
        exact ⟨_, rfl⟩

/-- Instance of C14: an update of the parameters whose initial wait times out
returns an error and has issued no modifying request. -/
theorem update_wait_timeout_blocks_requests :
    HasError (resourceRdsInstanceUpdate []
        { paramChangeEnv with initialWait := some .timeout } paramChangeData).diags = true
      ∧ ∀ ev ∈ (resourceRdsInstanceUpdate []
          { paramChangeEnv with initialWait := some .timeout } paramChangeData).events,
        ev.isModifying = false :=
  update_waits_before_modifying.1 [] { paramChangeEnv with initialWait := some .timeout }
    paramChangeData .timeout rfl

theorem filter_eq_nil_of_all_not (p : Event → Bool) (l : List Event)
    (h : l.all (fun ev => !p ev) = true) : l.filter p = [] := by
  rw [List.filter_eq_nil_iff]
  intro ev hev
  have := List.all_eq_true.mp h ev hev
  simpa using this

theorem runSteps_front_no_autoExpand (d : ResourceData) (env : UpdateEnv)
    (instanceID : String) :
    (runSteps (updateSteps d env instanceID).dropLast).1.filter Event.isAutoExpand = [] := by
  rw [List.filter_eq_nil_iff]
  intro ev hev
  obtain ⟨step, hs, hin⟩ := runSteps_events_mem _ ev hev
  have := List.all_eq_true.mp (updateSteps_front_events d env instanceID step hs) ev hin
  simpa using this

theorem read_no_autoExpand (ctx : Context) (env : ReadEnv) (d : ResourceData) :
    (resourceRdsInstanceRead ctx env d).events.filter Event.isAutoExpand = [] := by
  rw [List.filter_eq_nil_iff]
  intro ev hev
  rcases read_events ctx env d ev hev with h | h | h <;> rw [h] <;> simp [Event.isAutoExpand]

theorem updateAutoExpand_events (d : ResourceData) (env : UpdateEnv) (instanceID : String) :
    (updateAutoExpand d env instanceID).1.filter Event.isAutoExpand
      = (updateAutoExpand d env instanceID).1 := by
  unfold updateAutoExpand
  by_cases hc : (d.HasChange "volume.0.limit_size" = true
      ∨ d.HasChange "volume.0.trigger_threshold" = true)
  · by_cases hl : d.volumeLimitSize > 0
    · simp [hc, hl, Event.isAutoExpand]
    · simp [hc, hl, Event.isAutoExpand]
  · simp [hc]

theorem runSteps_singleton (step : List Event × Option Diagnostics) :
    (runSteps [step]).1 = step.1 ∧ (runSteps [step]).2 = step.2 := by
  rw [runSteps_cons]
  cases h : step.2 <;> simp [runSteps]

/-- The auto-expansion requests of an Update: none when a step before the
auto-expansion step ended the operation, those of the auto-expansion step
otherwise. -/
theorem update_autoExpand_events (ctx : Context) (env : UpdateEnv) (d : ResourceData) :
    (resourceRdsInstanceUpdate ctx env d).events.filter Event.isAutoExpand
      = (match env.clientErr, (runSteps (updateSteps d env d.id).dropLast).2 with
         | none, none => (updateAutoExpand d env d.id).1
         | _, _ => []) := by
  unfold resourceRdsInstanceUpdate
  cases hc : env.clientErr with
  | some err => simp
  | none =>
    simp only
    have hsplit := updateSteps_split d env d.id
    have hfront := runSteps_front_no_autoExpand d env d.id
    generalize (updateSteps d env d.id).dropLast = front at hsplit hfront ⊢
    rw [hsplit, runSteps_append]
    obtain ⟨hs1, hs2⟩ := runSteps_singleton (updateAutoExpand d env d.id)
    cases hf : (runSteps front).2 with
    | some dg => simp only [hfront]
    | none =>
      simp only [hs1, hs2]
      cases ha : (updateAutoExpand d env d.id).2 with
      | some dg =>
        simp only [List.filter_append, hfront, List.nil_append]
        exact updateAutoExpand_events d env d.id
      | none =>
        simp only [List.filter_append, hfront, List.nil_append, List.append_nil,
          read_no_autoExpand, updateAutoExpand_events]

/-- C17: the auto-expansion step of Update.  When `volume.0.limit_size` or
`volume.0.trigger_threshold` changed and the new `limit_size` is greater than 0,
the step sends exactly one request, which enables auto-expansion with
the instance ID, the new `limit_size` and the new `trigger_threshold`; when one of
them changed and `limit_size` is 0 or removed, it sends exactly one request,
which disables auto-expansion; when neither changed it sends none.  An Update
that gets as far as this step sends exactly the auto-expansion requests of the
step, and every Update sends no auto-expansion request when neither attribute
changed. -/
theorem update_auto_expansion :
    (∀ d env instanceID,
        (d.HasChange "volume.0.limit_size" = true
          ∨ d.HasChange "volume.0.trigger_threshold" = true) →
        d.volumeLimitSize > 0 →
        (updateAutoExpand d env instanceID).1
          = [.enableAutoExpand instanceID d.volumeLimitSize d.volumeTriggerThreshold])
    ∧ (∀ d env instanceID,
        (d.HasChange "volume.0.limit_size" = true
          ∨ d.HasChange "volume.0.trigger_threshold" = true) →
        ¬ d.volumeLimitSize > 0 →
        (updateAutoExpand d env instanceID).1 = [.disableAutoExpand instanceID])
    ∧ (∀ d env instanceID, d.HasChange "volume.0.limit_size" = false →
        d.HasChange "volume.0.trigger_threshold" = false →
        updateAutoExpand d env instanceID = ([], none))
    ∧ (∀ ctx env d, env.clientErr = none →
        (runSteps (updateSteps d env d.id).dropLast).2 = none →
        (resourceRdsInstanceUpdate ctx env d).events.filter Event.isAutoExpand
          = (updateAutoExpand d env d.id).1)
    ∧ (∀ ctx env d, d.HasChange "volume.0.limit_size" = false →
        d.HasChange "volume.0.trigger_threshold" = false →
        (resourceRdsInstanceUpdate ctx env d).events.filter Event.isAutoExpand = [])
    ∧ (∀ ctx env d,
        ((resourceRdsInstanceUpdate ctx env d).events.filter Event.isAutoExpand).length ≤ 1) := by
  have none_changed : ∀ d env instanceID, d.HasChange "volume.0.limit_size" = false →
      d.HasChange "volume.0.trigger_threshold" = false →
      updateAutoExpand d env instanceID = ([], none) := by
    intro d env instanceID h1 h2
    simp [updateAutoExpand, h1, h2]
  refine ⟨?_, ?_, none_changed, ?_, ?_, ?_⟩
  · intro d env instanceID h hl
    have hc : (d.HasChange "volume.0.limit_size" = true
        ∨ d.HasChange "volume.0.trigger_threshold" = true) := h
    simp only [updateAutoExpand, hc, if_true, hl]
  · intro d env instanceID h hl
    have hc : (d.HasChange "volume.0.limit_size" = true
        ∨ d.HasChange "volume.0.trigger_threshold" = true) := h
    simp only [updateAutoExpand, hc, if_true, hl, if_false]
  · intro ctx env d hc hf
    rw [update_autoExpand_events, hc, hf]
  · intro ctx env d h1 h2
    rw [update_autoExpand_events]
    split
    · rw [none_changed d env d.id h1 h2]
    · rfl
  · intro ctx env d
    rw [update_autoExpand_events]
    split
    · unfold updateAutoExpand
      by_cases hc : (d.HasChange "volume.0.limit_size" = true
          ∨ d.HasChange "volume.0.trigger_threshold" = true)
      · by_cases hl : d.volumeLimitSize > 0
        · simp [hc, hl]
        · simp [hc, hl]
      · simp [hc]
    · simp

/-- Instance of C17: the update to a limit of 500 and a threshold of 20 sends
one request that enables auto-expansion with these values. -/
theorem update_auto_expansion_enable :
    (updateAutoExpand autoExpandData {} "rds-1").1
      = [.enableAutoExpand "rds-1" autoExpandData.volumeLimitSize
          autoExpandData.volumeTriggerThreshold] :=
  update_auto_expansion.1 autoExpandData {} "rds-1" (Or.inl (by decide)) (by decide)

/-- C12, evaluated on the source: the warning `Parameters Changed` never comes
back from Update.  Update attaches the marker under a key of its own type
`ctxType`, Read asks for the plain string key `parametersChanged`, and the two
keys are not equal, so under every incoming context without that string key
all diagnostics of Update are errors.  In the sample update the parameter
`connect_timeout` is changed, the modification succeeds and the remote
configuration flags it as requiring a restart, yet Update returns no
diagnostics; the same Read under a context that holds the string key returns
the warning. -/
theorem update_parameters_warning_is_lost :
    (∀ ctx env d, ctx.Value (goString "parametersChanged") ≠ some (goString "true") →
        ∀ g ∈ (resourceRdsInstanceUpdate ctx env d).diags, g.severity = .Error)
    ∧ paramChangeData.HasChange "parameters" = true
    ∧ (readParameters [{ Name := "connect_timeout", Value := "14", Restart := true }]
        paramChangeData.parameters).2 = ["connect_timeout"]
    ∧ (resourceRdsInstanceUpdate [] paramChangeEnv paramChangeData).diags = []
    ∧ (resourceRdsInstanceUpdate [] paramChangeEnv paramChangeData).events
        = [.waitState (updateStateConf (15 * Minute)),
           .modifyConfiguration "rds-1" [("connect_timeout", "14")],
           .listInstances "rds-1", .getAutoExpand "rds-1", .getConfigurations "rds-1"]
    ∧ (resourceRdsInstanceRead
          (Context.WithValue [] (goString "parametersChanged") (goString "true"))
          paramChangeEnv.read paramChangeData).diags
        = [{ severity := .Warning, summary := "Parameters Changed",
             detail := "Parameters [connect_timeout] changed which needs reboot." }] := by
  refine ⟨?_, by decide, by decide, by decide, by decide, by decide⟩
  intro ctx env d h g hg
  unfold resourceRdsInstanceUpdate at hg
  cases hc : env.clientErr with
  | some err =>
    simp only [hc] at hg
    exact diagErrorf_errors _ g hg
  | none =>
    simp only [hc] at hg
    cases hr : (runSteps (updateSteps d env d.id)).2 with
    | some dg =>
      simp only [hr] at hg
      obtain ⟨step, hs, hd⟩ := runSteps_diags_mem _ dg hr
      exact updateSteps_diags d env d.id step hs dg hd g hg
    | none =>
      simp only [hr] at hg
      refine read_diags _ env.read d ?_ g hg
      split
      · rw [Context_Value_WithValue_parametersChanged]
        exact h
      · exact h

/-- Instance of C12: the sample update, started under the empty context,
returns no warning. -/
theorem update_parameters_warning_is_lost_sample :
    ∀ g ∈ (resourceRdsInstanceUpdate [] paramChangeEnv paramChangeData).diags,
      g.severity = .Error :=
  update_parameters_warning_is_lost.1 [] paramChangeEnv paramChangeData (by decide)

/-! ## The value and the error of an observation -/

/-- C28: the observation that `rdsInstanceStateRefreshFunc` returns has a nil
value if and only if its error is not nil, for every listing result and for
every outcome of the lookup.  On success the value is an instance; when the
lookup finds none, it is the zero-valued one with state `DELETED`.  So no
observation has both a nil value and a nil error. -/
theorem refresh_value_nil_iff_error :
    (∀ listing instanceID,
        (rdsInstanceStateRefreshFunc listing instanceID).value = none
          ↔ (rdsInstanceStateRefreshFunc listing instanceID).err ≠ none)
    ∧ (∀ lookup, (stateOfLookup lookup).value = none ↔ (stateOfLookup lookup).err ≠ none)
    ∧ (∀ listing instanceID,
        ¬ ((rdsInstanceStateRefreshFunc listing instanceID).value = none
          ∧ (rdsInstanceStateRefreshFunc listing instanceID).err = none))
    ∧ (∀ instanceID, rdsInstanceStateRefreshFunc (.instances []) instanceID
        = { value := some {}, state := "DELETED", err := none }) := by
  have body : ∀ lookup,
      (stateOfLookup lookup).value = none ↔ (stateOfLookup lookup).err ≠ none := by
    intro lookup
    cases lookup with
    | error e => simp [stateOfLookup]
    | ok inst =>
      by_cases h : inst.Id = "" <;> simp [stateOfLookup, h]
  refine ⟨fun listing instanceID => body _, body, ?_, fun _ => rfl⟩
  intro listing instanceID ⟨h1, h2⟩
  exact ((body _).mp h1) h2

/-! ## Read when the instance is gone -/

/-- C25: when the client is there and the lookup of Read returns an instance
whose `Id` is empty, Read clears the resource ID, returns no diagnostics, leaves
every other attribute as it was, and its only request is the lookup.  When the
lookup fails, Read returns an error diagnostic and leaves the resource data,
the ID included, as it was. -/
theorem read_instance_gone :
    (∀ ctx env d inst, env.clientErr = none →
        GetRdsInstanceByID env.listing d.id = .ok inst → inst.Id = "" →
        resourceRdsInstanceRead ctx env d
          = { d := { d with id := "" }, diags := [], events := [.listInstances d.id] })
    ∧ (∀ ctx env d err, env.clientErr = none →
        GetRdsInstanceByID env.listing d.id = .error err →
        resourceRdsInstanceRead ctx env d
          = { d := d, diags := diagErrorf ("error getting RDS instance: " ++ err),
              events := [.listInstances d.id] }
        ∧ HasError (resourceRdsInstanceRead ctx env d).diags = true) := by
  refine ⟨?_, ?_⟩
  · intro ctx env d inst hc hl hid
    simp [resourceRdsInstanceRead, hc, hl, hid]
  · intro ctx env d err hc hl
    simp [resourceRdsInstanceRead, hc, hl, HasError, diagErrorf]

/-- Instance of C25: Read of `rds-1` against an empty listing clears the ID. -/
theorem read_instance_gone_sample :
    resourceRdsInstanceRead [] {} priorData
      = { d := { priorData with id := "" }, diags := [],
          events := [.listInstances priorData.id] } :=
  read_instance_gone.1 [] {} priorData {} rfl (by rfl) rfl

/-! ## The database type -/

theorem toLower_eq_iff (c t u : Char) (ht : t.toNat = u.toNat + 32) (hu1 : 65 ≤ u.toNat)
    (hu2 : u.toNat ≤ 90) : c.toLower = t ↔ c = t ∨ c = u := by
  have hcn : ∀ a b : Char, a.toNat = b.toNat → a = b := by
    intro a b h
    rw [← Char.ofNat_toNat a, ← Char.ofNat_toNat b, h]
  unfold Char.toLower
  by_cases hr : c.toNat ≥ 65 ∧ c.toNat ≤ 90
  · simp only [hr, and_self, if_true]
    have hval : (Char.ofNat (c.toNat + 32)).toNat = c.toNat + 32 := by
      obtain ⟨h1, h2⟩ := hr
      generalize c.toNat = n at h1 h2
      interval_cases n <;> rfl
    constructor
    · intro h
      right
      apply hcn
      have := congrArg Char.toNat h
      rw [hval, ht] at this
      omega
    · rintro (h | h)
      · subst h
        omega
      · subst h
        apply hcn
        rw [hval, ht]
  · simp only [hr, if_false]
    constructor
    · intro h; exact Or.inl h
    · rintro (h | h)
      · exact h
      · subst h
        exact absurd ⟨hu1, hu2⟩ hr

/-- C24: `isMySQLDatabase` holds exactly when the lower-cased `db.0.type` is
`mysql`, that is when the type has five characters, each the letter of `mysql`
at its place in either case.  So `MySQL`, `mysql` and `MYSQL` are MySQL, and
`PostgreSQL`, `SQLServer` and the empty string are not. -/
theorem isMySQLDatabase_iff :
    (∀ d, isMySQLDatabase d = true ↔ toLowerASCII d.dbType = "mysql")
    ∧ (∀ s : String, isMySQLDatabase (dataOfDbType s) = true ↔
        ∃ c1 c2 c3 c4 c5, s = String.mk [c1, c2, c3, c4, c5]
          ∧ (c1 = 'm' ∨ c1 = 'M') ∧ (c2 = 'y' ∨ c2 = 'Y') ∧ (c3 = 's' ∨ c3 = 'S')
          ∧ (c4 = 'q' ∨ c4 = 'Q') ∧ (c5 = 'l' ∨ c5 = 'L'))
    ∧ isMySQLDatabase (dataOfDbType "MySQL") = true
    ∧ isMySQLDatabase (dataOfDbType "mysql") = true
    ∧ isMySQLDatabase (dataOfDbType "MYSQL") = true
    ∧ isMySQLDatabase (dataOfDbType "PostgreSQL") = false
    ∧ isMySQLDatabase (dataOfDbType "SQLServer") = false
    ∧ isMySQLDatabase (dataOfDbType "") = false
    ∧ isMySQLDatabase {} = false := by
  refine ⟨fun d => by simp [isMySQLDatabase], ?_, by decide, by decide, by decide,
    by decide, by decide, by decide, by decide⟩
  intro s
  have hm := fun c => toLower_eq_iff c 'm' 'M' (by decide) (by decide) (by decide)
  have hy := fun c => toLower_eq_iff c 'y' 'Y' (by decide) (by decide) (by decide)
  have hs := fun c => toLower_eq_iff c 's' 'S' (by decide) (by decide) (by decide)
  have hq := fun c => toLower_eq_iff c 'q' 'Q' (by decide) (by decide) (by decide)
  have hl := fun c => toLower_eq_iff c 'l' 'L' (by decide) (by decide) (by decide)
  have htype : (dataOfDbType s).dbType = s := rfl
  simp only [isMySQLDatabase, htype, decide_eq_true_eq, toLowerASCII]
  obtain ⟨l⟩ := s
  have hstr : ("mysql" : String) = String.mk ['m', 'y', 's', 'q', 'l'] := rfl
  have hinj : ∀ a b : List Char, String.mk a = String.mk b ↔ a = b :=
    fun a b => ⟨fun h => congrArg String.data h, fun h => by rw [h]⟩
  rw [hstr]
  simp only [hinj]
  constructor
  · intro h
    match l, h with
    | [c1, c2, c3, c4, c5], h =>
      simp only [List.map_cons, List.map_nil, List.cons.injEq, and_true] at h
      exact ⟨c1, c2, c3, c4, c5, rfl, (hm c1).mp h.1, (hy c2).mp h.2.1, (hs c3).mp h.2.2.1,
        (hq c4).mp h.2.2.2.1, (hl c5).mp h.2.2.2.2⟩
    | [], h => simp at h
    | [_], h => simp at h
    | [_, _], h => simp at h
    | [_, _, _], h => simp at h
    | [_, _, _, _], h => simp at h
    | _ :: _ :: _ :: _ :: _ :: _ :: _, h => simp at h
  · rintro ⟨c1, c2, c3, c4, c5, rfl, h1, h2, h3, h4, h5⟩
    simp only [List.map_cons, List.map_nil, List.cons.injEq, and_true]
    exact ⟨(hm c1).mpr h1, (hy c2).mpr h2, (hs c3).mpr h3, (hq c4).mpr h4, (hl c5).mpr h5⟩

/-- Instance of C24: the type `MySQL` of the acceptance test is MySQL. -/
theorem isMySQLDatabase_sample :
    toLowerASCII (dataOfDbType "MySQL").dbType = "mysql" :=
  (isMySQLDatabase_iff.1 (dataOfDbType "MySQL")).mp (by decide)

/-! ## The password and the debug log -/

/-- C23: the create options that Create writes to the debug log do not depend
on `db.0.password`: two configurations that differ only in it have the same
logged options, whose `Password` field is empty.  The options sent with the
create request are the logged ones with `Password` set to the configured
`db.0.password`. -/
theorem create_log_has_no_password :
    (∀ d env pw,
        (resourceRdsInstanceCreateOpts (withDbPassword d pw) env).map (fun r => r.logged)
          = (resourceRdsInstanceCreateOpts d env).map (fun r => r.logged))
    ∧ (∀ d env req, resourceRdsInstanceCreateOpts d env = .ok req →
        req.logged.Password = "" ∧ req.sent.Password = d.dbPassword
        ∧ req.sent = { req.logged with Password := d.dbPassword }) := by
  refine ⟨?_, ?_⟩
  · intro d env pw
    have hport : (withDbPassword d pw).dbPort = d.dbPort := by
      cases h : d.db <;> simp [withDbPassword, ResourceData.dbPort, h]
    have hds : buildRdsInstanceDatastore (withDbPassword d pw)
        = buildRdsInstanceDatastore d := by
      unfold buildRdsInstanceDatastore withDbPassword
      cases d.db with
      | nil => rfl
      | cons b rest => cases rest <;> rfl
    unfold resourceRdsInstanceCreateOpts
    cases env.clientErr with
    | some e => rfl
    | none =>
      simp only [buildRdsInstanceDBPort, hport, hds]
      by_cases hp : d.charging_mode = "prePaid"
      · have hp2 : (withDbPassword d pw).charging_mode = "prePaid" := hp
        cases env.validatePrePaidErr with
        | some e => simp [hp, hp2, Except.map]
        | none =>
          simp only [hp, hp2, if_true, Except.map]
          rfl
      · have hp2 : ¬ (withDbPassword d pw).charging_mode = "prePaid" := hp
        simp only [hp, hp2, if_false, Except.map]
        rfl
  · intro d env req h
    unfold resourceRdsInstanceCreateOpts at h
    cases hc : env.clientErr with
    | some e => simp [hc] at h
    | none =>
      simp only [hc] at h
      by_cases hp : d.charging_mode = "prePaid"
      · cases hv : env.validatePrePaidErr with
        | some e => simp [hp, hv] at h
        | none =>
          simp only [hp, hv, if_true, Except.ok.injEq] at h
          subst h
          exact ⟨rfl, rfl, rfl⟩
      · simp only [hp, if_false, Except.ok.injEq] at h
        subst h
        exact ⟨rfl, rfl, rfl⟩

/-- Instance of C23: the prepaid test configuration sends its password and
logs none. -/
theorem create_log_has_no_password_sample :
    ∃ req, resourceRdsInstanceCreateOpts (prePaidData "true") {} = .ok req
      ∧ req.logged.Password = "" ∧ req.sent.Password = "Abcde!#12" :=
  match h : resourceRdsInstanceCreateOpts (prePaidData "true") {} with
  | .ok req =>
    ⟨req, rfl, (create_log_has_no_password.2 (prePaidData "true") {} req h).1,
      (create_log_has_no_password.2 (prePaidData "true") {} req h).2.1⟩
  | .error e => by simp [resourceRdsInstanceCreateOpts, prePaidData] at h

/-! ## Update: requests and changed attributes -/

theorem updateSteps_justified (d : ResourceData) (env : UpdateEnv) (instanceID : String) :
    ∀ step ∈ updateSteps d env instanceID,
      step.1.all (fun ev => ev.justified d) = true := by
  intro step hs
  simp only [updateSteps, List.mem_cons, List.not_mem_nil, or_false] at hs
  rcases hs with rfl | rfl | rfl | rfl | rfl | rfl | rfl | rfl | rfl | rfl | rfl | rfl | rfl
  · rfl
  · simp only [fromErrStep, updateRdsInstanceName]
    by_cases h : d.HasChange "name" = true
    · cases env.renameErr <;>
        simp [h, Event.justified, Event.isModifying, Event.ownAttributes]
    · simp [h]
  · simp only [fromErrStep, updateRdsInstanceFlavor]
    by_cases h : d.HasChange "flavor" = true
    · simp only [h, Bool.not_true, Bool.false_eq_true, if_false]
      repeat' split
      all_goals simp [h, Event.justified, Event.isModifying, Event.ownAttributes]
    · simp [h]
  · simp only [fromErrStep, updateRdsInstanceVolumeSize]
    by_cases h : d.HasChange "volume.0.size" = true
    · cases env.enlargeVolume <;>
        simp [h, Event.justified, Event.isModifying, Event.ownAttributes]
    · simp [h]
  · simp only [fromErrStep, updateRdsInstanceBackpStrategy]
    by_cases h : d.HasChange "backup_strategy" = true
    · cases env.backupErr <;>
        simp [h, Event.justified, Event.isModifying, Event.ownAttributes]
    · simp [h]
  · simp only [fromErrStep, updateRdsInstanceDBPort]
    by_cases h : d.HasChange "db.0.port" = true
    · cases env.portErr <;>
        simp [h, Event.justified, Event.isModifying, Event.ownAttributes]
    · simp [h]
  · simp only [fromErrStep, updateRdsInstanceSecurityGroup]
    by_cases h : d.HasChange "security_group_id" = true
    · simp [h, Event.justified, Event.isModifying, Event.ownAttributes]
    · simp [h]
  · simp only [fromErrStep, updateRdsInstanceSSLConfig, configRdsInstanceSSL]
    by_cases h : d.HasChange "ssl_enable" = true
    · by_cases hm : isMySQLDatabase d = true
      · simp [h, hm, Event.justified, Event.isModifying, Event.ownAttributes]
      · simp [h, hm]
    · simp [h]
  · simp only [fromErrStep, updateRdsRootPassword]
    by_cases h : d.HasChange "db.0.password" = true
    · simp [h, Event.justified, Event.isModifying, Event.ownAttributes]
    · simp [h]
  · by_cases h : d.HasChange "tags" = true
    · simp [h, Event.justified, Event.isModifying, Event.ownAttributes]
    · simp [h]
  · by_cases h : d.HasChange "auto_renew" = true
    · cases env.bssClientErr <;>
        simp [h, Event.justified, Event.isModifying, Event.ownAttributes]
    · simp [h]
  · by_cases h : d.HasChange "parameters" = true
    · simp only [h, if_true]
      apply all_flatten_replicate
      simp only [updateRdsParameters]
      split <;> simp [h, Event.justified, Event.isModifying, Event.ownAttributes]
    · simp [h]
  · simp only [updateAutoExpand]
    by_cases h : (d.HasChange "volume.0.limit_size" = true
        ∨ d.HasChange "volume.0.trigger_threshold" = true)
    · by_cases hl : d.volumeLimitSize > 0
      · rcases h with h | h <;>
          simp [h, hl, Event.justified, Event.isModifying, Event.ownAttributes]
      · rcases h with h | h <;>
          simp [h, hl, Event.justified, Event.isModifying, Event.ownAttributes]
    · simp [h]

theorem update_events_justified (ctx : Context) (env : UpdateEnv) (d : ResourceData) :
    ∀ ev ∈ (resourceRdsInstanceUpdate ctx env d).events, ev.justified d = true := by
  intro ev hev
  have hrun : ∀ ev ∈ (runSteps (updateSteps d env d.id)).1, ev.justified d = true := by
    intro ev hev
    obtain ⟨step, hs, hmem⟩ := runSteps_events_mem _ ev hev
    exact List.all_eq_true.mp (updateSteps_justified d env d.id step hs) ev hmem
  unfold resourceRdsInstanceUpdate at hev
  cases hc : env.clientErr with
  | some err => simp [hc] at hev
  | none =>
    simp only [hc] at hev
    cases hr : (runSteps (updateSteps d env d.id)).2 with
    | some dg =>
      simp only [hr] at hev
      exact hrun ev hev
    | none =>
      simp only [hr, List.mem_append] at hev
      rcases hev with h | h
      · exact hrun ev h
      · rcases read_events _ _ _ ev h with h | h | h <;> rw [h] <;> rfl

/-- C26: every modifying request that Update issues has an attribute of its
own that changed: `name` for the rename, `flavor` for the resize, and so on,
and `volume.0.limit_size` or `volume.0.trigger_threshold` for the two
auto-expansion requests.  When none of the thirteen attributes has changed,
Update issues no modifying request; if then the client is there and the initial
wait succeeds, Update is the wait for ACTIVE followed by Read under the context
it was given. -/
theorem update_requests_only_for_changes :
    (∀ ctx env d ev, ev ∈ (resourceRdsInstanceUpdate ctx env d).events →
        ev.isModifying = true → ∃ k ∈ ev.ownAttributes, d.HasChange k = true)
    ∧ (∀ ctx env d, (∀ k ∈ updateAttributes, d.HasChange k = false) →
        (∀ ev ∈ (resourceRdsInstanceUpdate ctx env d).events, ev.isModifying = false)
        ∧ (env.clientErr = none → env.initialWait = none →
            resourceRdsInstanceUpdate ctx env d
              = { resourceRdsInstanceRead ctx env.read d with
                  events := .waitState (updateStateConf d.timeoutDefault)
                    :: (resourceRdsInstanceRead ctx env.read d).events })) := by
  have first : ∀ ctx env d ev, ev ∈ (resourceRdsInstanceUpdate ctx env d).events →
      ev.isModifying = true → ∃ k ∈ ev.ownAttributes, d.HasChange k = true := by
    intro ctx env d ev hev hmod
    have h := update_events_justified ctx env d ev hev
    simp only [Event.justified, hmod, Bool.not_true, Bool.false_or, List.any_eq_true] at h
    exact h
  refine ⟨first, ?_⟩
  intro ctx env d hnone
  refine ⟨?_, ?_⟩
  · intro ev hev
    cases hm : ev.isModifying with
    | false => rfl
    | true =>
      obtain ⟨k, hk, hch⟩ := first ctx env d ev hev hm
      have hin : k ∈ updateAttributes := by
        cases ev <;> simp [Event.ownAttributes] at hk <;>
          simp [updateAttributes, hk]
      rw [hnone k hin] at hch
      exact absurd hch (by decide)
  · intro hc hw
    have h1 := hnone "name" (by simp [updateAttributes])
    have h2 := hnone "flavor" (by simp [updateAttributes])
    have h3 := hnone "volume.0.size" (by simp [updateAttributes])
    have h4 := hnone "backup_strategy" (by simp [updateAttributes])
    have h5 := hnone "db.0.port" (by simp [updateAttributes])
    have h6 := hnone "security_group_id" (by simp [updateAttributes])
    have h7 := hnone "ssl_enable" (by simp [updateAttributes])
    have h8 := hnone "db.0.password" (by simp [updateAttributes])
    have h9 := hnone "tags" (by simp [updateAttributes])
    have h10 := hnone "auto_renew" (by simp [updateAttributes])
    have h11 := hnone "parameters" (by simp [updateAttributes])
    have h12 := hnone "volume.0.limit_size" (by simp [updateAttributes])
    have h13 := hnone "volume.0.trigger_threshold" (by simp [updateAttributes])
    simp [resourceRdsInstanceUpdate, hc, hw, updateSteps, runSteps_cons, runSteps,
      updateWaitReturn, fromErrStep, updateRdsInstanceName, updateRdsInstanceFlavor,
      updateRdsInstanceVolumeSize, updateRdsInstanceBackpStrategy, updateRdsInstanceDBPort,
      updateRdsInstanceSecurityGroup, updateRdsInstanceSSLConfig, updateRdsRootPassword,
      updateAutoExpand, h1, h2, h3, h4, h5, h6, h7, h8, h9, h10, h11, h12, h13]

/-- Instance of C26: an update of `rds-1` in which nothing changed is the wait
followed by Read. -/
theorem update_without_changes_sample :
    resourceRdsInstanceUpdate [] { read := readEnvMySQL } priorData
      = { resourceRdsInstanceRead [] readEnvMySQL priorData with
          events := .waitState (updateStateConf priorData.timeoutDefault)
            :: (resourceRdsInstanceRead [] readEnvMySQL priorData).events } :=
  (update_requests_only_for_changes.2 [] { read := readEnvMySQL } priorData
    (by decide)).2 rfl rfl

/-! ## The values of the modify-configuration request -/

theorem mem_setDifference (ns os : List ParameterBlock) (p : ParameterBlock) :
    p ∈ setDifference ns os ↔ p ∈ ns ∧ ∀ o ∈ os, parameterKey o ≠ parameterKey p := by
  simp [setDifference, List.mem_filter]

theorem mem_mapAssign (values : List (String × String)) (key value k v : String) :
    (k, v) ∈ mapAssign values key value
      ↔ (k = key ∧ v = value) ∨ (k ≠ key ∧ (k, v) ∈ values) := by
  unfold mapAssign
  by_cases hany : values.any (fun e => e.1 == key) = true
  · simp only [hany, if_true, List.mem_map]
    constructor
    · rintro ⟨e, he, heq⟩
      by_cases hk : e.1 = key
      · simp only [hk, if_true, Prod.mk.injEq] at heq
        exact Or.inl ⟨heq.1.symm, heq.2.symm⟩
      · simp only [hk, if_false] at heq
        subst heq
        exact Or.inr ⟨hk, he⟩
    · rintro (⟨rfl, rfl⟩ | ⟨hk, hmem⟩)
      · obtain ⟨e, he, hek⟩ := List.any_eq_true.mp hany
        refine ⟨e, he, ?_⟩
        have : e.1 = k := by simpa using hek
        simp [this]
      · exact ⟨(k, v), hmem, by simp [hk]⟩
  · simp only [hany, Bool.false_eq_true, if_false, List.mem_append, List.mem_singleton,
      Prod.mk.injEq]
    constructor
    · rintro (hmem | ⟨rfl, rfl⟩)
      · refine Or.inr ⟨?_, hmem⟩
        intro hk
        apply hany
        exact List.any_eq_true.mpr ⟨(k, v), hmem, by simp [hk]⟩
      · exact Or.inl ⟨rfl, rfl⟩
    · rintro (⟨rfl, rfl⟩ | ⟨_, hmem⟩)
      · exact Or.inr ⟨rfl, rfl⟩
      · exact Or.inl hmem

/-- The map filled by the loop of `updateRdsParameters`, when blocks of one
name have one value: a pair is in it if and only if a block has it, or no block
has its name and it was in the map before. -/
theorem mem_foldl_mapAssign (change : List ParameterBlock) :
    ∀ (acc : List (String × String)) (k v : String),
      (∀ p ∈ change, ∀ q ∈ change, p.name = q.name → p.value = q.value) →
      ((k, v) ∈ change.foldl (fun values p => mapAssign values p.name p.value) acc
        ↔ (∃ p ∈ change, p.name = k ∧ p.value = v)
          ∨ ((∀ p ∈ change, p.name ≠ k) ∧ (k, v) ∈ acc)) := by
  induction change with
  | nil => intro acc k v _; simp
  | cons p rest ih =>
    intro acc k v hfun
    have hrest : ∀ a ∈ rest, ∀ b ∈ rest, a.name = b.name → a.value = b.value :=
      fun a ha b hb => hfun a (List.mem_cons_of_mem _ ha) b (List.mem_cons_of_mem _ hb)
    rw [List.foldl_cons, ih _ k v hrest, mem_mapAssign]
    constructor
    · rintro (⟨q, hq, hn, hv⟩ | ⟨hno, (⟨hk, hv⟩ | ⟨hk, hmem⟩)⟩)
      · exact Or.inl ⟨q, List.mem_cons_of_mem _ hq, hn, hv⟩
      · exact Or.inl ⟨p, List.mem_cons_self _ _, hk.symm, hv.symm⟩
      · refine Or.inr ⟨?_, hmem⟩
        intro q hq
        rcases List.mem_cons.mp hq with rfl | hq
        · exact fun h => hk h.symm
        · exact hno q hq
    · rintro (⟨q, hq, hn, hv⟩ | ⟨hno, hmem⟩)
      · rcases List.mem_cons.mp hq with rfl | hq
        · by_cases hex : ∃ r ∈ rest, r.name = k
          · obtain ⟨r, hr, hrn⟩ := hex
            refine Or.inl ⟨r, hr, hrn, ?_⟩
            rw [← hv]
            exact hfun r (List.mem_cons_of_mem _ hr) q (List.mem_cons_self _ _)
              (hrn.trans hn.symm)
          · refine Or.inr ⟨fun r hr hrn => hex ⟨r, hr, hrn⟩, Or.inl ⟨hn.symm, hv.symm⟩⟩
        · exact Or.inl ⟨q, hq, hn, hv⟩
      · refine Or.inr ⟨fun q hq => hno q (List.mem_cons_of_mem _ hq), Or.inr ⟨?_, hmem⟩⟩
        exact fun h => hno p (List.mem_cons_self _ _) h.symm

theorem mem_parameterValues (change : List ParameterBlock) (k v : String)
    (hfun : ∀ p ∈ change, ∀ q ∈ change, p.name = q.name → p.value = q.value) :
    (k, v) ∈ parameterValues change ↔ ∃ p ∈ change, p.name = k ∧ p.value = v := by
  unfold parameterValues
  rw [mem_foldl_mapAssign change [] k v hfun]
  simp

/-- C21, as stated, fails: when the new set holds two blocks of one name with
different values and the old set is empty, both pairs are in the new set and
not in the old one, yet the values map of the request, which is keyed by the
name, holds one pair only, in either order of the two blocks. -/
theorem values_map_keeps_one_pair_per_name :
    (updateRdsParameters (sameNameData "100" "200") none "rds-1").1
        = [.modifyConfiguration "rds-1" [("max_connections", "200")]]
    ∧ (updateRdsParameters (sameNameData "200" "100") none "rds-1").1
        = [.modifyConfiguration "rds-1" [("max_connections", "100")]]
    ∧ (⟨"max_connections", "100"⟩ : ParameterBlock) ∈ (sameNameData "100" "200").parameters
    ∧ (⟨"max_connections", "100"⟩ : ParameterBlock) ∉ (sameNameData "100" "200").oldParameters
    ∧ ("max_connections", "100") ∉ [("max_connections", "200")]
    ∧ (⟨"max_connections", "200"⟩ : ParameterBlock) ∈ (sameNameData "200" "100").parameters
    ∧ (⟨"max_connections", "200"⟩ : ParameterBlock) ∉ (sameNameData "200" "100").oldParameters
    ∧ ("max_connections", "200") ∉ [("max_connections", "100")] := by
  decide

/-- C21, amended: `updateRdsParameters` sends at most one request, a
modify-configuration request for the instance.  When no two blocks that are in
the new set and not in the old set have one name with different values, and no
block of the new set has the name and value concatenation of another block of
the old set, the request is sent if and only if a block is in the new set and
not in the old set, and its values map holds exactly the name and value pairs
of these blocks; otherwise nothing is sent and no error is returned. -/
theorem update_parameters_request :
    (∀ d modifyErr instanceID,
        (updateRdsParameters d modifyErr instanceID).1.length ≤ 1
        ∧ ∀ ev ∈ (updateRdsParameters d modifyErr instanceID).1,
            ∃ vals, ev = .modifyConfiguration instanceID vals)
    ∧ (∀ d modifyErr instanceID,
        (∀ p ∈ d.parameters, ∀ q ∈ d.parameters, p ∉ d.oldParameters → q ∉ d.oldParameters →
          p.name = q.name → p.value = q.value) →
        (∀ p ∈ d.parameters, ∀ o ∈ d.oldParameters,
          parameterKey o = parameterKey p → o = p) →
        ((∃ p ∈ d.parameters, p ∉ d.oldParameters) →
          ∃ vals, (updateRdsParameters d modifyErr instanceID).1
              = [.modifyConfiguration instanceID vals]
            ∧ ∀ k v, ((k, v) ∈ vals
                ↔ ∃ p ∈ d.parameters, p ∉ d.oldParameters ∧ p.name = k ∧ p.value = v))
        ∧ ((¬ ∃ p ∈ d.parameters, p ∉ d.oldParameters) →
            updateRdsParameters d modifyErr instanceID = ([], none))) := by
  refine ⟨?_, ?_⟩
  · intro d modifyErr instanceID
    unfold updateRdsParameters
    by_cases hl : (setDifference d.parameters d.oldParameters).length > 0
    · simp only [hl, if_true, List.length_singleton, le_refl, List.mem_singleton, true_and]
      exact fun ev h => ⟨_, h⟩
    · simp [hl]
  · intro d modifyErr instanceID hn hk
    have hchange : ∀ p, p ∈ setDifference d.parameters d.oldParameters
        ↔ p ∈ d.parameters ∧ p ∉ d.oldParameters := by
      intro p
      rw [mem_setDifference]
      constructor
      · rintro ⟨hp, hno⟩
        exact ⟨hp, fun hmem => hno p hmem rfl⟩
      · rintro ⟨hp, hno⟩
        refine ⟨hp, fun o ho hkey => hno ?_⟩
        rw [← hk p hp o ho hkey]
        exact ho
    have hfun : ∀ p ∈ setDifference d.parameters d.oldParameters,
        ∀ q ∈ setDifference d.parameters d.oldParameters, p.name = q.name → p.value = q.value := by
      intro p hp q hq
      exact hn p ((hchange p).mp hp).1 q ((hchange q).mp hq).1 ((hchange p).mp hp).2
        ((hchange q).mp hq).2
    refine ⟨?_, ?_⟩
    · rintro ⟨p, hp, hpo⟩
      have hl : (setDifference d.parameters d.oldParameters).length > 0 :=
        List.length_pos_of_mem ((hchange p).mpr ⟨hp, hpo⟩)
      refine ⟨parameterValues (setDifference d.parameters d.oldParameters), ?_, ?_⟩
      · simp only [updateRdsParameters, hl, if_true]
      · intro k v
        rw [mem_parameterValues _ k v hfun]
        constructor
        · rintro ⟨q, hq, h1, h2⟩
          exact ⟨q, ((hchange q).mp hq).1, ((hchange q).mp hq).2, h1, h2⟩
        · rintro ⟨q, hq, hqo, h1, h2⟩
          exact ⟨q, (hchange q).mpr ⟨hq, hqo⟩, h1, h2⟩
    · intro hno
      have hl : setDifference d.parameters d.oldParameters = [] := by
        apply List.eq_nil_iff_forall_not_mem.mpr
        intro p hp
        exact hno ⟨p, ((hchange p).mp hp).1, ((hchange p).mp hp).2⟩
      simp [updateRdsParameters, hl]

/-- Instance of C21: with the old set `div_precision_increment=12` and the new
set `connect_timeout=14` of the acceptance test, the request carries the map
with the one pair `connect_timeout: 14`. -/
theorem update_parameters_request_sample :
    updateRdsParameters paramChangeData none "rds-1"
        = ([.modifyConfiguration "rds-1" [("connect_timeout", "14")]], none)
    ∧ ∃ vals, (updateRdsParameters paramChangeData none "rds-1").1
          = [.modifyConfiguration "rds-1" vals]
        ∧ ∀ k v, ((k, v) ∈ vals
            ↔ ∃ p ∈ paramChangeData.parameters,
                p ∉ paramChangeData.oldParameters ∧ p.name = k ∧ p.value = v) :=
  ⟨by decide,
    (update_parameters_request.2 paramChangeData none "rds-1" (by decide) (by decide)).1
      ⟨⟨"connect_timeout", "14"⟩, by decide, by decide⟩⟩

/-! ## Read: the parameters written to state -/

theorem firstNamed_some (name : String) (remote : List ConfigParameter) (v : ConfigParameter)
    (h : firstNamed name remote = some v) : v ∈ remote ∧ v.Name = name := by
  induction remote with
  | nil => simp [firstNamed] at h
  | cons w rest ih =>
    unfold firstNamed at h
    by_cases hw : w.Name = name
    · simp only [hw, if_true, Option.some.injEq] at h
      subst h
      exact ⟨List.mem_cons_self _ _, hw⟩
    · simp only [hw, if_false] at h
      exact ⟨List.mem_cons_of_mem _ (ih h).1, (ih h).2⟩

theorem firstNamed_isSome (name : String) (remote : List ConfigParameter) :
    (∃ v, firstNamed name remote = some v) ↔ ∃ w ∈ remote, w.Name = name := by
  constructor
  · rintro ⟨v, hv⟩
    exact ⟨v, firstNamed_some name remote v hv⟩
  · rintro ⟨w, hw, hn⟩
    induction remote with
    | nil => simp at hw
    | cons u rest ih =>
      unfold firstNamed
      by_cases hu : u.Name = name
      · exact ⟨u, by simp [hu]⟩
      · simp only [hu, if_false]
        rcases List.mem_cons.mp hw with rfl | hw
        · exact absurd hn hu
        · exact ih hw

theorem mem_readParameters (remote : List ConfigParameter) (configured : List ParameterBlock)
    (p : ParameterBlock) :
    p ∈ (readParameters remote configured).1
      ↔ ∃ c ∈ configured, ∃ v, firstNamed c.name remote = some v
          ∧ p = { name := v.Name, value := v.Value } := by
  induction configured with
  | nil => simp [readParameters]
  | cons c rest ih =>
    unfold readParameters
    cases hf : firstNamed c.name remote with
    | none =>
      simp only [hf]
      rw [ih]
      constructor
      · rintro ⟨q, hq, h⟩
        exact ⟨q, List.mem_cons_of_mem _ hq, h⟩
      · rintro ⟨q, hq, v, hv, hp⟩
        rcases List.mem_cons.mp hq with rfl | hq
        · rw [hf] at hv
          exact absurd hv (by simp)
        · exact ⟨q, hq, v, hv, hp⟩
    | some w =>
      simp only [hf, List.mem_cons]
      rw [ih]
      constructor
      · rintro (rfl | ⟨q, hq, h⟩)
        · exact ⟨c, Or.inl rfl, w, hf, rfl⟩
        · exact ⟨q, Or.inr hq, h⟩
      · rintro ⟨q, hq, v, hv, hp⟩
        rcases hq with rfl | hq
        · rw [hf] at hv
          simp only [Option.some.injEq] at hv
          subst hv
          exact Or.inl hp
        · exact Or.inr ⟨q, hq, v, hv, hp⟩

/-- Entries of `params` with one name are one entry. -/
theorem readParameters_name_inj (remote : List ConfigParameter)
    (configured : List ParameterBlock) (p q : ParameterBlock)
    (hp : p ∈ (readParameters remote configured).1)
    (hq : q ∈ (readParameters remote configured).1) (h : p.name = q.name) : p = q := by
  obtain ⟨c1, _, v1, hv1, rfl⟩ := (mem_readParameters remote configured p).mp hp
  obtain ⟨c2, _, v2, hv2, rfl⟩ := (mem_readParameters remote configured q).mp hq
  have h1 := (firstNamed_some _ _ _ hv1).2
  have h2 := (firstNamed_some _ _ _ hv2).2
  simp only at h
  have hc : c1.name = c2.name := by rw [← h1, ← h2, h]
  rw [hc, hv2] at hv1
  simp only [Option.some.injEq] at hv1
  rw [hv1]

theorem setOfList_foldl (l : List ParameterBlock) :
    ∀ acc : List ParameterBlock,
      (∀ p, p ∈ l.foldl (fun s p =>
          if s.any (fun q => parameterKey q == parameterKey p) then s else s ++ [p]) acc →
        p ∈ acc ∨ p ∈ l)
      ∧ (∀ p ∈ acc, p ∈ l.foldl (fun s p =>
          if s.any (fun q => parameterKey q == parameterKey p) then s else s ++ [p]) acc)
      ∧ (∀ p ∈ l, ∃ q ∈ l.foldl (fun s p =>
          if s.any (fun q => parameterKey q == parameterKey p) then s else s ++ [p]) acc,
            parameterKey q = parameterKey p)
      ∧ ((acc.map parameterKey).Nodup → ((l.foldl (fun s p =>
          if s.any (fun q => parameterKey q == parameterKey p) then s else s ++ [p])
            acc).map parameterKey).Nodup) := by
  induction l with
  | nil =>
    intro acc
    exact ⟨fun p h => Or.inl h, fun p h => h, fun p h => absurd h (List.not_mem_nil _),
      fun h => h⟩
  | cons a rest ih =>
    intro acc
    rw [List.foldl_cons]
    by_cases hany : acc.any (fun q => parameterKey q == parameterKey a) = true
    · simp only [hany, if_true]
      obtain ⟨h1, h2, h3, h4⟩ := ih acc
      refine ⟨?_, h2, ?_, h4⟩
      · intro p hp
        rcases h1 p hp with h | h
        · exact Or.inl h
        · exact Or.inr (List.mem_cons_of_mem _ h)
      · intro p hp
        rcases List.mem_cons.mp hp with rfl | hp
        · obtain ⟨q, hq, hk⟩ := List.any_eq_true.mp hany
          exact ⟨q, h2 q hq, by simpa using hk⟩
        · exact h3 p hp
    · simp only [hany, Bool.false_eq_true, if_false]
      obtain ⟨h1, h2, h3, h4⟩ := ih (acc ++ [a])
      refine ⟨?_, ?_, ?_, ?_⟩
      · intro p hp
        rcases h1 p hp with h | h
        · rcases List.mem_append.mp h with h | h
          · exact Or.inl h
          · exact Or.inr (by rw [List.mem_singleton.mp h]; exact List.mem_cons_self _ _)
        · exact Or.inr (List.mem_cons_of_mem _ h)
      · intro p hp
        exact h2 p (List.mem_append_left _ hp)
      · intro p hp
        rcases List.mem_cons.mp hp with rfl | hp
        · exact ⟨p, h2 p (List.mem_append_right _ (List.mem_singleton_self _)), rfl⟩
        · exact h3 p hp
      · intro hnd
        apply h4
        rw [List.map_append, List.map_singleton]
        apply List.Nodup.append hnd (List.nodup_singleton _)
        intro k hk hk2
        rw [List.mem_singleton] at hk2
        subst hk2
        obtain ⟨q, hq, hqk⟩ := List.mem_map.mp hk
        exact hany (List.any_eq_true.mpr ⟨q, hq, by simpa using hqk⟩)

theorem setOfList_subset (l : List ParameterBlock) (p : ParameterBlock)
    (h : p ∈ setOfList l) : p ∈ l := by
  rcases (setOfList_foldl l []).1 p h with h | h
  · exact absurd h (List.not_mem_nil _)
  · exact h

theorem setOfList_key (l : List ParameterBlock) (p : ParameterBlock) (h : p ∈ l) :
    ∃ q ∈ setOfList l, parameterKey q = parameterKey p :=
  (setOfList_foldl l []).2.2.1 p h

theorem setOfList_nodup (l : List ParameterBlock) :
    ((setOfList l).map parameterKey).Nodup :=
  (setOfList_foldl l []).2.2.2 List.nodup_nil

theorem mem_setOfList (l : List ParameterBlock)
    (hkey : ∀ p ∈ l, ∀ q ∈ l, parameterKey p = parameterKey q → p = q) (p : ParameterBlock) :
    p ∈ setOfList l ↔ p ∈ l := by
  constructor
  · exact setOfList_subset l p
  · intro h
    obtain ⟨q, hq, hk⟩ := setOfList_key l p h
    rw [← hkey q (setOfList_subset l q hq) p h hk]
    exact hq

theorem setOfList_names_nodup (l : List ParameterBlock)
    (hname : ∀ p ∈ l, ∀ q ∈ l, p.name = q.name → p = q) :
    ((setOfList l).map (fun p => p.name)).Nodup := by
  have hnd : (setOfList l).Nodup := List.Nodup.of_map _ (setOfList_nodup l)
  rw [List.nodup_map_iff_inj_on hnd]
  intro x hx y hy hxy
  exact hname x (setOfList_subset l x hx) y (setOfList_subset l y hy) hxy

theorem readParameters_length_pos (remote : List ConfigParameter)
    (configured : List ParameterBlock) :
    (readParameters remote configured).1.length > 0
      ↔ ∃ c ∈ configured, ∃ w ∈ remote, w.Name = c.name := by
  constructor
  · intro h
    obtain ⟨p, hp⟩ := List.exists_mem_of_length_pos h
    obtain ⟨c, hc, v, hv, _⟩ := (mem_readParameters remote configured p).mp hp
    exact ⟨c, hc, v, firstNamed_some _ _ _ hv⟩
  · rintro ⟨c, hc, w, hw, hn⟩
    obtain ⟨v, hv⟩ := (firstNamed_isSome c.name remote).mpr ⟨w, hw, hn⟩
    exact List.length_pos_of_mem
      ((mem_readParameters remote configured _).mpr ⟨c, hc, v, hv, rfl⟩)

theorem readTail_parameters_written (ctx : Context) (env : ReadEnv)
    (inst : RdsInstanceResponse) (instanceID : String) (d : ResourceData)
    (events : List Event) (configs : List ConfigParameter)
    (hb : env.setBackupErr = none) (hn : env.setNodesErr = none)
    (hcfg : env.configurations = .ok configs) (hs : env.setParametersErr = none) :
    (readTail ctx env inst instanceID d events).d.parameters
      = if (readParameters configs d.parameters).1.length > 0 then
          setOfList (readParameters configs d.parameters).1
        else d.parameters := by
  unfold readTail
  simp only [hb, hn, hcfg, hs]
  by_cases hlen : (readParameters configs d.parameters).1.length > 0
  · simp only [hlen, if_true]
    split <;> rfl
  · simp only [hlen, if_false]

theorem readTail_parameters_or (ctx : Context) (env : ReadEnv)
    (inst : RdsInstanceResponse) (instanceID : String) (d : ResourceData)
    (events : List Event) :
    (readTail ctx env inst instanceID d events).d.parameters = d.parameters
      ∨ ∃ configs, env.configurations = .ok configs
          ∧ (readParameters configs d.parameters).1.length > 0
          ∧ (readTail ctx env inst instanceID d events).d.parameters
              = setOfList (readParameters configs d.parameters).1 := by
  cases hb : env.setBackupErr with
  | some e => left; simp [readTail, hb]
  | none =>
    cases hn : env.setNodesErr with
    | some e => left; simp [readTail, hb, hn]
    | none =>
      cases hcfg : env.configurations with
      | error e => left; simp [readTail, hb, hn, hcfg]
      | ok configs =>
        cases hs : env.setParametersErr with
        | some e =>
          left
          unfold readTail
          simp only [hb, hn, hcfg, hs]
          split
          · split <;> rfl
          · rfl
        | none =>
          rw [readTail_parameters_written ctx env inst instanceID d events configs hb hn hcfg hs]
          by_cases hlen : (readParameters configs d.parameters).1.length > 0
          · right
            exact ⟨configs, rfl, hlen, by simp only [hlen, if_true]⟩
          · left
            simp only [hlen, if_false]

theorem read_parameters_written (ctx : Context) (env : ReadEnv) (d : ResourceData)
    (inst : RdsInstanceResponse) (configs : List ConfigParameter)
    (hc : env.clientErr = none)
    (hl : GetRdsInstanceByID env.listing d.id = .ok inst) (hid : inst.Id ≠ "")
    (hv : env.setVolumeErr = none) (hdb : env.setDbErr = none)
    (hb : env.setBackupErr = none) (hn : env.setNodesErr = none)
    (hcfg : env.configurations = .ok configs) (hs : env.setParametersErr = none) :
    (resourceRdsInstanceRead ctx env d).d.parameters
      = if (readParameters configs d.parameters).1.length > 0 then
          setOfList (readParameters configs d.parameters).1
        else d.parameters := by
  have hp : ∀ (x : ResourceData) (ev : List Event), x.parameters = d.parameters →
      (readTail ctx env inst d.id x ev).d.parameters
        = if (readParameters configs d.parameters).1.length > 0 then
            setOfList (readParameters configs d.parameters).1
          else d.parameters := by
    intro x ev hx
    rw [readTail_parameters_written ctx env inst d.id x ev configs hb hn hcfg hs, hx]
  unfold resourceRdsInstanceRead
  simp only [hc, hl, hid, if_false, hv, hdb]
  exact hp _ _ (readPlain_frame inst d).2.2.2.2.2

theorem read_parameters_or (ctx : Context) (env : ReadEnv) (d : ResourceData) :
    (resourceRdsInstanceRead ctx env d).d.parameters = d.parameters
      ∨ ∃ configs, env.configurations = .ok configs
          ∧ (readParameters configs d.parameters).1.length > 0
          ∧ (resourceRdsInstanceRead ctx env d).d.parameters
              = setOfList (readParameters configs d.parameters).1 := by
  have hp : ∀ (inst : RdsInstanceResponse) (x : ResourceData) (ev : List Event),
      x.parameters = d.parameters →
      ((readTail ctx env inst d.id x ev).d.parameters = d.parameters
        ∨ ∃ configs, env.configurations = .ok configs
            ∧ (readParameters configs d.parameters).1.length > 0
            ∧ (readTail ctx env inst d.id x ev).d.parameters
                = setOfList (readParameters configs d.parameters).1) := by
    intro inst x ev hx
    have h := readTail_parameters_or ctx env inst d.id x ev
    rw [hx] at h
    exact h
  unfold resourceRdsInstanceRead
  cases hc : env.clientErr with
  | some e => exact Or.inl rfl
  | none =>
    simp only
    cases hl : GetRdsInstanceByID env.listing d.id with
    | error e => exact Or.inl rfl
    | ok inst =>
      simp only
      by_cases hid : inst.Id = ""
      · rw [if_pos hid]
        exact Or.inl rfl
      · rw [if_neg hid]
        cases hv : env.setVolumeErr with
        | some e => exact Or.inl (readPlain_frame inst d).2.2.2.2.2
        | none =>
          cases hdb : env.setDbErr with
          | some e => exact Or.inl (readPlain_frame inst d).2.2.2.2.2
          | none => exact hp inst _ _ (readPlain_frame inst d).2.2.2.2.2

/-- C22, evaluated on the source.  Once Read has found the instance, its writes
report no error and the remote configuration is fetched with a configured name
in it: every parameter written to state is a configured name that occurs
remotely with the value of the first remote entry of that name, and no name is
written twice; and every configured name that occurs remotely is written,
provided that no two such entries of different names have the same
concatenation of name and value.  When no configured name occurs remotely, or
the fetch fails, the parameters are left unchanged.  Without the proviso the
claim fails: for the configured names `max_connections` and `max_connections1`
with the remote values `1000` and `000`, both names occur remotely and the
state ends with the one parameter `max_connections`, because the set
identifies an element by `parameterToHash`, the hash of name and value put
together. -/
theorem read_parameters_of_configuration :
    (∀ ctx env d inst configs, env.clientErr = none →
        GetRdsInstanceByID env.listing d.id = .ok inst → inst.Id ≠ "" →
        env.setVolumeErr = none → env.setDbErr = none → env.setBackupErr = none →
        env.setNodesErr = none → env.configurations = .ok configs →
        env.setParametersErr = none →
        (∃ c ∈ d.parameters, ∃ w ∈ configs, w.Name = c.name) →
        (∀ p ∈ (resourceRdsInstanceRead ctx env d).d.parameters,
            ∃ c ∈ d.parameters, ∃ v, firstNamed c.name configs = some v
              ∧ p = { name := c.name, value := v.Value })
        ∧ ((resourceRdsInstanceRead ctx env d).d.parameters.map (fun p => p.name)).Nodup
        ∧ ((∀ c1 ∈ d.parameters, ∀ c2 ∈ d.parameters, ∀ v1 v2,
              firstNamed c1.name configs = some v1 → firstNamed c2.name configs = some v2 →
              c1.name ++ v1.Value = c2.name ++ v2.Value → c1.name = c2.name) →
            ∀ c ∈ d.parameters, ∀ v, firstNamed c.name configs = some v →
              ({ name := c.name, value := v.Value } : ParameterBlock)
                ∈ (resourceRdsInstanceRead ctx env d).d.parameters))
    ∧ (∀ ctx env d configs, env.configurations = .ok configs →
        (¬ ∃ c ∈ d.parameters, ∃ w ∈ configs, w.Name = c.name) →
        (resourceRdsInstanceRead ctx env d).d.parameters = d.parameters)
    ∧ (∀ ctx env d err, env.configurations = .error err →
        (resourceRdsInstanceRead ctx env d).d.parameters = d.parameters)
    ∧ ((resourceRdsInstanceRead [] collidingReadEnv collidingData).d.parameters
          = [{ name := "max_connections", value := "1000" }]
        ∧ firstNamed "max_connections1" [{ Name := "max_connections", Value := "1000" },
              { Name := "max_connections1", Value := "000" }]
            = some { Name := "max_connections1", Value := "000" }) := by
  refine ⟨?_, ?_, ?_, by decide⟩
  · intro ctx env d inst configs hc hl hid hv hdb hb hn hcfg hs hex
    have hlen := (readParameters_length_pos configs d.parameters).mpr hex
    have hw := read_parameters_written ctx env d inst configs hc hl hid hv hdb hb hn hcfg hs
    simp only [hlen, if_true] at hw
    rw [hw]
    have hmem : ∀ p, p ∈ (readParameters configs d.parameters).1
        ↔ ∃ c ∈ d.parameters, ∃ v, firstNamed c.name configs = some v
            ∧ p = { name := c.name, value := v.Value } := by
      intro p
      rw [mem_readParameters]
      constructor
      · rintro ⟨c, hcm, v, hf, hp⟩
        refine ⟨c, hcm, v, hf, ?_⟩
        rw [hp, (firstNamed_some _ _ _ hf).2]
      · rintro ⟨c, hcm, v, hf, hp⟩
        refine ⟨c, hcm, v, hf, ?_⟩
        rw [hp, (firstNamed_some _ _ _ hf).2]
    refine ⟨?_, ?_, ?_⟩
    · intro p hp
      exact (hmem p).mp (setOfList_subset _ p hp)
    · exact setOfList_names_nodup _
        (fun p hp q hq h => readParameters_name_inj configs d.parameters p q hp hq h)
    · intro hcol c hcm v hf
      have hkey : ∀ p ∈ (readParameters configs d.parameters).1,
          ∀ q ∈ (readParameters configs d.parameters).1,
          parameterKey p = parameterKey q → p = q := by
        intro p hp q hq hk
        obtain ⟨c1, hc1, v1, hf1, rfl⟩ := (hmem p).mp hp
        obtain ⟨c2, hc2, v2, hf2, rfl⟩ := (hmem q).mp hq
        have hname := hcol c1 hc1 c2 hc2 v1 v2 hf1 hf2 hk
        rw [hname, hf2] at hf1
        simp only [Option.some.injEq] at hf1
        rw [hname, hf1]
      rw [mem_setOfList _ hkey]
      exact (hmem _).mpr ⟨c, hcm, v, hf, rfl⟩
  · intro ctx env d configs hcfg hno
    rcases read_parameters_or ctx env d with h | ⟨configs2, hcfg2, hlen, _⟩
    · exact h
    · rw [hcfg] at hcfg2
      simp only [Except.ok.injEq] at hcfg2
      subst hcfg2
      exact absurd ((readParameters_length_pos configs d.parameters).mp hlen) hno
  · intro ctx env d err hcfg
    rcases read_parameters_or ctx env d with h | ⟨configs2, hcfg2, _, _⟩
    · exact h
    · rw [hcfg] at hcfg2
      exact absurd hcfg2 (by simp)

/-- Instance of C22: Read of the state with the parameter `connect_timeout`
against a remote configuration that holds it writes that one parameter. -/
theorem read_parameters_sample :
    ∀ p ∈ (resourceRdsInstanceRead [] paramChangeEnv.read paramChangeData).d.parameters,
      ∃ c ∈ paramChangeData.parameters, ∃ v,
        firstNamed c.name [{ Name := "connect_timeout", Value := "14", Restart := true }] = some v
          ∧ p = { name := c.name, value := v.Value } :=
  (read_parameters_of_configuration.1 [] paramChangeEnv.read paramChangeData remoteMySQL
    [{ Name := "connect_timeout", Value := "14", Restart := true }] rfl (by rfl) (by decide)
    rfl rfl rfl rfl rfl rfl
    ⟨⟨"connect_timeout", "14"⟩, by decide, ⟨"connect_timeout", "14", true⟩, by decide, rfl⟩).1

/-! ## Create: the restart check -/

theorem restartInner_false (name : String) (configs : List ConfigParameter) :
    restartInner name configs false = true
      ↔ ∃ v, firstNamed name configs = some v ∧ v.Restart = true := by
  induction configs with
  | nil => simp [restartInner, firstNamed]
  | cons w rest ih =>
    unfold restartInner firstNamed
    by_cases hw : w.Name = name
    · simp only [hw, if_true, Option.some.injEq, exists_eq_left']
      cases w.Restart <;> simp
    · simp only [hw, if_false]
      exact ih

theorem firstNamed_index (name : String) (configs : List ConfigParameter)
    (v : ConfigParameter) :
    firstNamed name configs = some v
      ↔ ∃ i : Nat, configs[i]? = some v ∧ v.Name = name
          ∧ ∀ (j : Nat) (w : ConfigParameter), j < i → configs[j]? = some w → w.Name ≠ name := by
  induction configs with
  | nil => simp [firstNamed]
  | cons u rest ih =>
    unfold firstNamed
    by_cases hu : u.Name = name
    · simp only [hu, if_true, Option.some.injEq]
      constructor
      · rintro rfl
        exact ⟨0, List.getElem?_cons_zero, hu, fun j w hj => absurd hj (Nat.not_lt_zero j)⟩
      · rintro ⟨i, hi, _, hfirst⟩
        cases i with
        | zero => simpa using hi
        | succ i => exact absurd hu (hfirst 0 u (Nat.succ_pos i) List.getElem?_cons_zero)
    · simp only [hu, if_false]
      rw [ih]
      constructor
      · rintro ⟨i, hi, hn, hfirst⟩
        refine ⟨i + 1, by simpa using hi, hn, ?_⟩
        intro j w hj hw
        cases j with
        | zero =>
          simp only [List.getElem?_cons_zero, Option.some.injEq] at hw
          rw [← hw]
          exact hu
        | succ j =>
          simp only [List.getElem?_cons_succ] at hw
          exact hfirst j w (Nat.lt_of_succ_lt_succ hj) hw
      · rintro ⟨i, hi, hn, hfirst⟩
        cases i with
        | zero =>
          simp only [List.getElem?_cons_zero, Option.some.injEq] at hi
          rw [← hi] at hn
          exact absurd hn hu
        | succ i =>
          simp only [List.getElem?_cons_succ] at hi
          refine ⟨i, hi, hn, ?_⟩
          intro j w hj hw
          exact hfirst (j + 1) w (Nat.succ_lt_succ hj) (by simpa using hw)

theorem restartOuter_false (configs : List ConfigParameter) (params : List ParameterBlock) :
    restartOuter configs params false = true
      ↔ ∃ p ∈ params, restartInner p.name configs false = true := by
  induction params with
  | nil => simp [restartOuter]
  | cons p rest ih =>
    unfold restartOuter
    cases hp : restartInner p.name configs false with
    | true => simp [hp]
    | false =>
      simp only [Bool.false_eq_true, if_false, List.mem_cons, exists_eq_or_imp, hp, false_or]
      exact ih

theorem needsRestart_iff (configs : List ConfigParameter) (params : List ParameterBlock) :
    needsRestart configs params = true ↔ RebootCondition configs params := by
  unfold needsRestart RebootCondition
  rw [restartOuter_false]
  constructor
  · rintro ⟨p, hp, h⟩
    obtain ⟨v, hv, hr⟩ := (restartInner_false _ _).mp h
    obtain ⟨i, hi, hn, hfirst⟩ := (firstNamed_index _ _ _).mp hv
    exact ⟨p, hp, i, v, hi, hn, hr, hfirst⟩
  · rintro ⟨p, hp, i, v, hi, hn, hr, hfirst⟩
    exact ⟨p, hp, (restartInner_false _ _).mpr
      ⟨v, (firstNamed_index _ _ _).mpr ⟨i, hi, hn, hfirst⟩, hr⟩⟩

/-! ## Create: texts of the diagnostics -/

theorem head_append (a b : String) (c : Char) (h : a.data.head? = some c) :
    (a ++ b).data.head? = some c := by
  rw [String.data_append]
  cases ha : a.data with
  | nil => rw [ha] at h; simp at h
  | cons x l => rw [ha] at h; simpa using h

theorem diagErrorf_ne_ssl (s : String) (h : s.data.head? = some 'e') :
    diagErrorf s ≠ diagErrorf "only MySQL database support SSL enable and disable" := by
  intro heq
  simp only [diagErrorf, List.cons.injEq, Diagnostic.mk.injEq, and_true, true_and] at heq
  rw [heq] at h
  exact absurd h (by decide)

theorem map_diagErrorf_ne_ssl {α : Type} (x : Option α) (f : α → String) (dg : Diagnostics)
    (h : x.map (fun a => diagErrorf (f a)) = some dg)
    (hf : ∀ a, (f a).data.head? = some 'e') :
    dg ≠ diagErrorf "only MySQL database support SSL enable and disable" := by
  cases x with
  | none => simp at h
  | some a =>
    simp only [Option.map_some', Option.some.injEq] at h
    rw [← h]
    exact diagErrorf_ne_ssl _ (hf a)

/-! ## Create: the steps after the create request -/

theorem createWaitSteps_diags (d : ResourceData) (env : CreateEnv) (res : CreateResponse)
    (instanceID : String) (dg : Diagnostics)
    (h : (runSteps (createWaitSteps d env res instanceID)).2 = some dg) :
    dg ≠ diagErrorf "only MySQL database support SSL enable and disable" := by
  obtain ⟨step, hs, hdg⟩ := runSteps_diags_mem _ dg h
  simp only [createWaitSteps, List.mem_cons, List.not_mem_nil, or_false] at hs
  rcases hs with rfl | rfl | rfl
  · split at hdg
    · split at hdg
      · simp only [Option.some.injEq] at hdg
        rw [← hdg]
        exact diagErrorf_ne_ssl _ (head_append _ _ _ rfl)
      · exact map_diagErrorf_ne_ssl _ _ dg hdg
          (fun a => head_append _ _ _ (head_append _ _ _ (head_append _ _ _ rfl)))
    · simp at hdg
  · split at hdg
    · exact map_diagErrorf_ne_ssl _ _ dg hdg
        (fun a => head_append _ _ _ (head_append _ _ _ (head_append _ _ _ rfl)))
    · simp at hdg
  · simp only [createWaitReturn] at hdg
    split at hdg
    · simp only [Option.some.injEq] at hdg
      rw [← hdg]
      exact diagErrorf_ne_ssl _ (head_append _ _ _ (head_append _ _ _ (head_append _ _ _ rfl)))
    · simp at hdg

theorem createWaitSteps_events (d : ResourceData) (env : CreateEnv) (res : CreateResponse)
    (instanceID : String) :
    ∀ ev ∈ (runSteps (createWaitSteps d env res instanceID)).1,
      ev = .waitOrder res.OrderId ∨ ev = .waitJob res.JobId (jobStateConf d.timeoutCreate)
        ∨ ev = .waitState (createStateConf d.timeoutCreate) := by
  intro ev hev
  obtain ⟨step, hs, hmem⟩ := runSteps_events_mem _ ev hev
  simp only [createWaitSteps, List.mem_cons, List.not_mem_nil, or_false] at hs
  rcases hs with rfl | rfl | rfl
  · split at hmem
    · split at hmem
      · simp at hmem
      · simp only [List.mem_singleton] at hmem
        exact Or.inl hmem
    · simp at hmem
  · split at hmem
    · simp only [List.mem_singleton] at hmem
      exact Or.inr (Or.inl hmem)
    · simp at hmem
  · simp only [List.mem_singleton] at hmem
    exact Or.inr (Or.inr hmem)

theorem createWaitSteps_none (d : ResourceData) (env : CreateEnv) (res : CreateResponse)
    (instanceID : String)
    (h : (runSteps (createWaitSteps d env res instanceID)).2 = none) :
    env.createWait = none
      ∧ (runSteps (createWaitSteps d env res instanceID)).1.getLast?
          = some (.waitState (createStateConf d.timeoutCreate)) := by
  have h3 : ∀ front : List Event × Option Diagnostics,
      ∀ mid : List Event × Option Diagnostics,
      (runSteps [front, mid, ([.waitState (createStateConf d.timeoutCreate)],
          createWaitReturn env.sdkText instanceID env.createWait)]).2 = none →
      env.createWait = none
        ∧ (runSteps [front, mid, ([.waitState (createStateConf d.timeoutCreate)],
            createWaitReturn env.sdkText instanceID env.createWait)]).1.getLast?
            = some (.waitState (createStateConf d.timeoutCreate)) := by
    intro front mid hrun
    rw [runSteps_cons, runSteps_cons, (runSteps_singleton _).1, (runSteps_singleton _).2]
      at hrun ⊢
    cases hf : front.2 with
    | some dg => simp [hf] at hrun
    | none =>
      simp only [hf] at hrun ⊢
      cases hm : mid.2 with
      | some dg => simp [hm] at hrun
      | none =>
        simp only [hm] at hrun ⊢
        cases hw : env.createWait with
        | some e => simp [hw, createWaitReturn] at hrun
        | none =>
          refine ⟨rfl, ?_⟩
          rw [← List.append_assoc, List.getLast?_append]
          simp
  exact h3 _ _ h

theorem createWaitSteps_reached (d : ResourceData) (env : CreateEnv) (res : CreateResponse)
    (instanceID : String)
    (ho : res.OrderId = "" ∨ (env.bssClientErr = none ∧ env.orderWaitErr = none))
    (hj : res.JobId = "" ∨ env.jobWait = none) (hw : env.createWait = none) :
    (runSteps (createWaitSteps d env res instanceID)).2 = none := by
  have h1 : (if res.OrderId ≠ "" then
      match env.bssClientErr with
      | some err => (([] : List Event), some (diagErrorf ("error creating BSS V2 client: " ++ err)))
      | none =>
        ([Event.waitOrder res.OrderId],
          env.orderWaitErr.map fun err =>
            diagErrorf ("error waiting for RDS order " ++ res.OrderId ++ " succuss: " ++ err))
    else ([], none)).2 = none := by
    rcases ho with ho | ⟨hb, hoe⟩
    · simp [ho]
    · by_cases hid : res.OrderId = ""
      · simp [hid]
      · simp [hid, hb, hoe]
  have h2 : (if res.JobId ≠ "" then
      ([Event.waitJob res.JobId (jobStateConf d.timeoutCreate)],
        (checkRDSInstanceJobFinishReturn env.sdkText res.JobId env.jobWait).map fun err =>
          diagErrorf ("error creating instance (" ++ instanceID ++ "): " ++ err))
    else ([], none)).2 = none := by
    rcases hj with hj | hj
    · simp [hj]
    · by_cases hid : res.JobId = ""
      · simp [hid]
      · simp [hid, hj, checkRDSInstanceJobFinishReturn]
  unfold createWaitSteps
  rw [runSteps_cons, h1]
  simp only
  rw [runSteps_cons, h2]
  simp only
  rw [(runSteps_singleton _).2]
  simp [hw, createWaitReturn]

theorem createSSLStep_ssl (d : ResourceData) (env : CreateEnv)
    (h : (createSSLStep d env).2
      = some (diagErrorf "only MySQL database support SSL enable and disable")) :
    d.ssl_enable = true ∧ isMySQLDatabase d = false ∧ (createSSLStep d env).1 = [] := by
  unfold createSSLStep at h ⊢
  by_cases hs : d.ssl_enable = true
  · by_cases hm : isMySQLDatabase d = true
    · simp only [hs, hm, if_true, fromErrStep, configRdsInstanceSSL] at h
      cases he : env.sslErr with
      | none => simp [he] at h
      | some e =>
        simp only [he, Option.map_some', Option.some.injEq] at h
        exact absurd h (diagErrorf_ne_ssl _ (head_append _ _ _ (head_append _ _ _ rfl)))
    · have hm2 : isMySQLDatabase d = false := by simpa using hm
      refine ⟨hs, hm2, ?_⟩
      simp [hs, hm2]
  · simp [hs] at h

theorem createSSLStep_events (d : ResourceData) (env : CreateEnv) :
    ∀ ev ∈ (createSSLStep d env).1, ev = .updateSSL d.id d.ssl_enable := by
  intro ev hev
  unfold createSSLStep at hev
  split at hev
  · split at hev
    · simpa [fromErrStep, configRdsInstanceSSL] using hev
    · simp at hev
  · simp at hev

theorem createParameters_diags (d : ResourceData) (env : CreateEnv) (instanceID : String)
    (dg : Diagnostics) (h : (createParameters d env instanceID).2 = some dg) :
    dg ≠ diagErrorf "only MySQL database support SSL enable and disable" := by
  unfold createParameters at h
  split at h
  · obtain ⟨step, hs, hdg⟩ := runSteps_diags_mem _ dg h
    simp only [List.mem_cons, List.not_mem_nil, or_false] at hs
    rcases hs with rfl | rfl | rfl
    · exact map_diagErrorf_ne_ssl _ _ dg hdg
        (fun a => head_append _ _ _ (head_append _ _ _ (head_append _ _ _ rfl)))
    · simp only at hdg
      split at hdg
      · simp only [Option.some.injEq] at hdg
        rw [← hdg]
        exact diagErrorf_ne_ssl _ (head_append _ _ _ (head_append _ _ _ (head_append _ _ _ rfl)))
      · simp at hdg
    · split at hdg
      · simp at hdg
      · split at hdg
        · obtain ⟨step, hs, hdg2⟩ := runSteps_diags_mem _ dg hdg
          simp only [List.mem_cons, List.not_mem_nil, or_false] at hs
          rcases hs with rfl | rfl
          · exact map_diagErrorf_ne_ssl _ _ dg hdg2
              (fun a => head_append _ _ _ (head_append _ _ _ (head_append _ _ _ rfl)))
          · simp only [createRebootWaitReturn] at hdg2
            split at hdg2
            · simp only [Option.some.injEq] at hdg2
              rw [← hdg2]
              exact diagErrorf_ne_ssl _
                (head_append _ _ _ (head_append _ _ _ (head_append _ _ _ rfl)))
            · simp at hdg2
        · simp at hdg
  · simp at h

theorem createConfigSteps_diags (d : ResourceData) (env : CreateEnv) (instanceID : String)
    (dg : Diagnostics) (h : (runSteps (createConfigSteps d env instanceID)).2 = some dg) :
    dg ≠ diagErrorf "only MySQL database support SSL enable and disable" := by
  obtain ⟨step, hs, hdg⟩ := runSteps_diags_mem _ dg h
  simp only [createConfigSteps, List.mem_cons, List.not_mem_nil, or_false] at hs
  rcases hs with rfl | rfl | rfl
  · split at hdg
    · exact map_diagErrorf_ne_ssl _ _ dg hdg
        (fun a => head_append _ _ _ (head_append _ _ _ (head_append _ _ _ rfl)))
    · simp at hdg
  · exact createParameters_diags d env instanceID dg hdg
  · split at hdg
    · exact map_diagErrorf_ne_ssl _ _ dg hdg (fun a => head_append _ _ _ rfl)
    · simp at hdg

theorem readTail_diags_ne_ssl (ctx : Context) (env : ReadEnv) (inst : RdsInstanceResponse)
    (instanceID : String) (d : ResourceData) (events : List Event) :
    (readTail ctx env inst instanceID d events).diags
      ≠ diagErrorf "only MySQL database support SSL enable and disable" := by
  unfold readTail
  cases env.setBackupErr with
  | some e => exact diagErrorf_ne_ssl _ (head_append _ _ _ (head_append _ _ _ (head_append _ _ _ rfl)))
  | none =>
    cases env.setNodesErr with
    | some e =>
      exact diagErrorf_ne_ssl _ (head_append _ _ _ (head_append _ _ _ (head_append _ _ _ rfl)))
    | none =>
      cases env.configurations with
      | error e => simp [diagErrorf]
      | ok configs =>
        simp only
        split
        · split <;> simp [diagErrorf]
        · simp [diagErrorf]

theorem read_diags_ne_ssl (ctx : Context) (env : ReadEnv) (d : ResourceData) :
    (resourceRdsInstanceRead ctx env d).diags
      ≠ diagErrorf "only MySQL database support SSL enable and disable" := by
  unfold resourceRdsInstanceRead
  cases env.clientErr with
  | some e => exact diagErrorf_ne_ssl _ (head_append _ _ _ rfl)
  | none =>
    simp only
    cases GetRdsInstanceByID env.listing d.id with
    | error e => exact diagErrorf_ne_ssl _ (head_append _ _ _ rfl)
    | ok inst =>
      simp only
      by_cases hid : inst.Id = ""
      · rw [if_pos hid]
        simp [diagErrorf]
      · rw [if_neg hid]
        cases env.setVolumeErr with
        | some e =>
          exact diagErrorf_ne_ssl _
            (head_append _ _ _ (head_append _ _ _ (head_append _ _ _ rfl)))
        | none =>
          cases env.setDbErr with
          | some e =>
            exact diagErrorf_ne_ssl _
              (head_append _ _ _ (head_append _ _ _ (head_append _ _ _ rfl)))
          | none => exact readTail_diags_ne_ssl _ _ _ _ _ _

theorem createOpts_error_ne_ssl (d : ResourceData) (env : CreateEnv) (dg : Diagnostics)
    (h : resourceRdsInstanceCreateOpts d env = .error dg)
    (hv : env.validatePrePaidErr ≠ some "only MySQL database support SSL enable and disable") :
    dg ≠ diagErrorf "only MySQL database support SSL enable and disable" := by
  unfold resourceRdsInstanceCreateOpts at h
  cases hc : env.clientErr with
  | some e =>
    simp only [hc, Except.error.injEq] at h
    rw [← h]
    exact diagErrorf_ne_ssl _ (head_append _ _ _ rfl)
  | none =>
    simp only [hc] at h
    by_cases hp : d.charging_mode = "prePaid"
    · cases hvp : env.validatePrePaidErr with
      | some e =>
        simp only [hp, hvp, if_true, Except.error.injEq] at h
        rw [← h]
        intro heq
        simp only [diagFromErr, diagErrorf, List.cons.injEq, Diagnostic.mk.injEq, and_true,
          true_and] at heq
        rw [hvp, heq] at hv
        exact hv rfl
      | none => simp [hp, hvp] at h
    · simp [hp] at h

theorem create_unfold (ctx : Context) (env : CreateEnv) (d : ResourceData)
    (req : CreateRequest) (res : CreateResponse)
    (hreq : resourceRdsInstanceCreateOpts d env = .ok req) (hres : env.create = .ok res) :
    resourceRdsInstanceCreate ctx env d
      = (match (runSteps (createSteps { d with id := res.InstanceId } env res
            res.InstanceId)).2 with
         | some diags =>
           { d := { d with id := res.InstanceId }, diags := diags
             events := [Event.createInstance req.sent.Name]
               ++ (runSteps (createSteps { d with id := res.InstanceId } env res
                    res.InstanceId)).1 }
         | none =>
           { resourceRdsInstanceRead ctx env.read { d with id := res.InstanceId } with
             events := [Event.createInstance req.sent.Name]
               ++ (runSteps (createSteps { d with id := res.InstanceId } env res
                    res.InstanceId)).1
               ++ (resourceRdsInstanceRead ctx env.read { d with id := res.InstanceId }).events }) := by
  unfold resourceRdsInstanceCreate
  simp only [hreq, hres]

theorem create_ssl_error_cases (ctx : Context) (env : CreateEnv) (d : ResourceData)
    (h : (resourceRdsInstanceCreate ctx env d).diags
      = diagErrorf "only MySQL database support SSL enable and disable")
    (hv : env.validatePrePaidErr ≠ some "only MySQL database support SSL enable and disable") :
    ∃ req res, resourceRdsInstanceCreateOpts d env = .ok req ∧ env.create = .ok res
      ∧ (runSteps (createWaitSteps { d with id := res.InstanceId } env res res.InstanceId)).2
          = none
      ∧ d.ssl_enable = true ∧ isMySQLDatabase d = false
      ∧ resourceRdsInstanceCreate ctx env d
          = { d := { d with id := res.InstanceId }
              diags := diagErrorf "only MySQL database support SSL enable and disable"
              events := Event.createInstance req.sent.Name
                :: (runSteps (createWaitSteps { d with id := res.InstanceId } env res
                      res.InstanceId)).1 } := by
  cases hreq : resourceRdsInstanceCreateOpts d env with
  | error dg =>
    have : (resourceRdsInstanceCreate ctx env d).diags = dg := by
      simp [resourceRdsInstanceCreate, hreq]
    rw [this] at h
    exact absurd h (createOpts_error_ne_ssl d env dg hreq hv)
  | ok req =>
    cases hres : env.create with
    | error e =>
      have : (resourceRdsInstanceCreate ctx env d).diags
          = diagErrorf ("error creating RDS instance: " ++ e) := by
        simp [resourceRdsInstanceCreate, hreq, hres]
      rw [this] at h
      exact absurd h (diagErrorf_ne_ssl _ (head_append _ _ _ rfl))
    | ok res =>
      refine ⟨req, res, rfl, rfl, ?_⟩
      rw [create_unfold ctx env d req res hreq hres] at h ⊢
      unfold createSteps at h ⊢
      rw [runSteps_append] at h ⊢
      cases hw : (runSteps (createWaitSteps { d with id := res.InstanceId } env res
          res.InstanceId)).2 with
      | some dg =>
        simp only [hw] at h
        exact absurd h (createWaitSteps_diags _ env res _ dg hw)
      | none =>
        simp only [hw] at h ⊢
        rw [runSteps_cons] at h ⊢
        cases hs : (createSSLStep { d with id := res.InstanceId } env).2 with
        | some dg =>
          simp only [hs] at h ⊢
          subst h
          obtain ⟨h1, h2, h3⟩ := createSSLStep_ssl _ env hs
          refine ⟨trivial, h1, h2, ?_⟩
          simp [h3]
        | none =>
          simp only [hs] at h
          cases hc : (runSteps (createConfigSteps { d with id := res.InstanceId } env
              res.InstanceId)).2 with
          | some dg =>
            simp only [hc] at h
            exact absurd h (createConfigSteps_diags _ env _ dg hc)
          | none =>
            simp only [hc] at h
            exact absurd h (read_diags_ne_ssl _ _ _)

theorem runSteps_cons_mem (step : List Event × Option Diagnostics)
    (rest : List (List Event × Option Diagnostics)) (ev : Event)
    (h : ev ∈ (runSteps (step :: rest)).1) :
    ev ∈ step.1 ∨ (step.2 = none ∧ ev ∈ (runSteps rest).1) := by
  rw [runSteps_cons] at h
  cases hs : step.2 with
  | some dg =>
    simp only [hs] at h
    exact Or.inl h
  | none =>
    simp only [hs, List.mem_append] at h
    rcases h with h | h
    · exact Or.inl h
    · exact Or.inr ⟨rfl, h⟩

theorem runSteps_append_mem (xs ys : List (List Event × Option Diagnostics)) (ev : Event)
    (h : ev ∈ (runSteps (xs ++ ys)).1) :
    ev ∈ (runSteps xs).1 ∨ ((runSteps xs).2 = none ∧ ev ∈ (runSteps ys).1) := by
  rw [runSteps_append] at h
  cases hs : (runSteps xs).2 with
  | some dg =>
    simp only [hs] at h
    exact Or.inl h
  | none =>
    simp only [hs, List.mem_append] at h
    rcases h with h | h
    · exact Or.inl h
    · exact Or.inr ⟨rfl, h⟩

theorem runSteps_cons_of_none (step : List Event × Option Diagnostics)
    (rest : List (List Event × Option Diagnostics)) (ev : Event)
    (hs : step.2 = none) (h : ev ∈ (runSteps rest).1) : ev ∈ (runSteps (step :: rest)).1 := by
  rw [runSteps_cons]
  simp only [hs, List.mem_append]
  exact Or.inr h

theorem runSteps_cons_of_mem (step : List Event × Option Diagnostics)
    (rest : List (List Event × Option Diagnostics)) (ev : Event)
    (h : ev ∈ step.1) : ev ∈ (runSteps (step :: rest)).1 := by
  rw [runSteps_cons]
  cases hs : step.2 with
  | some dg => exact h
  | none => exact List.mem_append_left _ h

theorem runSteps_append_of_none (xs ys : List (List Event × Option Diagnostics)) (ev : Event)
    (hs : (runSteps xs).2 = none) (h : ev ∈ (runSteps ys).1) :
    ev ∈ (runSteps (xs ++ ys)).1 := by
  rw [runSteps_append]
  simp only [hs, List.mem_append]
  exact Or.inr h

theorem mem_flatten_replicate (n : Nat) (l : List Event) (ev : Event) :
    ev ∈ (List.replicate n l).flatten ↔ 0 < n ∧ ev ∈ l := by
  induction n with
  | zero => simp
  | succ n ih =>
    rw [List.replicate_succ, List.flatten_cons, List.mem_append, ih]
    constructor
    · rintro (h | ⟨_, h⟩)
      · exact ⟨Nat.succ_pos n, h⟩
      · exact ⟨Nat.succ_pos n, h⟩
    · rintro ⟨_, h⟩
      exact Or.inl h

/-- The parameter section of Create sends a reboot request only after the
modification succeeded and the configuration was fetched, when the nested
loops have set `restart`. -/
theorem createParameters_reboot (d : ResourceData) (env : CreateEnv) (instanceID x : String)
    (h : Event.rebootInstance x ∈ (createParameters d env instanceID).1) :
    x = instanceID ∧ d.parameters ≠ [] ∧ env.modifyErr = none ∧ 0 < env.rebootRuns
      ∧ ∃ configs, env.configurations = .ok configs
          ∧ needsRestart configs d.parameters = true := by
  unfold createParameters at h
  by_cases hlen : d.parameters.length > 0
  · simp only [hlen, if_true] at h
    have hne : d.parameters ≠ [] := List.length_pos.mp hlen
    rcases runSteps_cons_mem _ _ _ h with h1 | ⟨hmod, h⟩
    · simp [mem_flatten_replicate] at h1
    · have hmod2 : env.modifyErr = none := by
        cases hm : env.modifyErr with
        | none => rfl
        | some e => simp [hm] at hmod
      rcases runSteps_cons_mem _ _ _ h with h2 | ⟨_, h⟩
      · simp at h2
      · rw [(runSteps_singleton _).1] at h
        cases hcfg : env.configurations with
        | error e => simp [hcfg] at h
        | ok configs =>
          simp only [hcfg] at h
          by_cases hr : needsRestart configs d.parameters = true
          · simp only [hr, if_true] at h
            rcases runSteps_cons_mem _ _ _ h with h3 | ⟨_, h⟩
            · simp only [mem_flatten_replicate, List.mem_singleton, Event.rebootInstance.injEq]
                at h3
              exact ⟨h3.2, hne, hmod2, h3.1, configs, rfl, hr⟩
            · rw [(runSteps_singleton _).1] at h
              simp at h
          · simp [hr] at h
  · simp [hlen] at h

theorem createParameters_reboot_of (d : ResourceData) (env : CreateEnv) (instanceID : String)
    (configs : List ConfigParameter) (hne : d.parameters ≠ []) (hmod : env.modifyErr = none)
    (hcfg : env.configurations = .ok configs) (hruns : 0 < env.rebootRuns)
    (hr : needsRestart configs d.parameters = true) :
    Event.rebootInstance instanceID ∈ (createParameters d env instanceID).1 := by
  unfold createParameters
  have hlen : d.parameters.length > 0 := List.length_pos.mpr hne
  simp only [hlen, if_true]
  apply runSteps_cons_of_none _ _ _ (by simp [hmod])
  apply runSteps_cons_of_none _ _ _ (by simp [hcfg])
  rw [(runSteps_singleton _).1]
  simp only [hcfg, hr, if_true]
  apply runSteps_cons_of_mem
  exact (mem_flatten_replicate _ _ _).mpr ⟨hruns, List.mem_singleton_self _⟩

theorem createSteps_reboot (d : ResourceData) (env : CreateEnv) (res : CreateResponse)
    (instanceID x : String)
    (h : Event.rebootInstance x ∈ (runSteps (createSteps d env res instanceID)).1) :
    Event.rebootInstance x ∈ (createParameters d env instanceID).1 := by
  unfold createSteps at h
  rcases runSteps_append_mem _ _ _ h with h | ⟨_, h⟩
  · rcases createWaitSteps_events d env res instanceID _ h with h | h | h <;> simp at h
  · rcases runSteps_cons_mem _ _ _ h with h | ⟨_, h⟩
    · have := createSSLStep_events d env _ h
      simp at this
    · unfold createConfigSteps at h
      rcases runSteps_cons_mem _ _ _ h with h | ⟨_, h⟩
      · split at h <;> simp at h
      · rcases runSteps_cons_mem _ _ _ h with h | ⟨_, h⟩
        · exact h
        · rw [(runSteps_singleton _).1] at h
          split at h <;> simp at h

theorem create_reboot (ctx : Context) (env : CreateEnv) (d : ResourceData) (x : String)
    (h : Event.rebootInstance x ∈ (resourceRdsInstanceCreate ctx env d).events) :
    ∃ res, env.create = .ok res
      ∧ Event.rebootInstance x
          ∈ (createParameters { d with id := res.InstanceId } env res.InstanceId).1 := by
  cases hreq : resourceRdsInstanceCreateOpts d env with
  | error dg => simp [resourceRdsInstanceCreate, hreq] at h
  | ok req =>
    cases hres : env.create with
    | error e => simp [resourceRdsInstanceCreate, hreq, hres] at h
    | ok res =>
      refine ⟨res, rfl, ?_⟩
      rw [create_unfold ctx env d req res hreq hres] at h
      apply createSteps_reboot _ env res
      cases hrun : (runSteps (createSteps { d with id := res.InstanceId } env res
          res.InstanceId)).2 with
      | some dg =>
        simp only [hrun, List.mem_append, List.mem_singleton] at h
        rcases h with h | h
        · exact absurd h (by simp)
        · exact h
      | none =>
        simp only [hrun, List.mem_append, List.mem_singleton] at h
        rcases h with (h | h) | h
        · exact absurd h (by simp)
        · exact h
        · rcases read_events _ _ _ _ h with h | h | h <;> simp at h

theorem create_events_of_run (ctx : Context) (env : CreateEnv) (d : ResourceData)
    (req : CreateRequest) (res : CreateResponse)
    (hreq : resourceRdsInstanceCreateOpts d env = .ok req) (hres : env.create = .ok res)
    (ev : Event)
    (h : ev ∈ (runSteps (createSteps { d with id := res.InstanceId } env res
        res.InstanceId)).1) :
    ev ∈ (resourceRdsInstanceCreate ctx env d).events := by
  rw [create_unfold ctx env d req res hreq hres]
  cases hrun : (runSteps (createSteps { d with id := res.InstanceId } env res
      res.InstanceId)).2 with
  | some dg =>
    simp only [List.mem_append]
    exact Or.inr h
  | none =>
    simp only [List.mem_append]
    exact Or.inl (Or.inr h)

theorem createSteps_reach_parameters (d : ResourceData) (env : CreateEnv)
    (res : CreateResponse) (instanceID : String)
    (ho : res.OrderId = "" ∨ (env.bssClientErr = none ∧ env.orderWaitErr = none))
    (hj : res.JobId = "" ∨ env.jobWait = none) (hw : env.createWait = none)
    (hssl : d.ssl_enable = false ∨ (isMySQLDatabase d = true ∧ env.sslErr = none))
    (htag : d.tags = [] ∨ env.tagErr = none) (ev : Event)
    (h : ev ∈ (createParameters d env instanceID).1) :
    ev ∈ (runSteps (createSteps d env res instanceID)).1 := by
  unfold createSteps
  apply runSteps_append_of_none _ _ _ (createWaitSteps_reached d env res instanceID ho hj hw)
  have hs : (createSSLStep d env).2 = none := by
    unfold createSSLStep
    rcases hssl with hs | ⟨hm, he⟩
    · simp [hs]
    · by_cases hs : d.ssl_enable = true
      · simp [hs, hm, he, fromErrStep, configRdsInstanceSSL]
      · simp [hs]
  apply runSteps_cons_of_none _ _ _ hs
  unfold createConfigSteps
  have ht : (if d.tags.length > 0 then
      ([Event.createTags instanceID d.tags],
        env.tagErr.map fun tagErr =>
          diagErrorf ("error setting tags of RDS instance (" ++ instanceID ++ "): " ++ tagErr))
    else ([], none)).2 = none := by
    rcases htag with ht | ht
    · simp [ht]
    · by_cases hl : d.tags.length > 0
      · simp [hl, ht]
      · simp [hl]
  apply runSteps_cons_of_none _ _ _ ht
  exact runSteps_cons_of_mem _ _ _ h

theorem getLast?_cons_of_some (a x : Event) (l : List Event) (h : l.getLast? = some x) :
    (a :: l).getLast? = some x := by
  cases l with
  | nil => simp at h
  | cons b t => rw [List.getLast?_cons_cons]; exact h

/-- C27: whenever Create returns the error `only MySQL database support SSL
enable and disable` (and that text is not the error of the prepaid
validation), the create request was issued and succeeded, the creation wait
returned no error, the resource data is the configuration with the ID set to
the new instance's ID, `ssl_enable` is set and the database is not MySQL; the
first event is the create request, the last one the wait for the target state,
and every event is the create request or one of the waits, so that no tag,
parameter or auto-expansion request was issued.  Conversely, when the create
request and the waits succeed, `ssl_enable` is set and the database is not
MySQL, Create returns that error with the ID set. -/
theorem create_ssl_check_after_creation :
    (∀ ctx env d,
        (resourceRdsInstanceCreate ctx env d).diags
          = diagErrorf "only MySQL database support SSL enable and disable" →
        env.validatePrePaidErr ≠ some "only MySQL database support SSL enable and disable" →
        ∃ req res, resourceRdsInstanceCreateOpts d env = .ok req ∧ env.create = .ok res
          ∧ (resourceRdsInstanceCreate ctx env d).d = { d with id := res.InstanceId }
          ∧ env.createWait = none ∧ d.ssl_enable = true ∧ isMySQLDatabase d = false
          ∧ (resourceRdsInstanceCreate ctx env d).events.head?
              = some (.createInstance req.sent.Name)
          ∧ (resourceRdsInstanceCreate ctx env d).events.getLast?
              = some (.waitState (createStateConf d.timeoutCreate))
          ∧ ∀ ev ∈ (resourceRdsInstanceCreate ctx env d).events,
              ev = .createInstance req.sent.Name ∨ ev = .waitOrder res.OrderId
                ∨ ev = .waitJob res.JobId (jobStateConf d.timeoutCreate)
                ∨ ev = .waitState (createStateConf d.timeoutCreate))
    ∧ (∀ ctx env d req res, resourceRdsInstanceCreateOpts d env = .ok req →
        env.create = .ok res →
        (res.OrderId = "" ∨ (env.bssClientErr = none ∧ env.orderWaitErr = none)) →
        (res.JobId = "" ∨ env.jobWait = none) → env.createWait = none →
        d.ssl_enable = true → isMySQLDatabase d = false →
        (resourceRdsInstanceCreate ctx env d).diags
            = diagErrorf "only MySQL database support SSL enable and disable"
          ∧ (resourceRdsInstanceCreate ctx env d).d = { d with id := res.InstanceId }) := by
  refine ⟨?_, ?_⟩
  · intro ctx env d h hv
    obtain ⟨req, res, hreq, hres, hwn, hs, hm, heq⟩ := create_ssl_error_cases ctx env d h hv
    obtain ⟨hw, hlast⟩ := createWaitSteps_none _ env res _ hwn
    refine ⟨req, res, hreq, hres, ?_, hw, hs, hm, ?_, ?_, ?_⟩
    · rw [heq]
    · rw [heq]
      rfl
    · rw [heq]
      exact getLast?_cons_of_some _ _ _ hlast
    · rw [heq]
      intro ev hev
      rcases List.mem_cons.mp hev with hev | hev
      · exact Or.inl hev
      · exact Or.inr (createWaitSteps_events _ env res _ ev hev)
  · intro ctx env d req res hreq hres ho hj hw hs hm
    have hwn := createWaitSteps_reached { d with id := res.InstanceId } env res
      res.InstanceId ho hj hw
    have hssl : createSSLStep { d with id := res.InstanceId } env
        = ([], some (diagErrorf "only MySQL database support SSL enable and disable")) := by
      have hm2 : isMySQLDatabase { d with id := res.InstanceId } = false := hm
      have hs2 : ({ d with id := res.InstanceId } : ResourceData).ssl_enable = true := hs
      unfold createSSLStep
      rw [if_pos hs2, hm2]
      rfl
    rw [create_unfold ctx env d req res hreq hres]
    unfold createSteps
    rw [runSteps_append, hwn]
    simp only
    rw [runSteps_cons, hssl]
    exact ⟨rfl, rfl⟩

/-- Instance of C27: a create of the SQL Server configuration with `ssl_enable`
set, in which the request and the wait for the order succeed, returns the
error with the ID `rds-1` set. -/
theorem create_ssl_check_sample :
    (resourceRdsInstanceCreate [] createdEnv sslSQLServerData).diags
        = diagErrorf "only MySQL database support SSL enable and disable"
      ∧ (resourceRdsInstanceCreate [] createdEnv sslSQLServerData).d
          = { sslSQLServerData with id := "rds-1" } :=
  match h : resourceRdsInstanceCreateOpts sslSQLServerData createdEnv with
  | .ok req =>
    create_ssl_check_after_creation.2 [] createdEnv sslSQLServerData req
      { InstanceId := "rds-1", OrderId := "order-1" } h rfl (Or.inr ⟨rfl, rfl⟩) (Or.inl rfl)
      rfl rfl (by decide)
  | .error e => by simp [resourceRdsInstanceCreateOpts, sslSQLServerData, prePaidData,
      createdEnv] at h

/-- C29: the nested loops of Create set `restart` if and only if a configured
parameter has a name that occurs in the remote configuration and the first
remote entry of that name has the restart flag set, for every list of
configured parameters and every list of remote entries.  Create sends a reboot
request only if the parameters were applied, the configuration was fetched and
that condition holds; and when Create gets as far as the parameter section,
the modification succeeds and the configuration is fetched, it sends the
reboot request if and only if the condition holds. -/
theorem create_reboot_iff_restart_flag :
    (∀ configs parametersRaw,
        needsRestart configs parametersRaw = true ↔ RebootCondition configs parametersRaw)
    ∧ (∀ ctx env d x,
        Event.rebootInstance x ∈ (resourceRdsInstanceCreate ctx env d).events →
        ∃ res configs, env.create = .ok res ∧ x = res.InstanceId ∧ d.parameters ≠ []
          ∧ env.modifyErr = none ∧ env.configurations = .ok configs
          ∧ RebootCondition configs d.parameters)
    ∧ (∀ ctx env d req res configs, resourceRdsInstanceCreateOpts d env = .ok req →
        env.create = .ok res →
        (res.OrderId = "" ∨ (env.bssClientErr = none ∧ env.orderWaitErr = none)) →
        (res.JobId = "" ∨ env.jobWait = none) → env.createWait = none →
        (d.ssl_enable = false ∨ (isMySQLDatabase d = true ∧ env.sslErr = none)) →
        (d.tags = [] ∨ env.tagErr = none) →
        d.parameters ≠ [] → env.modifyErr = none → env.configurations = .ok configs →
        0 < env.rebootRuns →
        (Event.rebootInstance res.InstanceId ∈ (resourceRdsInstanceCreate ctx env d).events
          ↔ RebootCondition configs d.parameters)) := by
  have fwd : ∀ ctx env d x,
      Event.rebootInstance x ∈ (resourceRdsInstanceCreate ctx env d).events →
      ∃ res configs, env.create = .ok res ∧ x = res.InstanceId ∧ d.parameters ≠ []
        ∧ env.modifyErr = none ∧ env.configurations = .ok configs
        ∧ RebootCondition configs d.parameters := by
    intro ctx env d x h
    obtain ⟨res, hres, hmem⟩ := create_reboot ctx env d x h
    obtain ⟨hx, hne, hmod, _, configs, hcfg, hr⟩ := createParameters_reboot _ env _ x hmem
    exact ⟨res, configs, hres, hx, hne, hmod, hcfg, (needsRestart_iff _ _).mp hr⟩
  refine ⟨needsRestart_iff, fwd, ?_⟩
  intro ctx env d req res configs hreq hres ho hj hw hssl htag hne hmod hcfg hruns
  constructor
  · intro h
    obtain ⟨res2, configs2, _, _, _, _, hcfg2, hcond⟩ := fwd ctx env d _ h
    rw [hcfg] at hcfg2
    simp only [Except.ok.injEq] at hcfg2
    rw [hcfg2]
    exact hcond
  · intro hcond
    apply create_events_of_run ctx env d req res hreq hres
    exact createSteps_reach_parameters { d with id := res.InstanceId } env res res.InstanceId
      ho hj hw hssl htag _
      (createParameters_reboot_of { d with id := res.InstanceId } env res.InstanceId configs
        hne hmod hcfg hruns ((needsRestart_iff _ _).mpr hcond))

/-- Instance of C29: a create with the parameter `connect_timeout`, which the
remote configuration flags as requiring a restart, reboots the new instance. -/
theorem create_reboot_sample :
    RebootCondition [{ Name := "connect_timeout", Value := "14", Restart := true }]
        paramCreateData.parameters
      ∧ Event.rebootInstance "rds-1"
          ∈ (resourceRdsInstanceCreate [] paramCreateEnv paramCreateData).events :=
  have hcond : RebootCondition [{ Name := "connect_timeout", Value := "14", Restart := true }]
      paramCreateData.parameters :=
    ⟨⟨"connect_timeout", "14"⟩, by decide, 0, ⟨"connect_timeout", "14", true⟩, rfl, rfl, rfl,
      fun j _ hj => absurd hj (Nat.not_lt_zero j)⟩
  match h : resourceRdsInstanceCreateOpts paramCreateData paramCreateEnv with
  | .ok req =>
    ⟨hcond, (create_reboot_iff_restart_flag.2.2 [] paramCreateEnv paramCreateData req
      { InstanceId := "rds-1", JobId := "job-1" }
      [{ Name := "connect_timeout", Value := "14", Restart := true }] h rfl (Or.inl rfl)
      (Or.inr rfl) rfl (Or.inl rfl) (Or.inl rfl) (by decide) rfl rfl (by decide)).mpr hcond⟩
  | .error e => by
    simp [resourceRdsInstanceCreateOpts, paramCreateData, paramCreateEnv,
      (by decide : ¬ ("" : String) = "prePaid")] at h

end Rds
